import Mathlib

/-! # Power HAL wrappers and controller

A shallow embedding of `services/powermanager/PowerHalWrapper.cpp`,
`services/powermanager/PowerHalController.cpp` and
`include/powermanager/PowerHalWrapper.h`.

Every call that leaves the process (a remote HAL call, a call on the injected
`HalConnector`) and every virtual `HalWrapper` entry point is appended to a
trace of events, so that statements of the form "issues exactly one call" can
be read off the trace.  What a remote call answers is supplied by an
environment `Env`, which may depend on everything that happened before; the
environment also fixes the one order of evaluation that the code leaves to the
compiler (the two arguments of the `fromStatus` call in
`AidlHalWrapper::createHintSession`).
-/

namespace PowerHal

/-! ## Outcome type and transport statuses -/

/-- Modelled from the spec: `powermanager/HalResult.h` is not among the sources.
Section 3 of the specification: an outcome is exactly one of `Ok(value)`,
`Unsupported`, `Failed(message)`. -/
inductive HalResult (α : Type) where
  | ok (value : α)
  | unsupported
  | failed (message : String)
deriving DecidableEq, Repr

/-- Predicate `isOk()` of the outcome type. -/
def HalResult.isOk {α : Type} : HalResult α → Bool
  | .ok _ => true
  | _ => false

/-- Predicate `isUnsupported()` of the outcome type. -/
def HalResult.isUnsupported {α : Type} : HalResult α → Bool
  | .unsupported => true
  | _ => false

/-- Predicate `isFailed()` of the outcome type. -/
def HalResult.isFailed {α : Type} : HalResult α → Bool
  | .failed _ => true
  | _ => false

/-- Exception code `binder::Status::EX_NONE` (declared in `binder/Status.h`, which is
not among the sources). -/
def EX_NONE : Int := 0

/-- Exception code `binder::Status::EX_UNSUPPORTED_OPERATION` (declared in
`binder/Status.h`, which is not among the sources). -/
def EX_UNSUPPORTED_OPERATION : Int := -7

/-- The part of a `binder::Status` the wrappers look at: the exception code and the
text `toString8()` renders. -/
structure Status where
  mException : Int
  text : String
deriving DecidableEq, Repr

/-- Method `binder::Status::exceptionCode()`. -/
def Status.exceptionCode (s : Status) : Int := s.mException

/-- Method `binder::Status::isOk()`: the exception code is `EX_NONE`. -/
def Status.isOk (s : Status) : Bool := s.mException == EX_NONE

/-- Method `binder::Status::toString8()`. -/
def Status.toString8 (s : Status) : String := s.text

/-- The part of a `hardware::Return<R>` the wrappers look at: whether the transport
succeeded and the description of the failure. -/
structure HidlReturn where
  ok : Bool
  desc : String
deriving DecidableEq, Repr

/-- Method `hardware::Return<R>::isOk()`. -/
def HidlReturn.isOk (r : HidlReturn) : Bool := r.ok

/-- Method `hardware::Return<R>::description()`. -/
def HidlReturn.description (r : HidlReturn) : String := r.desc

/-- Source function `HalResult<void>::fromStatus(binder::Status)`, PowerHalWrapper.cpp lines 65-73. -/
def HalResult.fromStatus (status : Status) : HalResult Unit :=
  if status.exceptionCode == EX_UNSUPPORTED_OPERATION then
    HalResult.unsupported
  else if status.isOk then
    HalResult.ok ()
  else
    HalResult.failed status.toString8

/-- Modelled from the spec: `HalResult<T>::fromStatus(binder::Status, T)` lives in
`powermanager/HalResult.h`, which is not among the sources.  Section 4.1(b): the
unsupported-operation exception code maps to `Unsupported`, an ok status to `Ok`
carrying the data, anything else to `Failed`. -/
def HalResult.fromStatusWith {α : Type} (status : Status) (data : α) : HalResult α :=
  if status.exceptionCode == EX_UNSUPPORTED_OPERATION then
    HalResult.unsupported
  else if status.isOk then
    HalResult.ok data
  else
    HalResult.failed status.toString8

/-- Source function `toHalResult(const binder::Status&)`, PowerHalWrapper.cpp lines 35-41. -/
def toHalResult (result : Status) : HalResult Unit :=
  if result.isOk then
    HalResult.ok ()
  else
    HalResult.fromStatus result

/-- Source function `HalResult<void>::fromReturn(hardware::Return<R>&)`, PowerHalWrapper.cpp lines 75-78. -/
def HalResult.fromReturn (ret : HidlReturn) : HalResult Unit :=
  if ret.isOk then HalResult.ok () else HalResult.failed ret.description

/-! ## Enumerations of the HAL interfaces

`Boost` and `Mode` are `int32_t`-backed AIDL enums; a value of the type may be any
32-bit integer, so they are integers here and the enumerators are constants.
The enumerator values are those of the AIDL and HIDL interface definitions. -/

abbrev Boost := Int
abbrev Mode := Int

def Boost.INTERACTION : Boost := 0
def Boost.CAMERA_LAUNCH : Boost := 4
def Boost.CAMERA_SHOT : Boost := 5

def Mode.DOUBLE_TAP_TO_WAKE : Mode := 0
def Mode.LOW_POWER : Mode := 1
def Mode.SUSTAINED_PERFORMANCE : Mode := 2
def Mode.VR : Mode := 4
def Mode.LAUNCH : Mode := 5
def Mode.EXPENSIVE_RENDERING : Mode := 6
def Mode.INTERACTIVE : Mode := 7
def Mode.AUDIO_STREAMING_LOW_LATENCY : Mode := 10
def Mode.CAMERA_STREAMING_SECURE : Mode := 11
def Mode.CAMERA_STREAMING_LOW : Mode := 12
def Mode.CAMERA_STREAMING_MID : Mode := 13
def Mode.CAMERA_STREAMING_HIGH : Mode := 14

/-- Hint codes `V1_3::PowerHint` used by the wrappers (the V1_0 and V1_2 enums are
prefixes of it, so the `static_cast`s between them keep the code). -/
inductive PowerHint where
  | INTERACTION
  | LOW_POWER
  | SUSTAINED_PERFORMANCE
  | VR_MODE
  | LAUNCH
  | AUDIO_LOW_LATENCY
  | CAMERA_LAUNCH
  | CAMERA_STREAMING
  | CAMERA_SHOT
  | EXPENSIVE_RENDERING
deriving DecidableEq, Repr

/-- Feature codes `V1_0::Feature` used by the wrappers. -/
inductive Feature where
  | POWER_FEATURE_DOUBLE_TAP_TO_WAKE
deriving DecidableEq, Repr

/-- State of Power HAL support for individual apis, PowerHalWrapper.h lines 42-46. -/
inductive HalSupport where
  | UNKNOWN
  | ON
  | OFF
deriving DecidableEq, Repr

/-! ## Events, traces and the environment -/

/-- A raw interface handle, as supplied by the loader. A nullable pointer to one is an
`Option Handle`. -/
abbrev Handle := Nat

/-- A (nullable) hint session pointer produced by the HAL. -/
abbrev SessionPtr := Option Nat

/-- A channel configuration produced by the HAL; its content is not inspected. -/
abbrev ChannelConfig := Nat

/-- The operations of the capability interface `HalWrapper`, with their arguments. -/
inductive HalOp where
  | setBoost (boost : Boost) (durationMs : Int)
  | setMode (mode : Mode) (enabled : Bool)
  | createHintSession (tgid uid : Int) (threadIds : List Int) (durationNanos : Int)
  | createHintSessionWithConfig (tgid uid : Int) (threadIds : List Int)
      (durationNanos : Int) (tag : Int)
  | getHintSessionPreferredRate
  | getSessionChannel (tgid uid : Int)
  | closeSessionChannel (tgid uid : Int)
deriving DecidableEq, Repr

/-- The calls made on raw handles. -/
inductive Method where
  -- aidl IPower
  | isBoostSupported (boost : Boost)
  | setBoost (boost : Boost) (durationMs : Int)
  | isModeSupported (mode : Mode)
  | setMode (mode : Mode) (enabled : Bool)
  | createHintSession (tgid uid : Int) (threadIds : List Int) (durationNanos : Int)
  | createHintSessionWithConfig (tgid uid : Int) (threadIds : List Int)
      (durationNanos : Int) (tag : Int)
  | getHintSessionPreferredRate
  | getSessionChannel (tgid uid : Int)
  | closeSessionChannel (tgid uid : Int)
  -- V1_0::IPower
  | powerHint (hintId : PowerHint) (data : Nat)
  | setInteractive (enabled : Bool)
  | setFeature (feature : Feature) (enabled : Bool)
  -- V1_1::IPower, V1_2::IPower, V1_3::IPower
  | powerHintAsync (hintId : PowerHint) (data : Nat)
  | powerHintAsync_1_2 (hintId : PowerHint) (data : Nat)
  | powerHintAsync_1_3 (hintId : PowerHint) (data : Nat)
  -- ISehMiscPower
  | setInteractiveAsync (enabled : Bool) (flag : Bool)
deriving DecidableEq, Repr

/-- What a remote call hands back. A call reads only the fields its C++ signature has:
`status` for an AIDL call, `ret` for a HIDL call, `flag` for the `bool*`
out-parameter of a support query, `session`, `rate` and `channel` for the
out-parameters of the session calls. -/
structure Reply where
  status : Status
  ret : HidlReturn
  flag : Bool
  session : SessionPtr
  rate : Int
  channel : ChannelConfig
deriving DecidableEq, Repr

/-- Everything observable that the code does, in program order. -/
inductive Event where
  /-- A call of `mHalConnector->connect()`. -/
  | connect
  /-- A call of `mHalConnector->reset()`. -/
  | reset
  /-- Entry into a virtual `HalWrapper` operation. -/
  | hal (op : HalOp)
  /-- A call of method `m` through the raw handle pointer `handle`; `none` is a null
  pointer. -/
  | remote (handle : Option Handle) (m : Method)
deriving DecidableEq, Repr

abbrev Trace := List Event

/-- Unsigned 32-bit view of an `int32_t`, as in the implicit conversion of
`durationMs` to the `uint32_t data` parameter of `sendPowerHint`. -/
def toUInt32 (v : Int) : Nat := (v % 2 ^ 32).toNat

/-- Signed 32-bit view of a `uint32_t`, as in the implicit conversion of the
`uint32_t data` of `sendPowerHint` to the `int32_t data` parameter through which the
HIDL hint methods (`IPower::powerHint` and its variants, declared in
hardware/interfaces and not among the sources) receive the payload. -/
def toInt32 (n : Nat) : Int :=
  if n % 2 ^ 32 < 2 ^ 31 then ((n % 2 ^ 32 : Nat) : Int) else ((n % 2 ^ 32 : Nat) : Int) - 2 ^ 32

/-- The conversion `static_cast<size_t>(v)` of an `int32_t` enum value on a 64-bit
target: sign extension, then reinterpretation as unsigned. -/
def toSizeT (v : Int) : Nat := (v % 2 ^ 64).toNat

/-- The payload `enabled ? 1 : 0`. -/
def boolData (enabled : Bool) : Nat := if enabled then 1 else 0

/-! ## Backend variants -/

/-- Source function `EmptyHalWrapper::setBoost`, PowerHalWrapper.cpp lines 81-85. -/
def EmptyHalWrapper.setBoost (_boost : Boost) (_durationMs : Int) : HalResult Unit :=
  HalResult.unsupported

/-- Source function `EmptyHalWrapper::setMode`, PowerHalWrapper.cpp lines 87-91. -/
def EmptyHalWrapper.setMode (_mode : Mode) (_enabled : Bool) : HalResult Unit :=
  HalResult.unsupported

/-- Source function `EmptyHalWrapper::createHintSession`, PowerHalWrapper.cpp lines 93-98. -/
def EmptyHalWrapper.createHintSession (_tgid _uid : Int) (_threadIds : List Int)
    (_durationNanos : Int) : HalResult SessionPtr :=
  HalResult.unsupported

/-- Source function `EmptyHalWrapper::getHintSessionPreferredRate`, PowerHalWrapper.cpp lines 100-103. -/
def EmptyHalWrapper.getHintSessionPreferredRate : HalResult Int :=
  HalResult.unsupported

/-- Modelled from the spec: `EmptyHalWrapper::createHintSessionWithConfig` is declared in
PowerHalWrapper.h line 81 but its body is not among the sources.  Section 4.2:
the default behaviour of every operation is to return `Unsupported` without any
outbound call. -/
def EmptyHalWrapper.createHintSessionWithConfig (_tgid _uid : Int) (_threadIds : List Int)
    (_durationNanos : Int) (_tag : Int) : HalResult SessionPtr :=
  HalResult.unsupported

/-- Modelled from the spec: `EmptyHalWrapper::getSessionChannel` is declared in
PowerHalWrapper.h line 86 but its body is not among the sources.  Section 4.2:
the default behaviour of every operation is to return `Unsupported` without any
outbound call. -/
def EmptyHalWrapper.getSessionChannel (_tgid _uid : Int) : HalResult ChannelConfig :=
  HalResult.unsupported

/-- Modelled from the spec: `EmptyHalWrapper::closeSessionChannel` is declared in
PowerHalWrapper.h line 88 but its body is not among the sources.  Section 4.2:
the default behaviour of every operation is to return `Unsupported` without any
outbound call. -/
def EmptyHalWrapper.closeSessionChannel (_tgid _uid : Int) : HalResult Unit :=
  HalResult.unsupported

/-- The four classes `HidlHalWrapperV1_0` .. `HidlHalWrapperV1_3`. -/
inductive HidlGen where
  | v1_0
  | v1_1
  | v1_2
  | v1_3
deriving DecidableEq, Repr

/-- An object of one of the classes `HidlHalWrapperV1_0` .. `HidlHalWrapperV1_3`: its
dynamic class and the one field `mHandleV1_0` they all share. -/
structure HidlHalWrapper where
  gen : HidlGen
  mHandleV1_0 : Option Handle
deriving DecidableEq, Repr

/-- An object of class `AidlHalWrapper`, PowerHalWrapper.h lines 153-196. -/
structure AidlHalWrapper where
  mHandle : Option Handle
  mHandleSeh : Option Handle
  mBoostSupportedArray : List HalSupport
  mModeSupportedArray : List HalSupport
deriving DecidableEq, Repr

/-- An object of class `HidlHalWrapperSeh`, PowerHalWrapper.h lines 198-224. -/
structure HidlHalWrapperSeh where
  mHandleSeh : Option Handle
  mHandle11 : Option Handle
  mHandle10 : Option Handle
deriving DecidableEq, Repr

/-- An object behind a `HalWrapper` pointer: one of the concrete classes. -/
inductive HalWrapper where
  | empty
  | hidl (w : HidlHalWrapper)
  | aidl (w : AidlHalWrapper)
  | seh (w : HidlHalWrapperSeh)
deriving DecidableEq, Repr

/-- The environment of the code: what each remote call answers and what the injected
connector returns, given everything that has happened so far, and the one choice the
code leaves to the compiler.  `sessionArgFirst` is the order in which the two arguments
of the `fromStatus` call of `AidlHalWrapper::createHintSession` (PowerHalWrapper.cpp
lines 293-295) are evaluated, which C++ does not fix: `true` when the second argument,
the local `appSession`, is read before the first argument, the remote call that fills
it, has run. -/
structure Env where
  remote : Trace → Option Handle → Method → Reply
  connect : Trace → Option HalWrapper
  sessionArgFirst : Bool

/-- The answer to calling `m` through `handle` after the events `tr`. -/
def Env.reply (env : Env) (tr : Trace) (handle : Option Handle) (m : Method) : Reply :=
  env.remote tr handle m

/-- The trace once `m` has been called through `handle`. -/
def record (tr : Trace) (handle : Option Handle) (m : Method) : Trace :=
  tr ++ [Event.remote handle m]

/-! ### HIDL wrappers 1.0 to 1.3 -/

/-- Source function `HidlHalWrapperV1_0::sendPowerHint`, PowerHalWrapper.cpp lines 138-141. -/
def HidlHalWrapperV1_0.sendPowerHint (env : Env) (self : HidlHalWrapper) (tr : Trace)
    (hintId : PowerHint) (data : Nat) : HalResult Unit × Trace :=
  let ret := (env.reply tr self.mHandleV1_0 (Method.powerHint hintId data)).ret
  (HalResult.fromReturn ret, record tr self.mHandleV1_0 (Method.powerHint hintId data))

/-- Source function `HidlHalWrapperV1_1::sendPowerHint`, PowerHalWrapper.cpp lines 167-171. -/
def HidlHalWrapperV1_1.sendPowerHint (env : Env) (self : HidlHalWrapper) (tr : Trace)
    (hintId : PowerHint) (data : Nat) : HalResult Unit × Trace :=
  let handle := self.mHandleV1_0
  let ret := (env.reply tr handle (Method.powerHintAsync hintId data)).ret
  (HalResult.fromReturn ret, record tr handle (Method.powerHintAsync hintId data))

/-- Source function `HidlHalWrapperV1_2::sendPowerHint`, PowerHalWrapper.cpp lines 175-179. -/
def HidlHalWrapperV1_2.sendPowerHint (env : Env) (self : HidlHalWrapper) (tr : Trace)
    (hintId : PowerHint) (data : Nat) : HalResult Unit × Trace :=
  let handle := self.mHandleV1_0
  let ret := (env.reply tr handle (Method.powerHintAsync_1_2 hintId data)).ret
  (HalResult.fromReturn ret, record tr handle (Method.powerHintAsync_1_2 hintId data))

/-- Source function `HidlHalWrapperV1_3::sendPowerHint`, PowerHalWrapper.cpp lines 217-221. -/
def HidlHalWrapperV1_3.sendPowerHint (env : Env) (self : HidlHalWrapper) (tr : Trace)
    (hintId : PowerHint) (data : Nat) : HalResult Unit × Trace :=
  let handle := self.mHandleV1_0
  let ret := (env.reply tr handle (Method.powerHintAsync_1_3 hintId data)).ret
  (HalResult.fromReturn ret, record tr handle (Method.powerHintAsync_1_3 hintId data))

/-- The virtual call `sendPowerHint(hintId, data)` on a HIDL wrapper: the override of the
object's dynamic class runs. -/
def HidlHalWrapper.sendPowerHint (env : Env) (self : HidlHalWrapper) (tr : Trace)
    (hintId : PowerHint) (data : Nat) : HalResult Unit × Trace :=
  match self.gen with
  | .v1_0 => HidlHalWrapperV1_0.sendPowerHint env self tr hintId data
  | .v1_1 => HidlHalWrapperV1_1.sendPowerHint env self tr hintId data
  | .v1_2 => HidlHalWrapperV1_2.sendPowerHint env self tr hintId data
  | .v1_3 => HidlHalWrapperV1_3.sendPowerHint env self tr hintId data

/-- Source function `HidlHalWrapperV1_0::setInteractive`, PowerHalWrapper.cpp lines 143-146. -/
def HidlHalWrapperV1_0.setInteractive (env : Env) (self : HidlHalWrapper) (tr : Trace)
    (enabled : Bool) : HalResult Unit × Trace :=
  let ret := (env.reply tr self.mHandleV1_0 (Method.setInteractive enabled)).ret
  (HalResult.fromReturn ret, record tr self.mHandleV1_0 (Method.setInteractive enabled))

/-- Source function `HidlHalWrapperV1_0::setFeature`, PowerHalWrapper.cpp lines 148-151. -/
def HidlHalWrapperV1_0.setFeature (env : Env) (self : HidlHalWrapper) (tr : Trace)
    (feature : Feature) (enabled : Bool) : HalResult Unit × Trace :=
  let ret := (env.reply tr self.mHandleV1_0 (Method.setFeature feature enabled)).ret
  (HalResult.fromReturn ret, record tr self.mHandleV1_0 (Method.setFeature feature enabled))

/-- Source function `HidlHalWrapperV1_0::setBoost`, PowerHalWrapper.cpp lines 107-114. -/
def HidlHalWrapperV1_0.setBoost (env : Env) (self : HidlHalWrapper) (tr : Trace)
    (boost : Boost) (durationMs : Int) : HalResult Unit × Trace :=
  if boost = Boost.INTERACTION then
    HidlHalWrapper.sendPowerHint env self tr PowerHint.INTERACTION (toUInt32 durationMs)
  else
    (HalResult.unsupported, tr)

/-- Source function `HidlHalWrapperV1_0::setMode`, PowerHalWrapper.cpp lines 116-136. -/
def HidlHalWrapperV1_0.setMode (env : Env) (self : HidlHalWrapper) (tr : Trace)
    (mode : Mode) (enabled : Bool) : HalResult Unit × Trace :=
  let data := boolData enabled
  if mode = Mode.LAUNCH then
    HidlHalWrapper.sendPowerHint env self tr PowerHint.LAUNCH data
  else if mode = Mode.LOW_POWER then
    HidlHalWrapper.sendPowerHint env self tr PowerHint.LOW_POWER data
  else if mode = Mode.SUSTAINED_PERFORMANCE then
    HidlHalWrapper.sendPowerHint env self tr PowerHint.SUSTAINED_PERFORMANCE data
  else if mode = Mode.VR then
    HidlHalWrapper.sendPowerHint env self tr PowerHint.VR_MODE data
  else if mode = Mode.INTERACTIVE then
    HidlHalWrapperV1_0.setInteractive env self tr enabled
  else if mode = Mode.DOUBLE_TAP_TO_WAKE then
    HidlHalWrapperV1_0.setFeature env self tr Feature.POWER_FEATURE_DOUBLE_TAP_TO_WAKE enabled
  else
    (HalResult.unsupported, tr)

/-- Source function `HidlHalWrapperV1_0::createHintSession`, PowerHalWrapper.cpp lines 153-158. -/
def HidlHalWrapperV1_0.createHintSession (_tgid _uid : Int) (_threadIds : List Int)
    (_durationNanos : Int) : HalResult SessionPtr :=
  HalResult.unsupported

/-- Source function `HidlHalWrapperV1_0::getHintSessionPreferredRate`, PowerHalWrapper.cpp lines 160-163. -/
def HidlHalWrapperV1_0.getHintSessionPreferredRate : HalResult Int :=
  HalResult.unsupported

/-- Source function `HidlHalWrapperV1_2::setBoost`, PowerHalWrapper.cpp lines 181-190. The default
branch runs `HidlHalWrapperV1_1::setBoost`, which class 1.1 inherits from 1.0. -/
def HidlHalWrapperV1_2.setBoost (env : Env) (self : HidlHalWrapper) (tr : Trace)
    (boost : Boost) (durationMs : Int) : HalResult Unit × Trace :=
  if boost = Boost.CAMERA_SHOT then
    HidlHalWrapper.sendPowerHint env self tr PowerHint.CAMERA_SHOT (toUInt32 durationMs)
  else if boost = Boost.CAMERA_LAUNCH then
    HidlHalWrapper.sendPowerHint env self tr PowerHint.CAMERA_LAUNCH (toUInt32 durationMs)
  else
    HidlHalWrapperV1_0.setBoost env self tr boost durationMs

/-- Source function `HidlHalWrapperV1_2::setMode`, PowerHalWrapper.cpp lines 192-205. The default
branch runs `HidlHalWrapperV1_1::setMode`, which class 1.1 inherits from 1.0. -/
def HidlHalWrapperV1_2.setMode (env : Env) (self : HidlHalWrapper) (tr : Trace)
    (mode : Mode) (enabled : Bool) : HalResult Unit × Trace :=
  let data := boolData enabled
  if mode = Mode.CAMERA_STREAMING_SECURE ∨ mode = Mode.CAMERA_STREAMING_LOW ∨
      mode = Mode.CAMERA_STREAMING_MID ∨ mode = Mode.CAMERA_STREAMING_HIGH then
    HidlHalWrapper.sendPowerHint env self tr PowerHint.CAMERA_STREAMING data
  else if mode = Mode.AUDIO_STREAMING_LOW_LATENCY then
    HidlHalWrapper.sendPowerHint env self tr PowerHint.AUDIO_LOW_LATENCY data
  else
    HidlHalWrapperV1_0.setMode env self tr mode enabled

/-- Source function `HidlHalWrapperV1_3::setMode`, PowerHalWrapper.cpp lines 209-215. -/
def HidlHalWrapperV1_3.setMode (env : Env) (self : HidlHalWrapper) (tr : Trace)
    (mode : Mode) (enabled : Bool) : HalResult Unit × Trace :=
  let data := boolData enabled
  if mode = Mode.EXPENSIVE_RENDERING then
    HidlHalWrapper.sendPowerHint env self tr PowerHint.EXPENSIVE_RENDERING data
  else
    HidlHalWrapperV1_2.setMode env self tr mode enabled

/-- The virtual call `setBoost` on a HIDL wrapper: 1.0 defines it, 1.1 inherits it,
1.2 overrides it, 1.3 inherits the override. -/
def HidlHalWrapper.setBoost (env : Env) (self : HidlHalWrapper) (tr : Trace)
    (boost : Boost) (durationMs : Int) : HalResult Unit × Trace :=
  match self.gen with
  | .v1_0 => HidlHalWrapperV1_0.setBoost env self tr boost durationMs
  | .v1_1 => HidlHalWrapperV1_0.setBoost env self tr boost durationMs
  | .v1_2 => HidlHalWrapperV1_2.setBoost env self tr boost durationMs
  | .v1_3 => HidlHalWrapperV1_2.setBoost env self tr boost durationMs

/-- The virtual call `setMode` on a HIDL wrapper: 1.0 defines it, 1.1 inherits it,
1.2 and 1.3 override it. -/
def HidlHalWrapper.setMode (env : Env) (self : HidlHalWrapper) (tr : Trace)
    (mode : Mode) (enabled : Bool) : HalResult Unit × Trace :=
  match self.gen with
  | .v1_0 => HidlHalWrapperV1_0.setMode env self tr mode enabled
  | .v1_1 => HidlHalWrapperV1_0.setMode env self tr mode enabled
  | .v1_2 => HidlHalWrapperV1_2.setMode env self tr mode enabled
  | .v1_3 => HidlHalWrapperV1_3.setMode env self tr mode enabled

/-! ### AIDL wrapper -/

/-- Source function `AidlHalWrapper::setBoost`, PowerHalWrapper.cpp lines 225-255. -/
def AidlHalWrapper.setBoost (env : Env) (self : AidlHalWrapper) (tr : Trace)
    (boost : Boost) (durationMs : Int) : HalResult Unit × AidlHalWrapper × Trace :=
  let idx := toSizeT boost
  if idx ≥ self.mBoostSupportedArray.length ∨
      self.mBoostSupportedArray.getD idx HalSupport.UNKNOWN = HalSupport.OFF then
    (HalResult.unsupported, self, tr)
  else if self.mBoostSupportedArray.getD idx HalSupport.UNKNOWN = HalSupport.UNKNOWN then
    let isSupportedRet := env.reply tr self.mHandle (Method.isBoostSupported boost)
    let tr1 := record tr self.mHandle (Method.isBoostSupported boost)
    if ¬ isSupportedRet.status.isOk then
      (HalResult.fromStatus isSupportedRet.status, self, tr1)
    else
      let isSupported := isSupportedRet.flag
      let self1 := { self with
        mBoostSupportedArray :=
          self.mBoostSupportedArray.set idx (if isSupported then HalSupport.ON else HalSupport.OFF) }
      if ¬ isSupported then
        (HalResult.unsupported, self1, tr1)
      else
        (toHalResult (env.reply tr1 self.mHandle (Method.setBoost boost durationMs)).status,
          self1, record tr1 self.mHandle (Method.setBoost boost durationMs))
  else
    (toHalResult (env.reply tr self.mHandle (Method.setBoost boost durationMs)).status,
      self, record tr self.mHandle (Method.setBoost boost durationMs))

/-- Lines 261-263 of `AidlHalWrapper::setMode`: the notification of the vendor side
channel, whose result is not looked at. -/
def AidlHalWrapper.notifySeh (self : AidlHalWrapper) (tr : Trace) (mode : Mode)
    (enabled : Bool) : Trace :=
  if self.mHandleSeh ≠ none ∧ mode = Mode.INTERACTIVE then
    record tr self.mHandleSeh (Method.setInteractiveAsync enabled false)
  else
    tr

/-- Source function `AidlHalWrapper::setMode`, PowerHalWrapper.cpp lines 257-288. -/
def AidlHalWrapper.setMode (env : Env) (self : AidlHalWrapper) (tr : Trace)
    (mode : Mode) (enabled : Bool) : HalResult Unit × AidlHalWrapper × Trace :=
  let idx := toSizeT mode
  let tr0 := self.notifySeh tr mode enabled
  if idx ≥ self.mModeSupportedArray.length ∨
      self.mModeSupportedArray.getD idx HalSupport.UNKNOWN = HalSupport.OFF then
    (HalResult.unsupported, self, tr0)
  else if self.mModeSupportedArray.getD idx HalSupport.UNKNOWN = HalSupport.UNKNOWN then
    let isSupportedRet := env.reply tr0 self.mHandle (Method.isModeSupported mode)
    let tr1 := record tr0 self.mHandle (Method.isModeSupported mode)
    if ¬ isSupportedRet.status.isOk then
      (HalResult.failed isSupportedRet.status.toString8, self, tr1)
    else
      let isSupported := isSupportedRet.flag
      let self1 := { self with
        mModeSupportedArray :=
          self.mModeSupportedArray.set idx (if isSupported then HalSupport.ON else HalSupport.OFF) }
      if ¬ isSupported then
        (HalResult.unsupported, self1, tr1)
      else
        (toHalResult (env.reply tr1 self.mHandle (Method.setMode mode enabled)).status,
          self1, record tr1 self.mHandle (Method.setMode mode enabled))
  else
    (toHalResult (env.reply tr0 self.mHandle (Method.setMode mode enabled)).status,
      self, record tr0 self.mHandle (Method.setMode mode enabled))

/-- Source function `AidlHalWrapper::createHintSession`, PowerHalWrapper.cpp lines 290-296.
The local `sp<IPowerHintSession> appSession` starts null (line 292).  The remote call that
fills it and `appSession` itself are the two arguments of one `fromStatus` call (lines
293-295), so the data handed to `fromStatus` is the session the call produced only when
the call is evaluated first; when `appSession` is read first the data is still null.
The sibling `getHintSessionPreferredRate` (lines 298-302) stores the status in a local
before it reads `rate`, so there the order is fixed. -/
def AidlHalWrapper.createHintSession (env : Env) (self : AidlHalWrapper) (tr : Trace)
    (tgid uid : Int) (threadIds : List Int) (durationNanos : Int) :
    HalResult SessionPtr × Trace :=
  let r := env.reply tr self.mHandle (Method.createHintSession tgid uid threadIds durationNanos)
  let appSession : SessionPtr := if env.sessionArgFirst then none else r.session
  (HalResult.fromStatusWith r.status appSession,
    record tr self.mHandle (Method.createHintSession tgid uid threadIds durationNanos))

/-- Source function `AidlHalWrapper::getHintSessionPreferredRate`, PowerHalWrapper.cpp lines 298-302. -/
def AidlHalWrapper.getHintSessionPreferredRate (env : Env) (self : AidlHalWrapper)
    (tr : Trace) : HalResult Int × Trace :=
  let r := env.reply tr self.mHandle Method.getHintSessionPreferredRate
  (HalResult.fromStatusWith r.status r.rate,
    record tr self.mHandle Method.getHintSessionPreferredRate)

/-- Modelled from the spec: `AidlHalWrapper::createHintSessionWithConfig` is declared in
PowerHalWrapper.h lines 167-170 but its body is not among the sources.  Section 4.3:
a session operation of the Rich variant is one direct call with status translation
via section 4.1(b). -/
def AidlHalWrapper.createHintSessionWithConfig (env : Env) (self : AidlHalWrapper)
    (tr : Trace) (tgid uid : Int) (threadIds : List Int) (durationNanos : Int) (tag : Int) :
    HalResult SessionPtr × Trace :=
  let r := env.reply tr self.mHandle
    (Method.createHintSessionWithConfig tgid uid threadIds durationNanos tag)
  (HalResult.fromStatusWith r.status r.session,
    record tr self.mHandle
      (Method.createHintSessionWithConfig tgid uid threadIds durationNanos tag))

/-- Modelled from the spec: `AidlHalWrapper::getSessionChannel` is declared in
PowerHalWrapper.h lines 173-174 but its body is not among the sources.  Section 4.3:
a session operation of the Rich variant is one direct call with status translation
via section 4.1(b). -/
def AidlHalWrapper.getSessionChannel (env : Env) (self : AidlHalWrapper) (tr : Trace)
    (tgid uid : Int) : HalResult ChannelConfig × Trace :=
  let r := env.reply tr self.mHandle (Method.getSessionChannel tgid uid)
  (HalResult.fromStatusWith r.status r.channel,
    record tr self.mHandle (Method.getSessionChannel tgid uid))

/-- Modelled from the spec: `AidlHalWrapper::closeSessionChannel` is declared in
PowerHalWrapper.h line 175 but its body is not among the sources.  Section 4.3:
a session operation of the Rich variant is one direct call with status translation
via section 4.1(b). -/
def AidlHalWrapper.closeSessionChannel (env : Env) (self : AidlHalWrapper) (tr : Trace)
    (tgid uid : Int) : HalResult Unit × Trace :=
  let r := env.reply tr self.mHandle (Method.closeSessionChannel tgid uid)
  (HalResult.fromStatus r.status,
    record tr self.mHandle (Method.closeSessionChannel tgid uid))

/-! ### Vendor-blended wrapper -/

/-- Source function `HidlHalWrapperSeh::sendPowerHint`, PowerHalWrapper.cpp lines 335-343. -/
def HidlHalWrapperSeh.sendPowerHint (env : Env) (self : HidlHalWrapperSeh) (tr : Trace)
    (hintId : PowerHint) (data : Nat) : HalResult Unit × Trace :=
  if self.mHandle11 ≠ none then
    let ret := (env.reply tr self.mHandle11 (Method.powerHintAsync hintId data)).ret
    (HalResult.fromReturn ret, record tr self.mHandle11 (Method.powerHintAsync hintId data))
  else
    let ret := (env.reply tr self.mHandle10 (Method.powerHint hintId data)).ret
    (HalResult.fromReturn ret, record tr self.mHandle10 (Method.powerHint hintId data))

/-- Source function `HidlHalWrapperSeh::setInteractive`, PowerHalWrapper.cpp lines 345-351. -/
def HidlHalWrapperSeh.setInteractive (env : Env) (self : HidlHalWrapperSeh) (tr : Trace)
    (enabled : Bool) : HalResult Unit × Trace :=
  let tr1 :=
    if self.mHandleSeh ≠ none then
      record tr self.mHandleSeh (Method.setInteractiveAsync enabled false)
    else
      tr
  let ret := (env.reply tr1 self.mHandle10 (Method.setInteractive enabled)).ret
  (HalResult.fromReturn ret, record tr1 self.mHandle10 (Method.setInteractive enabled))

/-- Source function `HidlHalWrapperSeh::setFeature`, PowerHalWrapper.cpp lines 353-356. -/
def HidlHalWrapperSeh.setFeature (env : Env) (self : HidlHalWrapperSeh) (tr : Trace)
    (feature : Feature) (enabled : Bool) : HalResult Unit × Trace :=
  let ret := (env.reply tr self.mHandle10 (Method.setFeature feature enabled)).ret
  (HalResult.fromReturn ret, record tr self.mHandle10 (Method.setFeature feature enabled))

/-- Source function `HidlHalWrapperSeh::setBoost`, PowerHalWrapper.cpp lines 304-311. -/
def HidlHalWrapperSeh.setBoost (env : Env) (self : HidlHalWrapperSeh) (tr : Trace)
    (boost : Boost) (durationMs : Int) : HalResult Unit × Trace :=
  if boost = Boost.INTERACTION then
    HidlHalWrapperSeh.sendPowerHint env self tr PowerHint.INTERACTION (toUInt32 durationMs)
  else
    (HalResult.unsupported, tr)

/-- Source function `HidlHalWrapperSeh::setMode`, PowerHalWrapper.cpp lines 313-333. -/
def HidlHalWrapperSeh.setMode (env : Env) (self : HidlHalWrapperSeh) (tr : Trace)
    (mode : Mode) (enabled : Bool) : HalResult Unit × Trace :=
  let data := boolData enabled
  if mode = Mode.LAUNCH then
    HidlHalWrapperSeh.sendPowerHint env self tr PowerHint.LAUNCH data
  else if mode = Mode.LOW_POWER then
    HidlHalWrapperSeh.sendPowerHint env self tr PowerHint.LOW_POWER data
  else if mode = Mode.SUSTAINED_PERFORMANCE then
    HidlHalWrapperSeh.sendPowerHint env self tr PowerHint.SUSTAINED_PERFORMANCE data
  else if mode = Mode.VR then
    HidlHalWrapperSeh.sendPowerHint env self tr PowerHint.VR_MODE data
  else if mode = Mode.INTERACTIVE then
    HidlHalWrapperSeh.setInteractive env self tr enabled
  else if mode = Mode.DOUBLE_TAP_TO_WAKE then
    HidlHalWrapperSeh.setFeature env self tr Feature.POWER_FEATURE_DOUBLE_TAP_TO_WAKE enabled
  else
    (HalResult.unsupported, tr)

/-- Source function `HidlHalWrapperSeh::createHintSession`, PowerHalWrapper.cpp lines 358-363. -/
def HidlHalWrapperSeh.createHintSession (_tgid _uid : Int) (_threadIds : List Int)
    (_durationNanos : Int) : HalResult SessionPtr :=
  HalResult.unsupported

/-- Source function `HidlHalWrapperSeh::getHintSessionPreferredRate`, PowerHalWrapper.cpp lines 365-368. -/
def HidlHalWrapperSeh.getHintSessionPreferredRate : HalResult Int :=
  HalResult.unsupported

/-! ### Virtual dispatch on a `HalWrapper` pointer

Each function is the virtual call of one operation: it records the entry (an
`Event.hal`) and runs the implementation of the object's class, the inherited
`EmptyHalWrapper` one where the class does not override the operation.  The object
may change state (the support arrays of an `AidlHalWrapper`), so the object after
the call is returned with the outcome. -/

def HalWrapper.setBoost (env : Env) (self : HalWrapper) (tr : Trace) (boost : Boost)
    (durationMs : Int) : HalResult Unit × HalWrapper × Trace :=
  let tr0 := tr ++ [Event.hal (HalOp.setBoost boost durationMs)]
  match self with
  | .empty => (EmptyHalWrapper.setBoost boost durationMs, .empty, tr0)
  | .hidl w =>
    let (res, tr1) := w.setBoost env tr0 boost durationMs
    (res, .hidl w, tr1)
  | .aidl w =>
    let (res, w1, tr1) := w.setBoost env tr0 boost durationMs
    (res, .aidl w1, tr1)
  | .seh w =>
    let (res, tr1) := w.setBoost env tr0 boost durationMs
    (res, .seh w, tr1)

def HalWrapper.setMode (env : Env) (self : HalWrapper) (tr : Trace) (mode : Mode)
    (enabled : Bool) : HalResult Unit × HalWrapper × Trace :=
  let tr0 := tr ++ [Event.hal (HalOp.setMode mode enabled)]
  match self with
  | .empty => (EmptyHalWrapper.setMode mode enabled, .empty, tr0)
  | .hidl w =>
    let (res, tr1) := w.setMode env tr0 mode enabled
    (res, .hidl w, tr1)
  | .aidl w =>
    let (res, w1, tr1) := w.setMode env tr0 mode enabled
    (res, .aidl w1, tr1)
  | .seh w =>
    let (res, tr1) := w.setMode env tr0 mode enabled
    (res, .seh w, tr1)

def HalWrapper.createHintSession (env : Env) (self : HalWrapper) (tr : Trace)
    (tgid uid : Int) (threadIds : List Int) (durationNanos : Int) :
    HalResult SessionPtr × HalWrapper × Trace :=
  let tr0 := tr ++ [Event.hal (HalOp.createHintSession tgid uid threadIds durationNanos)]
  match self with
  | .empty => (EmptyHalWrapper.createHintSession tgid uid threadIds durationNanos, .empty, tr0)
  | .hidl w =>
    (HidlHalWrapperV1_0.createHintSession tgid uid threadIds durationNanos, .hidl w, tr0)
  | .aidl w =>
    let (res, tr1) := w.createHintSession env tr0 tgid uid threadIds durationNanos
    (res, .aidl w, tr1)
  | .seh w =>
    (HidlHalWrapperSeh.createHintSession tgid uid threadIds durationNanos, .seh w, tr0)

def HalWrapper.createHintSessionWithConfig (env : Env) (self : HalWrapper) (tr : Trace)
    (tgid uid : Int) (threadIds : List Int) (durationNanos : Int) (tag : Int) :
    HalResult SessionPtr × HalWrapper × Trace :=
  let tr0 := tr ++
    [Event.hal (HalOp.createHintSessionWithConfig tgid uid threadIds durationNanos tag)]
  match self with
  | .aidl w =>
    let (res, tr1) := w.createHintSessionWithConfig env tr0 tgid uid threadIds durationNanos tag
    (res, .aidl w, tr1)
  | other =>
    (EmptyHalWrapper.createHintSessionWithConfig tgid uid threadIds durationNanos tag,
      other, tr0)

def HalWrapper.getHintSessionPreferredRate (env : Env) (self : HalWrapper) (tr : Trace) :
    HalResult Int × HalWrapper × Trace :=
  let tr0 := tr ++ [Event.hal HalOp.getHintSessionPreferredRate]
  match self with
  | .empty => (EmptyHalWrapper.getHintSessionPreferredRate, .empty, tr0)
  | .hidl w => (HidlHalWrapperV1_0.getHintSessionPreferredRate, .hidl w, tr0)
  | .aidl w =>
    let (res, tr1) := w.getHintSessionPreferredRate env tr0
    (res, .aidl w, tr1)
  | .seh w => (HidlHalWrapperSeh.getHintSessionPreferredRate, .seh w, tr0)

def HalWrapper.getSessionChannel (env : Env) (self : HalWrapper) (tr : Trace)
    (tgid uid : Int) : HalResult ChannelConfig × HalWrapper × Trace :=
  let tr0 := tr ++ [Event.hal (HalOp.getSessionChannel tgid uid)]
  match self with
  | .aidl w =>
    let (res, tr1) := w.getSessionChannel env tr0 tgid uid
    (res, .aidl w, tr1)
  | other => (EmptyHalWrapper.getSessionChannel tgid uid, other, tr0)

def HalWrapper.closeSessionChannel (env : Env) (self : HalWrapper) (tr : Trace)
    (tgid uid : Int) : HalResult Unit × HalWrapper × Trace :=
  let tr0 := tr ++ [Event.hal (HalOp.closeSessionChannel tgid uid)]
  match self with
  | .aidl w =>
    let (res, tr1) := w.closeSessionChannel env tr0 tgid uid
    (res, .aidl w, tr1)
  | other => (EmptyHalWrapper.closeSessionChannel tgid uid, other, tr0)

/-! ## Connector -/

/-- What the loader (`PowerHalLoader`, not among the sources) returns for each of its
load functions: a raw handle or null. -/
structure PowerHalLoader where
  loadAidl : Option Handle
  loadHidlSeh : Option Handle
  loadHidlV1_0 : Option Handle
  loadHidlV1_1 : Option Handle
  loadHidlV1_2 : Option Handle
  loadHidlV1_3 : Option Handle
deriving DecidableEq, Repr

/-- Constructor of `AidlHalWrapper`, PowerHalWrapper.h lines 155-158 with the member
initialisers of lines 186-195: both support arrays start all `UNKNOWN`.  Their
sizes, one more than the last enumerator of `Boost` and of `Mode`, are taken as
`nBoost` and `nMode`. -/
def AidlHalWrapper.create (nBoost nMode : Nat) (handle sehHandle : Option Handle) :
    AidlHalWrapper :=
  { mHandle := handle
    mHandleSeh := sehHandle
    mBoostSupportedArray := List.replicate nBoost HalSupport.UNKNOWN
    mModeSupportedArray := List.replicate nMode HalSupport.UNKNOWN }

/-- Source function `HalConnector::connect`, PowerHalController.cpp lines 36-61. -/
def HalConnector.connect (nBoost nMode : Nat) (loader : PowerHalLoader) : Option HalWrapper :=
  let halHidlSeh := loader.loadHidlSeh
  match loader.loadAidl with
  | some halAidl =>
    some (HalWrapper.aidl (AidlHalWrapper.create nBoost nMode (some halAidl) halHidlSeh))
  | none =>
    let halHidlV1_0 := loader.loadHidlV1_0
    let halHidlV1_1 := loader.loadHidlV1_1
    if halHidlSeh ≠ none then
      some (HalWrapper.seh
        { mHandleSeh := halHidlSeh, mHandle11 := halHidlV1_1, mHandle10 := halHidlV1_0 })
    else if halHidlV1_0 ≠ none then
      match loader.loadHidlV1_3 with
      | some halHidlV1_3 =>
        some (HalWrapper.hidl { gen := HidlGen.v1_3, mHandleV1_0 := some halHidlV1_3 })
      | none =>
        match loader.loadHidlV1_2 with
        | some halHidlV1_2 =>
          some (HalWrapper.hidl { gen := HidlGen.v1_2, mHandleV1_0 := some halHidlV1_2 })
        | none =>
          if halHidlV1_1 ≠ none then
            some (HalWrapper.hidl { gen := HidlGen.v1_1, mHandleV1_0 := halHidlV1_1 })
          else
            some (HalWrapper.hidl { gen := HidlGen.v1_0, mHandleV1_0 := halHidlV1_0 })
    else
      none

/-! ## Controller -/

/-- The state of a `PowerHalController`: the cached backend `mConnectedHal`, null when
disconnected.  The connector `mHalConnector` is the injected collaborator whose
answers are `Env.connect`. -/
structure PowerHalController where
  mConnectedHal : Option HalWrapper
deriving DecidableEq, Repr

/-- The member `mDefaultHal`: an `EmptyHalWrapper` (section 4.6 of the specification:
a stateless always-unsupported fallback backend). -/
def PowerHalController.mDefaultHal : HalWrapper := HalWrapper.empty

/-- Source function `PowerHalController::initHal`, PowerHalController.cpp lines 75-85. -/
def PowerHalController.initHal (env : Env) (self : PowerHalController) (tr : Trace) :
    HalWrapper × PowerHalController × Trace :=
  match self.mConnectedHal with
  | none =>
    let tr1 := tr ++ [Event.connect]
    match env.connect tr with
    | none => (PowerHalController.mDefaultHal, { mConnectedHal := none }, tr1)
    | some hal => (hal, { mConnectedHal := some hal }, tr1)
  | some hal => (hal, self, tr)

/-- Source function `PowerHalController::processHalResult`, PowerHalController.cpp lines 89-99. -/
def PowerHalController.processHalResult {α : Type} (self : PowerHalController) (tr : Trace)
    (result : HalResult α) : HalResult α × PowerHalController × Trace :=
  if result.isFailed then
    (result, { mConnectedHal := none }, tr ++ [Event.reset])
  else
    (result, self, tr)

/-- The pointer `handle` a controller operation obtained from `initHal` and the member
`mConnectedHal` share one object when the controller is connected: the state the
delegated call left that object in is the state of the cached backend. -/
def PowerHalController.shared (self : PowerHalController) (handle : HalWrapper) :
    PowerHalController :=
  { mConnectedHal := self.mConnectedHal.map (fun _ => handle) }

/-- Source function `PowerHalController::setBoost`, PowerHalController.cpp lines 101-105. -/
def PowerHalController.setBoost (env : Env) (self : PowerHalController) (tr : Trace)
    (boost : Boost) (durationMs : Int) : HalResult Unit × PowerHalController × Trace :=
  let (handle, self1, tr1) := self.initHal env tr
  let (res, handle1, tr2) := handle.setBoost env tr1 boost durationMs
  (self1.shared handle1).processHalResult tr2 res

/-- Source function `PowerHalController::setMode`, PowerHalController.cpp lines 107-111. -/
def PowerHalController.setMode (env : Env) (self : PowerHalController) (tr : Trace)
    (mode : Mode) (enabled : Bool) : HalResult Unit × PowerHalController × Trace :=
  let (handle, self1, tr1) := self.initHal env tr
  let (res, handle1, tr2) := handle.setMode env tr1 mode enabled
  (self1.shared handle1).processHalResult tr2 res

/-- Source function `PowerHalController::createHintSession`, PowerHalController.cpp lines 113-120. -/
def PowerHalController.createHintSession (env : Env) (self : PowerHalController) (tr : Trace)
    (tgid uid : Int) (threadIds : List Int) (durationNanos : Int) :
    HalResult SessionPtr × PowerHalController × Trace :=
  let (handle, self1, tr1) := self.initHal env tr
  let (res, handle1, tr2) := handle.createHintSession env tr1 tgid uid threadIds durationNanos
  (self1.shared handle1).processHalResult tr2 res

/-- Source function `PowerHalController::createHintSessionWithConfig`, PowerHalController.cpp
lines 122-131. -/
def PowerHalController.createHintSessionWithConfig (env : Env) (self : PowerHalController)
    (tr : Trace) (tgid uid : Int) (threadIds : List Int) (durationNanos : Int) (tag : Int) :
    HalResult SessionPtr × PowerHalController × Trace :=
  let (handle, self1, tr1) := self.initHal env tr
  let (res, handle1, tr2) :=
    handle.createHintSessionWithConfig env tr1 tgid uid threadIds durationNanos tag
  (self1.shared handle1).processHalResult tr2 res

/-- Source function `PowerHalController::getHintSessionPreferredRate`, PowerHalController.cpp
lines 133-136. -/
def PowerHalController.getHintSessionPreferredRate (env : Env) (self : PowerHalController)
    (tr : Trace) : HalResult Int × PowerHalController × Trace :=
  let (handle, self1, tr1) := self.initHal env tr
  let (res, handle1, tr2) := handle.getHintSessionPreferredRate env tr1
  (self1.shared handle1).processHalResult tr2 res

/-- Source function `PowerHalController::getSessionChannel`, PowerHalController.cpp lines 138-142. -/
def PowerHalController.getSessionChannel (env : Env) (self : PowerHalController) (tr : Trace)
    (tgid uid : Int) : HalResult ChannelConfig × PowerHalController × Trace :=
  let (handle, self1, tr1) := self.initHal env tr
  let (res, handle1, tr2) := handle.getSessionChannel env tr1 tgid uid
  (self1.shared handle1).processHalResult tr2 res

/-- Source function `PowerHalController::closeSessionChannel`, PowerHalController.cpp lines 144-147. -/
def PowerHalController.closeSessionChannel (env : Env) (self : PowerHalController)
    (tr : Trace) (tgid uid : Int) : HalResult Unit × PowerHalController × Trace :=
  let (handle, self1, tr1) := self.initHal env tr
  let (res, handle1, tr2) := handle.closeSessionChannel env tr1 tgid uid
  (self1.shared handle1).processHalResult tr2 res

/-! ## Uniform view of the seven operations

The seven operations differ only in their argument and value types.  To speak about
"every operation" they are indexed by `HalOp`, with the value of a successful outcome
injected into one sum type. -/

/-- The value an `Ok` outcome of some operation carries. -/
inductive HalValue where
  | void
  | session (s : SessionPtr)
  | rate (r : Int)
  | channel (c : ChannelConfig)
deriving DecidableEq, Repr

/-- Re-tagging of the value of an outcome; `Unsupported` and `Failed` are kept as they
are, message included. -/
def HalResult.map {α β : Type} (f : α → β) : HalResult α → HalResult β
  | .ok v => .ok (f v)
  | .unsupported => .unsupported
  | .failed msg => .failed msg

/-- The virtual call of operation `op` on a backend. -/
def HalWrapper.perform (env : Env) (self : HalWrapper) (tr : Trace) :
    HalOp → HalResult HalValue × HalWrapper × Trace
  | .setBoost boost durationMs =>
    let (res, h, t) := self.setBoost env tr boost durationMs
    (res.map (fun _ => HalValue.void), h, t)
  | .setMode mode enabled =>
    let (res, h, t) := self.setMode env tr mode enabled
    (res.map (fun _ => HalValue.void), h, t)
  | .createHintSession tgid uid threadIds durationNanos =>
    let (res, h, t) := self.createHintSession env tr tgid uid threadIds durationNanos
    (res.map HalValue.session, h, t)
  | .createHintSessionWithConfig tgid uid threadIds durationNanos tag =>
    let (res, h, t) :=
      self.createHintSessionWithConfig env tr tgid uid threadIds durationNanos tag
    (res.map HalValue.session, h, t)
  | .getHintSessionPreferredRate =>
    let (res, h, t) := self.getHintSessionPreferredRate env tr
    (res.map HalValue.rate, h, t)
  | .getSessionChannel tgid uid =>
    let (res, h, t) := self.getSessionChannel env tr tgid uid
    (res.map HalValue.channel, h, t)
  | .closeSessionChannel tgid uid =>
    let (res, h, t) := self.closeSessionChannel env tr tgid uid
    (res.map (fun _ => HalValue.void), h, t)

/-- The controller operation `op`. -/
def PowerHalController.perform (env : Env) (self : PowerHalController) (tr : Trace) :
    HalOp → HalResult HalValue × PowerHalController × Trace
  | .setBoost boost durationMs =>
    let (res, c, t) := self.setBoost env tr boost durationMs
    (res.map (fun _ => HalValue.void), c, t)
  | .setMode mode enabled =>
    let (res, c, t) := self.setMode env tr mode enabled
    (res.map (fun _ => HalValue.void), c, t)
  | .createHintSession tgid uid threadIds durationNanos =>
    let (res, c, t) := self.createHintSession env tr tgid uid threadIds durationNanos
    (res.map HalValue.session, c, t)
  | .createHintSessionWithConfig tgid uid threadIds durationNanos tag =>
    let (res, c, t) :=
      self.createHintSessionWithConfig env tr tgid uid threadIds durationNanos tag
    (res.map HalValue.session, c, t)
  | .getHintSessionPreferredRate =>
    let (res, c, t) := self.getHintSessionPreferredRate env tr
    (res.map HalValue.rate, c, t)
  | .getSessionChannel tgid uid =>
    let (res, c, t) := self.getSessionChannel env tr tgid uid
    (res.map HalValue.channel, c, t)
  | .closeSessionChannel tgid uid =>
    let (res, c, t) := self.closeSessionChannel env tr tgid uid
    (res.map (fun _ => HalValue.void), c, t)

/-- A sequence of controller operations, one after the other: the outcome of each with
the controller state right after it, then the final state and trace. -/
def PowerHalController.run (env : Env) (self : PowerHalController) (tr : Trace) :
    List HalOp → List (HalResult HalValue × PowerHalController) × PowerHalController × Trace
  | [] => ([], self, tr)
  | op :: ops =>
    let (res, c, t) := self.perform env tr op
    let (rest, c', t') := PowerHalController.run env c t ops
    ((res, c) :: rest, c', t')

/-- Number of `HalConnector::connect` calls in a trace. -/
def connects (tr : Trace) : Nat := tr.count Event.connect

/-- Number of `HalConnector::reset` calls in a trace. -/
def resets (tr : Trace) : Nat := tr.count Event.reset

/-- The backend operations entered in a trace, in order, with their arguments. -/
def halCalls (tr : Trace) : List HalOp :=
  tr.filterMap (fun e => match e with
    | Event.hal op => some op
    | _ => none)

/-- What identifies a backend object over its lifetime: its class and the raw handles it
was built from (the support arrays of an `AidlHalWrapper` are its only mutable
state). -/
def HalWrapper.ident : HalWrapper → HalWrapper
  | .aidl w => .aidl { w with mBoostSupportedArray := [], mModeSupportedArray := [] }
  | other => other

/-- The trace `tr'` extends `tr` by calls on raw handles only. -/
def RemoteExt (tr tr' : Trace) : Prop :=
  ∃ evs : List Event, tr' = tr ++ evs ∧ ∀ e ∈ evs, ∃ h m, e = Event.remote h m

/-- The delegated backend call of a controller operation: the virtual call of `op` on the
handle `initHal` returned, in the trace `initHal` left. -/
def PowerHalController.delegated (env : Env) (self : PowerHalController) (tr : Trace)
    (op : HalOp) : HalResult HalValue × HalWrapper × Trace :=
  let (handle, _, tr1) := self.initHal env tr
  handle.perform env tr1 op

/-- Modelled from the spec: the constructor of `PowerHalController` is in
`powermanager/PowerHalController.h`, which is not among the sources.  Section 4.6:
the initial state is Disconnected. -/
def PowerHalController.initial : PowerHalController := { mConnectedHal := none }

/-! ## Concrete environments used as witnesses -/

/-- A reply of a call that went through: ok status, ok transport, support answer
`true`. -/
def Reply.success : Reply :=
  { status := { mException := EX_NONE, text := "No error" }
    ret := { ok := true, desc := "" }
    flag := true
    session := some 1
    rate := 16666666
    channel := 0 }

/-- A reply of a call whose transport broke: the status carries the exception code
`EX_TRANSACTION_FAILED` (-129), the HIDL return is not ok. -/
def Reply.broken : Reply :=
  { status := { mException := -129, text := "Status(-129, EX_TRANSACTION_FAILED)" }
    ret := { ok := false, desc := "DEAD_OBJECT" }
    flag := false
    session := none
    rate := -1
    channel := 0 }

/-- A device with only the 1.0 HIDL service, whose every call breaks in transport. -/
def Env.brokenHidl : Env :=
  { remote := fun _ _ _ => Reply.broken
    connect := fun _ => some (HalWrapper.hidl { gen := HidlGen.v1_0, mHandleV1_0 := some 1 })
    sessionArgFirst := false }

/-- A device with only the 1.0 HIDL service, whose every call goes through. -/
def Env.workingHidl : Env :=
  { remote := fun _ _ _ => Reply.success
    connect := fun _ => some (HalWrapper.hidl { gen := HidlGen.v1_0, mHandleV1_0 := some 1 })
    sessionArgFirst := false }

/-- A device on which the connector finds no power service at all. -/
def Env.noService : Env :=
  { remote := fun _ _ _ => Reply.broken
    connect := fun _ => none
    sessionArgFirst := false }

/-! ## Observations on the AIDL wrapper -/

/-- The cache entry of a boost or mode value in a support array: `none` when the value
indexes outside the array. -/
def entry (arr : List HalSupport) (id : Int) : Option HalSupport := arr[toSizeT id]?

/-- A support query (`isBoostSupported` or `isModeSupported`) on a raw handle. -/
def Event.isProbe : Event → Bool
  | .remote _ (.isBoostSupported _) => true
  | .remote _ (.isModeSupported _) => true
  | _ => false

/-- The support query for the boost value `boost`. -/
def Event.isBoostProbe (boost : Boost) : Event → Bool
  | .remote _ (.isBoostSupported b) => decide (b = boost)
  | _ => false

/-- The support query for the mode value `mode`. -/
def Event.isModeProbe (mode : Mode) : Event → Bool
  | .remote _ (.isModeSupported m) => decide (m = mode)
  | _ => false

/-- The operation call proper of the AIDL wrapper: `setBoost` or `setMode` on a raw
handle. -/
def Event.isOperation : Event → Bool
  | .remote _ (.setBoost _ _) => true
  | .remote _ (.setMode _ _) => true
  | _ => false

/-- A call on the vendor side channel. -/
def Event.isSehCall : Event → Bool
  | .remote _ (.setInteractiveAsync _ _) => true
  | _ => false

/-- Number of support queries in a trace. -/
def probes (tr : Trace) : Nat := tr.countP Event.isProbe

/-- Number of support queries for the boost value `boost` in a trace. -/
def boostProbes (boost : Boost) (tr : Trace) : Nat := tr.countP (Event.isBoostProbe boost)

/-- Number of support queries for the mode value `mode` in a trace. -/
def modeProbes (mode : Mode) (tr : Trace) : Nat := tr.countP (Event.isModeProbe mode)

/-- Number of `setBoost` and `setMode` calls on raw handles in a trace. -/
def operations (tr : Trace) : Nat := tr.countP Event.isOperation

/-- One operation on an `AidlHalWrapper` object, keeping the object and the trace. -/
def AidlHalWrapper.step (env : Env) (self : AidlHalWrapper) (tr : Trace) :
    HalOp → AidlHalWrapper × Trace
  | .setBoost boost durationMs =>
    let (_, w, t) := self.setBoost env tr boost durationMs
    (w, t)
  | .setMode mode enabled =>
    let (_, w, t) := self.setMode env tr mode enabled
    (w, t)
  | .createHintSession tgid uid threadIds durationNanos =>
    (self, (self.createHintSession env tr tgid uid threadIds durationNanos).2)
  | .createHintSessionWithConfig tgid uid threadIds durationNanos tag =>
    (self, (self.createHintSessionWithConfig env tr tgid uid threadIds durationNanos tag).2)
  | .getHintSessionPreferredRate => (self, (self.getHintSessionPreferredRate env tr).2)
  | .getSessionChannel tgid uid => (self, (self.getSessionChannel env tr tgid uid).2)
  | .closeSessionChannel tgid uid => (self, (self.closeSessionChannel env tr tgid uid).2)

/-- A sequence of operations on one `AidlHalWrapper` object. -/
def AidlHalWrapper.run (env : Env) (self : AidlHalWrapper) (tr : Trace) :
    List HalOp → AidlHalWrapper × Trace
  | [] => (self, tr)
  | op :: ops =>
    let (w, t) := self.step env tr op
    AidlHalWrapper.run env w t ops

/-- The cache entry of `id` has been decided: it is in range and not `UNKNOWN`. -/
def Known (arr : List HalSupport) (id : Int) : Prop :=
  ∃ v : HalSupport, entry arr id = some v ∧ v ≠ HalSupport.UNKNOWN

/-- A device with an AIDL service that answers every call with success and every support
query with `true`. -/
def Env.workingAidl : Env :=
  { remote := fun _ _ _ => Reply.success
    connect := fun _ => some (HalWrapper.aidl (AidlHalWrapper.create 6 19 (some 1) none))
    sessionArgFirst := false }

/-- A freshly built AIDL wrapper without a vendor side channel. -/
def AidlHalWrapper.fresh : AidlHalWrapper := AidlHalWrapper.create 6 19 (some 1) none

/-- A reply whose status carries the exception code `EX_UNSUPPORTED_OPERATION`: the
remote side does not implement the method that was called. -/
def Reply.unsupportedOperation : Reply :=
  { status := { mException := EX_UNSUPPORTED_OPERATION,
                text := "Status(-7, EX_UNSUPPORTED_OPERATION)" }
    ret := { ok := true, desc := "" }
    flag := false
    session := none
    rate := -1
    channel := 0 }

/-- A device with an AIDL service that rejects both support queries with
`EX_UNSUPPORTED_OPERATION` and answers every other call with success. -/
def Env.probeRejected : Env :=
  { remote := fun _ _ m =>
      match m with
      | Method.isBoostSupported _ => Reply.unsupportedOperation
      | Method.isModeSupported _ => Reply.unsupportedOperation
      | _ => Reply.success
    connect := fun _ => some (HalWrapper.aidl (AidlHalWrapper.create 6 19 (some 1) none))
    sessionArgFirst := false }

/-- A device with an AIDL service that answers every support query with "not supported"
(ok status, answer `false`). -/
def Env.nothingSupported : Env :=
  { remote := fun _ _ _ => { Reply.success with flag := false }
    connect := fun _ => some (HalWrapper.aidl (AidlHalWrapper.create 6 19 (some 1) none))
    sessionArgFirst := false }

/-- An AIDL wrapper that has found boost `INTERACTION` and mode `LAUNCH` unsupported. -/
def AidlHalWrapper.declined : AidlHalWrapper :=
  { AidlHalWrapper.fresh with
    mBoostSupportedArray := AidlHalWrapper.fresh.mBoostSupportedArray.set 0 HalSupport.OFF
    mModeSupportedArray := AidlHalWrapper.fresh.mModeSupportedArray.set 5 HalSupport.OFF }

/-- An AIDL wrapper that has found boost `INTERACTION` unsupported and has decided no
mode. -/
def AidlHalWrapper.boostDeclined : AidlHalWrapper :=
  { AidlHalWrapper.fresh with
    mBoostSupportedArray := AidlHalWrapper.fresh.mBoostSupportedArray.set 0 HalSupport.OFF }

/-- An AIDL wrapper that has found mode `LAUNCH` unsupported and has decided no boost. -/
def AidlHalWrapper.modeDeclined : AidlHalWrapper :=
  { AidlHalWrapper.fresh with
    mModeSupportedArray := AidlHalWrapper.fresh.mModeSupportedArray.set 5 HalSupport.OFF }

/-- A device like `Env.workingAidl` whose code was built by a compiler that reads the
local `appSession` of `AidlHalWrapper::createHintSession` before it evaluates the remote
call. -/
def Env.sessionReadFirst : Env :=
  { remote := fun _ _ _ => Reply.success
    connect := fun _ => some (HalWrapper.aidl (AidlHalWrapper.create 6 19 (some 1) none))
    sessionArgFirst := true }

/-! ## Observations on the connector -/

/-- Steps (3) and (4) of the selection order in the words of section 4.5 of the
specification: walk the four-generation family from newest to oldest and return the
first one whose raw handle is non-null; else no backend. -/
def PowerHalLoader.newestLegacy (loader : PowerHalLoader) : Option HalWrapper :=
  match loader.loadHidlV1_3 with
  | some h => some (HalWrapper.hidl { gen := HidlGen.v1_3, mHandleV1_0 := some h })
  | none =>
    match loader.loadHidlV1_2 with
    | some h => some (HalWrapper.hidl { gen := HidlGen.v1_2, mHandleV1_0 := some h })
    | none =>
      match loader.loadHidlV1_1 with
      | some h => some (HalWrapper.hidl { gen := HidlGen.v1_1, mHandleV1_0 := some h })
      | none =>
        match loader.loadHidlV1_0 with
        | some h => some (HalWrapper.hidl { gen := HidlGen.v1_0, mHandleV1_0 := some h })
        | none => none

/-- A loader that finds only the vendor side channel and the 1.0 HIDL service. -/
def PowerHalLoader.sehAndOldest : PowerHalLoader :=
  { loadAidl := none, loadHidlSeh := some 9, loadHidlV1_0 := some 2, loadHidlV1_1 := none,
    loadHidlV1_2 := none, loadHidlV1_3 := none }

/-- A loader that finds the HIDL generations 1.0 to 1.2 and nothing else. -/
def PowerHalLoader.upTo1_2 : PowerHalLoader :=
  { loadAidl := none, loadHidlSeh := none, loadHidlV1_0 := some 2, loadHidlV1_1 := some 2,
    loadHidlV1_2 := some 2, loadHidlV1_3 := none }

/-- A loader state with a 1.3 handle but no 1.0 handle. -/
def PowerHalLoader.only1_3 : PowerHalLoader :=
  { loadAidl := none, loadHidlSeh := none, loadHidlV1_0 := none, loadHidlV1_1 := none,
    loadHidlV1_2 := none, loadHidlV1_3 := some 5 }

/-! ## Observations on the HIDL wrappers -/

/-- A power-hint call of any generation (`powerHint`, `powerHintAsync`,
`powerHintAsync_1_2`, `powerHintAsync_1_3`) on a raw handle. -/
def Event.isPowerHint : Event → Bool
  | .remote _ (.powerHint _ _) => true
  | .remote _ (.powerHintAsync _ _) => true
  | .remote _ (.powerHintAsync_1_2 _ _) => true
  | .remote _ (.powerHintAsync_1_3 _ _) => true
  | _ => false

/-- The pair `r` (outcome, trace) is what exactly one call on `handle` after `tr` gives:
some method was called once, and the outcome is Ok if the transport of that call
succeeded and Failed with its description otherwise. -/
def OneCall (env : Env) (handle : Option Handle) (tr : Trace) (r : HalResult Unit × Trace) :
    Prop :=
  ∃ m : Method,
    r = ((if (env.reply tr handle m).ret.isOk = true then HalResult.ok ()
            else HalResult.failed (env.reply tr handle m).ret.description),
          tr ++ [Event.remote handle m])

/-- A vendor-blended wrapper holding a side-channel handle and a 1.0 handle. -/
def HidlHalWrapperSeh.example : HidlHalWrapperSeh :=
  { mHandleSeh := some 9, mHandle11 := none, mHandle10 := some 2 }

/-- Number of calls on the vendor side channel in a trace. -/
def sehCalls (tr : Trace) : Nat := tr.countP Event.isSehCall

/-- A legacy `setInteractive` call on a raw handle. -/
def Event.isSetInteractive : Event → Bool
  | .remote _ (.setInteractive _) => true
  | _ => false

/-- The environment `env` as seen by a run in which the event `ev`, which in the run
against `env` is the one at position `n`, does not take place: a call made after the
events `t` is answered as `env` answers it after `t` with `ev` put back at position
`n`.  Two runs that differ only in that event thus get the same answers. -/
def Env.skipping (env : Env) (n : Nat) (ev : Event) : Env :=
  { remote := fun t handle m => env.remote (t.take n ++ ev :: t.drop n) handle m
    connect := env.connect
    sessionArgFirst := env.sessionArgFirst }

/-- An AIDL wrapper built with a vendor side-channel handle. -/
def AidlHalWrapper.withSeh : AidlHalWrapper := AidlHalWrapper.create 6 19 (some 1) (some 9)

/-- The boost value `boost` is one that generation 1.2 adds to generation 1.1:
`HidlHalWrapperV1_2::setBoost` does not answer it with Unsupported while
`HidlHalWrapperV1_1::setBoost` does. -/
def base2AddsBoost (env : Env) (handle : Option Handle) (tr : Trace) (durationMs : Int)
    (boost : Boost) : Prop :=
  (HidlHalWrapper.setBoost env { gen := HidlGen.v1_2, mHandleV1_0 := handle } tr boost
      durationMs).1 ≠ HalResult.unsupported ∧
    (HidlHalWrapper.setBoost env { gen := HidlGen.v1_1, mHandleV1_0 := handle } tr boost
      durationMs).1 = HalResult.unsupported

/-- The mode value `mode` is one that generation 1.2 adds to generation 1.1:
`HidlHalWrapperV1_2::setMode` does not answer it with Unsupported while
`HidlHalWrapperV1_1::setMode` does. -/
def base2AddsMode (env : Env) (handle : Option Handle) (tr : Trace) (enabled : Bool)
    (mode : Mode) : Prop :=
  (HidlHalWrapper.setMode env { gen := HidlGen.v1_2, mHandleV1_0 := handle } tr mode
      enabled).1 ≠ HalResult.unsupported ∧
    (HidlHalWrapper.setMode env { gen := HidlGen.v1_1, mHandleV1_0 := handle } tr mode
      enabled).1 = HalResult.unsupported

/-- The boost values `HidlHalWrapperV1_2::setBoost` routes itself (lines 183-186). -/
def base2Boosts : Finset Boost := {Boost.CAMERA_SHOT, Boost.CAMERA_LAUNCH}

/-- The mode values `HidlHalWrapperV1_2::setMode` routes itself (lines 195-201). -/
def base2Modes : Finset Mode :=
  {Mode.CAMERA_STREAMING_SECURE, Mode.CAMERA_STREAMING_LOW, Mode.CAMERA_STREAMING_MID,
    Mode.CAMERA_STREAMING_HIGH, Mode.AUDIO_STREAMING_LOW_LATENCY}

/-! ## Observations on the legacy mapping -/

/-- What a call on a legacy handle asks for, irrespective of the hint-dispatch primitive
(`powerHint`, `powerHintAsync`, `powerHintAsync_1_2`, `powerHintAsync_1_3`) that
carries it: a hint code with its payload, the interactive flag, or a feature with its
flag. -/
inductive LegacyRequest where
  | hint (hintId : PowerHint) (data : Nat)
  | interactive (enabled : Bool)
  | feature (feature : Feature) (enabled : Bool)
deriving DecidableEq, Repr

/-- The request a method call carries; `none` for the calls that are not calls of the
legacy interface family. -/
def Method.request : Method → Option LegacyRequest
  | .powerHint hintId data => some (.hint hintId data)
  | .powerHintAsync hintId data => some (.hint hintId data)
  | .powerHintAsync_1_2 hintId data => some (.hint hintId data)
  | .powerHintAsync_1_3 hintId data => some (.hint hintId data)
  | .setInteractive enabled => some (.interactive enabled)
  | .setFeature feature enabled => some (.feature feature enabled)
  | _ => none

/-- The legacy requests made in a trace, in order. -/
def requests (tr : Trace) : List LegacyRequest :=
  tr.filterMap (fun e => match e with
    | Event.remote _ m => m.request
    | _ => none)

/-- The request `setBoost(boost, durationMs)` results in on a legacy wrapper of class
`gen`, `none` when the class answers Unsupported: the case analysis of
`HidlHalWrapperV1_0::setBoost` (1.0 and 1.1) and `HidlHalWrapperV1_2::setBoost`
(1.2 and 1.3) read as a table. -/
def HidlGen.boostRequest (gen : HidlGen) (boost : Boost) (durationMs : Int) :
    Option LegacyRequest :=
  match gen with
  | .v1_0 | .v1_1 =>
    if boost = Boost.INTERACTION then
      some (.hint PowerHint.INTERACTION (toUInt32 durationMs))
    else none
  | .v1_2 | .v1_3 =>
    if boost = Boost.CAMERA_SHOT then
      some (.hint PowerHint.CAMERA_SHOT (toUInt32 durationMs))
    else if boost = Boost.CAMERA_LAUNCH then
      some (.hint PowerHint.CAMERA_LAUNCH (toUInt32 durationMs))
    else if boost = Boost.INTERACTION then
      some (.hint PowerHint.INTERACTION (toUInt32 durationMs))
    else none

/-- The request `setMode(mode, enabled)` results in on a 1.0 wrapper, `none` when it
answers Unsupported: the switch of `HidlHalWrapperV1_0::setMode` read as a table. -/
def modeRequestV1_0 (mode : Mode) (enabled : Bool) : Option LegacyRequest :=
  if mode = Mode.LAUNCH then some (.hint PowerHint.LAUNCH (boolData enabled))
  else if mode = Mode.LOW_POWER then some (.hint PowerHint.LOW_POWER (boolData enabled))
  else if mode = Mode.SUSTAINED_PERFORMANCE then
    some (.hint PowerHint.SUSTAINED_PERFORMANCE (boolData enabled))
  else if mode = Mode.VR then some (.hint PowerHint.VR_MODE (boolData enabled))
  else if mode = Mode.INTERACTIVE then some (.interactive enabled)
  else if mode = Mode.DOUBLE_TAP_TO_WAKE then
    some (.feature Feature.POWER_FEATURE_DOUBLE_TAP_TO_WAKE enabled)
  else none

/-- The request `setMode(mode, enabled)` results in on a 1.2 wrapper: the switch of
`HidlHalWrapperV1_2::setMode` read as a table. -/
def modeRequestV1_2 (mode : Mode) (enabled : Bool) : Option LegacyRequest :=
  if mode = Mode.CAMERA_STREAMING_SECURE ∨ mode = Mode.CAMERA_STREAMING_LOW ∨
      mode = Mode.CAMERA_STREAMING_MID ∨ mode = Mode.CAMERA_STREAMING_HIGH then
    some (.hint PowerHint.CAMERA_STREAMING (boolData enabled))
  else if mode = Mode.AUDIO_STREAMING_LOW_LATENCY then
    some (.hint PowerHint.AUDIO_LOW_LATENCY (boolData enabled))
  else modeRequestV1_0 mode enabled

/-- The request `setMode(mode, enabled)` results in on a legacy wrapper of class `gen`,
`none` when the class answers Unsupported. -/
def HidlGen.modeRequest (gen : HidlGen) (mode : Mode) (enabled : Bool) :
    Option LegacyRequest :=
  match gen with
  | .v1_0 | .v1_1 => modeRequestV1_0 mode enabled
  | .v1_2 => modeRequestV1_2 mode enabled
  | .v1_3 =>
    if mode = Mode.EXPENSIVE_RENDERING then
      some (.hint PowerHint.EXPENSIVE_RENDERING (boolData enabled))
    else modeRequestV1_2 mode enabled

/-- The generation that follows `gen` in the chain 1.0, 1.1, 1.2, 1.3. -/
def HidlGen.next : HidlGen → Option HidlGen
  | .v1_0 => some .v1_1
  | .v1_1 => some .v1_2
  | .v1_2 => some .v1_3
  | .v1_3 => none

/-- The pair `r` (outcome, trace) of a legacy operation started at `tr` realises the
table entry `req`: Unsupported with no request added when the entry is empty,
otherwise not Unsupported with exactly that request added. -/
def Realises (tr : Trace) (r : HalResult Unit × Trace) (req : Option LegacyRequest) : Prop :=
  requests r.2 = requests tr ++ req.toList ∧ (r.1 = HalResult.unsupported ↔ req = none)

/-! ## Observations on null handles -/

/-- A call made through a null handle pointer. -/
def Event.isNullCall : Event → Bool
  | .remote none _ => true
  | _ => false

/-- Number of calls made through a null handle pointer in a trace. -/
def nullCalls (tr : Trace) : Nat := tr.countP Event.isNullCall

/-- A loader that finds the vendor side channel and nothing else. -/
def PowerHalLoader.sehOnly : PowerHalLoader :=
  { loadAidl := none, loadHidlSeh := some 9, loadHidlV1_0 := none, loadHidlV1_1 := none,
    loadHidlV1_2 := none, loadHidlV1_3 := none }

/-! # Theorems -/

/-! ## Trace lemmas -/

theorem RemoteExt.refl (tr : Trace) : RemoteExt tr tr :=
  ⟨[], by simp, by simp⟩

theorem RemoteExt.trans {a b c : Trace} (h1 : RemoteExt a b) (h2 : RemoteExt b c) :
    RemoteExt a c := by
  obtain ⟨e1, rfl, p1⟩ := h1
  obtain ⟨e2, rfl, p2⟩ := h2
  refine ⟨e1 ++ e2, by simp, ?_⟩
  intro e he
  rcases List.mem_append.mp he with h | h
  · exact p1 e h
  · exact p2 e h

theorem RemoteExt.record (tr : Trace) (h : Option Handle) (m : Method) :
    RemoteExt tr (record tr h m) :=
  ⟨[Event.remote h m], rfl, by simp⟩

theorem RemoteExt.connects {tr tr' : Trace} (h : RemoteExt tr tr') :
    connects tr' = connects tr := by
  obtain ⟨evs, rfl, p⟩ := h
  unfold PowerHal.connects
  rw [List.count_append]
  have : List.count Event.connect evs = 0 := by
    rw [List.count_eq_zero]
    intro hm
    obtain ⟨h, m, he⟩ := p _ hm
    cases he
  omega

theorem RemoteExt.resets {tr tr' : Trace} (h : RemoteExt tr tr') :
    resets tr' = resets tr := by
  obtain ⟨evs, rfl, p⟩ := h
  unfold PowerHal.resets
  rw [List.count_append]
  have : List.count Event.reset evs = 0 := by
    rw [List.count_eq_zero]
    intro hm
    obtain ⟨h, m, he⟩ := p _ hm
    cases he
  omega

theorem RemoteExt.halCalls {tr tr' : Trace} (h : RemoteExt tr tr') :
    halCalls tr' = halCalls tr := by
  obtain ⟨evs, rfl, p⟩ := h
  unfold PowerHal.halCalls
  rw [List.filterMap_append]
  have : List.filterMap (fun e => match e with
    | Event.hal op => some op
    | _ => none) evs = [] := by
    rw [List.filterMap_eq_nil_iff]
    intro e he
    obtain ⟨h, m, rfl⟩ := p e he
    rfl
  rw [this, List.append_nil]

/-! ## Backend operations only add calls on raw handles -/

theorem HidlHalWrapper.hidl_sendPowerHint_ext (env : Env) (w : HidlHalWrapper) (tr : Trace)
    (hintId : PowerHint) (data : Nat) :
    RemoteExt tr (w.sendPowerHint env tr hintId data).2 := by
  unfold HidlHalWrapper.sendPowerHint
  cases w.gen <;>
    simp only [HidlHalWrapperV1_0.sendPowerHint, HidlHalWrapperV1_1.sendPowerHint,
      HidlHalWrapperV1_2.sendPowerHint, HidlHalWrapperV1_3.sendPowerHint] <;>
    exact RemoteExt.record _ _ _

theorem HidlHalWrapperV1_0.v1_0_setBoost_ext (env : Env) (w : HidlHalWrapper) (tr : Trace)
    (boost : Boost) (durationMs : Int) :
    RemoteExt tr (HidlHalWrapperV1_0.setBoost env w tr boost durationMs).2 := by
  unfold HidlHalWrapperV1_0.setBoost
  split
  · exact HidlHalWrapper.hidl_sendPowerHint_ext _ _ _ _ _
  · exact RemoteExt.refl _

theorem HidlHalWrapperV1_0.v1_0_setMode_ext (env : Env) (w : HidlHalWrapper) (tr : Trace)
    (mode : Mode) (enabled : Bool) :
    RemoteExt tr (HidlHalWrapperV1_0.setMode env w tr mode enabled).2 := by
  unfold HidlHalWrapperV1_0.setMode
  simp only
  split_ifs
  all_goals first
    | exact HidlHalWrapper.hidl_sendPowerHint_ext _ _ _ _ _
    | exact RemoteExt.refl _
    | exact RemoteExt.record _ _ _

theorem HidlHalWrapper.hidl_setBoost_ext (env : Env) (w : HidlHalWrapper) (tr : Trace)
    (boost : Boost) (durationMs : Int) :
    RemoteExt tr (w.setBoost env tr boost durationMs).2 := by
  unfold HidlHalWrapper.setBoost
  cases w.gen <;> simp only [HidlHalWrapperV1_2.setBoost] <;> (try split_ifs) <;>
    first
      | exact HidlHalWrapper.hidl_sendPowerHint_ext _ _ _ _ _
      | exact HidlHalWrapperV1_0.v1_0_setBoost_ext _ _ _ _ _

theorem HidlHalWrapper.hidl_setMode_ext (env : Env) (w : HidlHalWrapper) (tr : Trace)
    (mode : Mode) (enabled : Bool) :
    RemoteExt tr (w.setMode env tr mode enabled).2 := by
  unfold HidlHalWrapper.setMode
  cases w.gen <;> simp only [HidlHalWrapperV1_2.setMode, HidlHalWrapperV1_3.setMode] <;>
    (try split_ifs) <;>
    first
      | exact HidlHalWrapper.hidl_sendPowerHint_ext _ _ _ _ _
      | exact HidlHalWrapperV1_0.v1_0_setMode_ext _ _ _ _ _

theorem HidlHalWrapperSeh.seh_sendPowerHint_ext (env : Env) (w : HidlHalWrapperSeh) (tr : Trace)
    (hintId : PowerHint) (data : Nat) :
    RemoteExt tr (w.sendPowerHint env tr hintId data).2 := by
  unfold HidlHalWrapperSeh.sendPowerHint
  split <;> exact RemoteExt.record _ _ _

theorem HidlHalWrapperSeh.seh_setBoost_ext (env : Env) (w : HidlHalWrapperSeh) (tr : Trace)
    (boost : Boost) (durationMs : Int) :
    RemoteExt tr (w.setBoost env tr boost durationMs).2 := by
  unfold HidlHalWrapperSeh.setBoost
  split
  · exact HidlHalWrapperSeh.seh_sendPowerHint_ext _ _ _ _ _
  · exact RemoteExt.refl _

theorem HidlHalWrapperSeh.seh_setMode_ext (env : Env) (w : HidlHalWrapperSeh) (tr : Trace)
    (mode : Mode) (enabled : Bool) :
    RemoteExt tr (w.setMode env tr mode enabled).2 := by
  unfold HidlHalWrapperSeh.setMode
  simp only
  split_ifs
  all_goals first
    | exact HidlHalWrapperSeh.seh_sendPowerHint_ext _ _ _ _ _
    | exact RemoteExt.refl _
    | exact RemoteExt.record _ _ _
    | (unfold HidlHalWrapperSeh.setInteractive
       simp only
       split_ifs
       · exact (RemoteExt.record _ _ _).trans (RemoteExt.record _ _ _)
       · exact RemoteExt.record _ _ _)

theorem AidlHalWrapper.aidl_setBoost_ext (env : Env) (w : AidlHalWrapper) (tr : Trace)
    (boost : Boost) (durationMs : Int) :
    RemoteExt tr (w.setBoost env tr boost durationMs).2.2 := by
  unfold AidlHalWrapper.setBoost
  simp only
  split_ifs
  all_goals first
    | exact RemoteExt.refl _
    | exact RemoteExt.record _ _ _
    | exact (RemoteExt.record _ _ _).trans (RemoteExt.record _ _ _)

theorem AidlHalWrapper.notifySeh_ext (w : AidlHalWrapper) (tr : Trace) (mode : Mode)
    (enabled : Bool) : RemoteExt tr (w.notifySeh tr mode enabled) := by
  unfold AidlHalWrapper.notifySeh
  split
  · exact RemoteExt.record _ _ _
  · exact RemoteExt.refl _

theorem AidlHalWrapper.aidl_setMode_ext (env : Env) (w : AidlHalWrapper) (tr : Trace)
    (mode : Mode) (enabled : Bool) :
    RemoteExt tr (w.setMode env tr mode enabled).2.2 := by
  have h0 := AidlHalWrapper.notifySeh_ext w tr mode enabled
  unfold AidlHalWrapper.setMode
  simp only
  split_ifs
  all_goals first
    | exact h0
    | exact h0.trans (RemoteExt.record _ _ _)
    | exact (h0.trans (RemoteExt.record _ _ _)).trans (RemoteExt.record _ _ _)

/-! ## The controller template -/

theorem HalResult.isFailed_map {α β : Type} (f : α → β) (r : HalResult α) :
    (r.map f).isFailed = r.isFailed := by
  cases r <;> rfl

theorem PowerHalController.processHalResult_map {α β : Type} (f : α → β)
    (c : PowerHalController) (tr : Trace) (r : HalResult α) :
    c.processHalResult tr (r.map f) =
      ((c.processHalResult tr r).1.map f, (c.processHalResult tr r).2) := by
  unfold PowerHalController.processHalResult
  rw [HalResult.isFailed_map]
  split <;> rfl

theorem HalWrapper.perform_ext (env : Env) (self : HalWrapper) (tr : Trace) (op : HalOp) :
    RemoteExt (tr ++ [Event.hal op]) (self.perform env tr op).2.2 := by
  cases op <;> cases self <;>
    simp only [HalWrapper.perform, HalWrapper.setBoost, HalWrapper.setMode,
      HalWrapper.createHintSession, HalWrapper.createHintSessionWithConfig,
      HalWrapper.getHintSessionPreferredRate, HalWrapper.getSessionChannel,
      HalWrapper.closeSessionChannel, AidlHalWrapper.createHintSession,
      AidlHalWrapper.createHintSessionWithConfig, AidlHalWrapper.getHintSessionPreferredRate,
      AidlHalWrapper.getSessionChannel, AidlHalWrapper.closeSessionChannel] <;>
    first
      | exact RemoteExt.refl _
      | exact RemoteExt.record _ _ _
      | exact HidlHalWrapper.hidl_setBoost_ext _ _ _ _ _
      | exact HidlHalWrapper.hidl_setMode_ext _ _ _ _ _
      | exact HidlHalWrapperSeh.seh_setBoost_ext _ _ _ _ _
      | exact HidlHalWrapperSeh.seh_setMode_ext _ _ _ _ _
      | exact AidlHalWrapper.aidl_setBoost_ext _ _ _ _ _
      | exact AidlHalWrapper.aidl_setMode_ext _ _ _ _ _

/-- Every controller operation is `initHal`, then the virtual call of the same operation
on the handle `initHal` returned, then `processHalResult`. -/
theorem PowerHalController.perform_eq (env : Env) (self : PowerHalController) (tr : Trace)
    (op : HalOp) :
    self.perform env tr op =
      ((self.initHal env tr).2.1.shared
          ((self.initHal env tr).1.perform env (self.initHal env tr).2.2 op).2.1).processHalResult
        ((self.initHal env tr).1.perform env (self.initHal env tr).2.2 op).2.2
        ((self.initHal env tr).1.perform env (self.initHal env tr).2.2 op).1 := by
  cases op <;>
    simp only [PowerHalController.perform, HalWrapper.perform, PowerHalController.setBoost,
      PowerHalController.setMode, PowerHalController.createHintSession,
      PowerHalController.createHintSessionWithConfig,
      PowerHalController.getHintSessionPreferredRate, PowerHalController.getSessionChannel,
      PowerHalController.closeSessionChannel, PowerHalController.processHalResult_map]

/-! ## Controller: connection lifecycle and failure classification -/

theorem PowerHalController.delegated_eq (env : Env) (self : PowerHalController) (tr : Trace)
    (op : HalOp) :
    self.delegated env tr op =
      (self.initHal env tr).1.perform env (self.initHal env tr).2.2 op := rfl

theorem PowerHalController.perform_eq_delegated (env : Env) (self : PowerHalController)
    (tr : Trace) (op : HalOp) :
    self.perform env tr op =
      ((self.initHal env tr).2.1.shared (self.delegated env tr op).2.1).processHalResult
        (self.delegated env tr op).2.2 (self.delegated env tr op).1 := by
  rw [PowerHalController.perform_eq, PowerHalController.delegated_eq]

theorem PowerHalController.delegated_ext (env : Env) (self : PowerHalController) (tr : Trace)
    (op : HalOp) :
    RemoteExt ((self.initHal env tr).2.2 ++ [Event.hal op]) (self.delegated env tr op).2.2 := by
  rw [PowerHalController.delegated_eq]
  exact HalWrapper.perform_ext _ _ _ _

theorem resets_append_hal (tr : Trace) (op : HalOp) :
    resets (tr ++ [Event.hal op]) = resets tr := by
  simp [resets, List.count_append]

theorem resets_append_connect (tr : Trace) :
    resets (tr ++ [Event.connect]) = resets tr := by
  simp [resets, List.count_append]

theorem resets_append_reset (tr : Trace) :
    resets (tr ++ [Event.reset]) = resets tr + 1 := by
  simp [resets, List.count_append]

theorem connects_append_hal (tr : Trace) (op : HalOp) :
    connects (tr ++ [Event.hal op]) = connects tr := by
  simp [connects, List.count_append]

theorem connects_append_connect (tr : Trace) :
    connects (tr ++ [Event.connect]) = connects tr + 1 := by
  simp [connects, List.count_append]

theorem connects_append_reset (tr : Trace) :
    connects (tr ++ [Event.reset]) = connects tr := by
  simp [connects, List.count_append]

theorem halCalls_append_hal (tr : Trace) (op : HalOp) :
    halCalls (tr ++ [Event.hal op]) = halCalls tr ++ [op] := by
  simp [halCalls, List.filterMap_append]

theorem halCalls_append_connect (tr : Trace) :
    halCalls (tr ++ [Event.connect]) = halCalls tr := by
  simp [halCalls, List.filterMap_append]

theorem halCalls_append_reset (tr : Trace) :
    halCalls (tr ++ [Event.reset]) = halCalls tr := by
  simp [halCalls, List.filterMap_append]

theorem PowerHalController.initHal_resets (env : Env) (self : PowerHalController)
    (tr : Trace) : resets (self.initHal env tr).2.2 = resets tr := by
  unfold PowerHalController.initHal
  split
  · split <;> exact resets_append_connect tr
  · rfl

theorem PowerHalController.initHal_connects (env : Env) (self : PowerHalController)
    (tr : Trace) :
    connects (self.initHal env tr).2.2 =
      connects tr + (if self.mConnectedHal = none then 1 else 0) := by
  unfold PowerHalController.initHal
  split
  · rename_i h
    rw [h]
    split <;> exact connects_append_connect tr
  · rename_i hal h
    rw [h]
    simp

theorem PowerHalController.initHal_halCalls (env : Env) (self : PowerHalController)
    (tr : Trace) : halCalls (self.initHal env tr).2.2 = halCalls tr := by
  unfold PowerHalController.initHal
  split
  · split <;> exact halCalls_append_connect tr
  · rfl

theorem PowerHalController.delegated_resets (env : Env) (self : PowerHalController)
    (tr : Trace) (op : HalOp) : resets (self.delegated env tr op).2.2 = resets tr := by
  rw [(PowerHalController.delegated_ext env self tr op).resets, resets_append_hal,
    PowerHalController.initHal_resets]

theorem PowerHalController.delegated_connects (env : Env) (self : PowerHalController)
    (tr : Trace) (op : HalOp) :
    connects (self.delegated env tr op).2.2 =
      connects tr + (if self.mConnectedHal = none then 1 else 0) := by
  rw [(PowerHalController.delegated_ext env self tr op).connects, connects_append_hal,
    PowerHalController.initHal_connects]

theorem PowerHalController.delegated_halCalls (env : Env) (self : PowerHalController)
    (tr : Trace) (op : HalOp) :
    halCalls (self.delegated env tr op).2.2 = halCalls tr ++ [op] := by
  rw [(PowerHalController.delegated_ext env self tr op).halCalls, halCalls_append_hal,
    PowerHalController.initHal_halCalls]

theorem PowerHalController.perform_result (env : Env) (self : PowerHalController)
    (tr : Trace) (op : HalOp) :
    (self.perform env tr op).1 = (self.delegated env tr op).1 := by
  rw [PowerHalController.perform_eq_delegated]
  unfold PowerHalController.processHalResult
  split <;> rfl

/-- C1: for every controller operation, if the delegated backend call returns Failed,
then after the operation the controller holds no cached backend (it is Disconnected)
and `HalConnector::reset` has been invoked exactly once during the operation. -/
theorem C1_failed_drops_backend_and_resets_once (env : Env) (self : PowerHalController)
    (tr : Trace) (op : HalOp)
    (hfailed : (self.delegated env tr op).1.isFailed = true) :
    (self.perform env tr op).2.1.mConnectedHal = none ∧
      resets (self.perform env tr op).2.2 = resets tr + 1 := by
  rw [PowerHalController.perform_eq_delegated]
  unfold PowerHalController.processHalResult
  rw [if_pos hfailed]
  exact ⟨rfl, by
    show resets ((self.delegated env tr op).2.2 ++ [Event.reset]) = resets tr + 1
    rw [resets_append_reset, PowerHalController.delegated_resets]⟩

/-- Witness for C1: a connected 1.0 HIDL backend whose hint call breaks in transport. -/
theorem C1_witness :
    (PowerHalController.initial.delegated Env.brokenHidl []
        (HalOp.setBoost Boost.INTERACTION 100)).1.isFailed = true ∧
      (PowerHalController.initial.perform Env.brokenHidl []
        (HalOp.setBoost Boost.INTERACTION 100)).2.1.mConnectedHal = none ∧
      resets (PowerHalController.initial.perform Env.brokenHidl []
        (HalOp.setBoost Boost.INTERACTION 100)).2.2 = resets [] + 1 :=
  ⟨by decide,
    C1_failed_drops_backend_and_resets_once Env.brokenHidl PowerHalController.initial []
      (HalOp.setBoost Boost.INTERACTION 100) (by decide)⟩

theorem AidlHalWrapper.setBoost_handles (env : Env) (w : AidlHalWrapper) (tr : Trace)
    (boost : Boost) (durationMs : Int) :
    (w.setBoost env tr boost durationMs).2.1.mHandle = w.mHandle ∧
      (w.setBoost env tr boost durationMs).2.1.mHandleSeh = w.mHandleSeh := by
  unfold AidlHalWrapper.setBoost
  simp only
  split_ifs <;> exact ⟨rfl, rfl⟩

theorem AidlHalWrapper.setMode_handles (env : Env) (w : AidlHalWrapper) (tr : Trace)
    (mode : Mode) (enabled : Bool) :
    (w.setMode env tr mode enabled).2.1.mHandle = w.mHandle ∧
      (w.setMode env tr mode enabled).2.1.mHandleSeh = w.mHandleSeh := by
  unfold AidlHalWrapper.setMode
  simp only
  split_ifs <;> exact ⟨rfl, rfl⟩

/-- A backend operation leaves the object's class and raw handles as they are. -/
theorem HalWrapper.perform_ident (env : Env) (self : HalWrapper) (tr : Trace) (op : HalOp) :
    (self.perform env tr op).2.1.ident = self.ident := by
  cases op <;> cases self <;>
    simp only [HalWrapper.perform, HalWrapper.setBoost, HalWrapper.setMode,
      HalWrapper.createHintSession, HalWrapper.createHintSessionWithConfig,
      HalWrapper.getHintSessionPreferredRate, HalWrapper.getSessionChannel,
      HalWrapper.closeSessionChannel, HalWrapper.ident]
  · rename_i boost durationMs w
    obtain ⟨h1, h2⟩ := AidlHalWrapper.setBoost_handles env w
      (tr ++ [Event.hal (HalOp.setBoost boost durationMs)]) boost durationMs
    simp only [h1, h2]
  · rename_i mode enabled w
    obtain ⟨h1, h2⟩ := AidlHalWrapper.setMode_handles env w
      (tr ++ [Event.hal (HalOp.setMode mode enabled)]) mode enabled
    simp only [h1, h2]

/-- C2: for every controller operation whose delegated backend call returns Ok or
Unsupported, the cached backend after the operation is the one present after the
connect step (the same object, in the state its own call left it; none if none) and
`HalConnector::reset` is not invoked. -/
theorem C2_ok_or_unsupported_keeps_connection (env : Env) (self : PowerHalController)
    (tr : Trace) (op : HalOp)
    (hres : (self.delegated env tr op).1.isOk = true ∨
      (self.delegated env tr op).1.isUnsupported = true) :
    (self.perform env tr op).2.1.mConnectedHal =
        (self.initHal env tr).2.1.mConnectedHal.map (fun _ => (self.delegated env tr op).2.1) ∧
      (self.perform env tr op).2.1.mConnectedHal.map HalWrapper.ident =
        (self.initHal env tr).2.1.mConnectedHal.map HalWrapper.ident ∧
      ((self.perform env tr op).2.1.mConnectedHal = none ↔
        (self.initHal env tr).2.1.mConnectedHal = none) ∧
      resets (self.perform env tr op).2.2 = resets tr := by
  have hnf : (self.delegated env tr op).1.isFailed = false := by
    rcases hres with h | h <;> cases hr : (self.delegated env tr op).1 <;>
      simp_all [HalResult.isOk, HalResult.isUnsupported, HalResult.isFailed]
  have hperf : self.perform env tr op =
      ((self.delegated env tr op).1,
        (self.initHal env tr).2.1.shared (self.delegated env tr op).2.1,
        (self.delegated env tr op).2.2) := by
    rw [PowerHalController.perform_eq_delegated]
    unfold PowerHalController.processHalResult
    rw [hnf]
    rfl
  have hident : ∀ h ∈ (self.initHal env tr).2.1.mConnectedHal,
      (self.delegated env tr op).2.1.ident = h.ident := by
    intro h hh
    have hh1 : (self.initHal env tr).1 = h := by
      revert hh
      unfold PowerHalController.initHal
      split
      · split <;> simp
      · rename_i hal hc
        simp [hc]
    rw [PowerHalController.delegated_eq, HalWrapper.perform_ident, hh1]
  rw [hperf]
  refine ⟨rfl, ?_, ?_, ?_⟩
  · show ((self.initHal env tr).2.1.mConnectedHal.map
        (fun _ => (self.delegated env tr op).2.1)).map HalWrapper.ident = _
    cases hc : (self.initHal env tr).2.1.mConnectedHal with
    | none => rfl
    | some h => simp [hident h (by rw [hc]; exact rfl)]
  · show ((self.initHal env tr).2.1.mConnectedHal.map
        (fun _ => (self.delegated env tr op).2.1)) = none ↔ _
    simp
  · exact PowerHalController.delegated_resets env self tr op

/-- Witness for C2: a 1.0 HIDL backend whose hint call goes through. -/
theorem C2_witness :
    (PowerHalController.initial.perform Env.workingHidl []
        (HalOp.setBoost Boost.INTERACTION 100)).2.1.mConnectedHal =
        (PowerHalController.initial.initHal Env.workingHidl []).2.1.mConnectedHal.map
          (fun _ => (PowerHalController.initial.delegated Env.workingHidl []
            (HalOp.setBoost Boost.INTERACTION 100)).2.1) ∧
      (PowerHalController.initial.perform Env.workingHidl []
        (HalOp.setBoost Boost.INTERACTION 100)).2.1.mConnectedHal.map HalWrapper.ident =
        (PowerHalController.initial.initHal Env.workingHidl []).2.1.mConnectedHal.map
          HalWrapper.ident ∧
      ((PowerHalController.initial.perform Env.workingHidl []
        (HalOp.setBoost Boost.INTERACTION 100)).2.1.mConnectedHal = none ↔
        (PowerHalController.initial.initHal Env.workingHidl []).2.1.mConnectedHal = none) ∧
      resets (PowerHalController.initial.perform Env.workingHidl []
        (HalOp.setBoost Boost.INTERACTION 100)).2.2 = resets [] :=
  C2_ok_or_unsupported_keeps_connection Env.workingHidl PowerHalController.initial []
    (HalOp.setBoost Boost.INTERACTION 100) (Or.inl (by decide))

theorem PowerHalController.perform_connects (env : Env) (self : PowerHalController)
    (tr : Trace) (op : HalOp) :
    connects (self.perform env tr op).2.2 =
      connects tr + (if self.mConnectedHal = none then 1 else 0) := by
  rw [PowerHalController.perform_eq_delegated]
  unfold PowerHalController.processHalResult
  split
  · show connects ((self.delegated env tr op).2.2 ++ [Event.reset]) = _
    rw [connects_append_reset, PowerHalController.delegated_connects]
  · exact PowerHalController.delegated_connects env self tr op

theorem PowerHalController.perform_failed_disconnected (env : Env)
    (self : PowerHalController) (tr : Trace) (op : HalOp)
    (hfailed : (self.perform env tr op).1.isFailed = true) :
    (self.perform env tr op).2.1.mConnectedHal = none := by
  rw [PowerHalController.perform_result] at hfailed
  rw [PowerHalController.perform_eq_delegated]
  unfold PowerHalController.processHalResult
  rw [if_pos hfailed]

/-- C3: a controller operation invokes `HalConnector::connect` exactly once when the
controller is Disconnected at its start and not at all when it is Connected; and after
an operation that returned Failed, the very next operation, whichever it is, invokes
`connect` exactly once. -/
theorem C3_connect_once_iff_disconnected (env : Env) (self : PowerHalController)
    (tr : Trace) (op : HalOp) :
    (self.mConnectedHal = none →
        connects (self.perform env tr op).2.2 = connects tr + 1) ∧
      (self.mConnectedHal ≠ none →
        connects (self.perform env tr op).2.2 = connects tr) ∧
      ((self.perform env tr op).1.isFailed = true →
        ∀ next : HalOp,
          connects ((self.perform env tr op).2.1.perform env
              (self.perform env tr op).2.2 next).2.2 =
            connects (self.perform env tr op).2.2 + 1) := by
  refine ⟨?_, ?_, ?_⟩
  · intro h
    rw [PowerHalController.perform_connects, if_pos h]
  · intro h
    rw [PowerHalController.perform_connects, if_neg h, Nat.add_zero]
  · intro hfailed next
    rw [PowerHalController.perform_connects,
      if_pos (PowerHalController.perform_failed_disconnected env self tr op hfailed)]

/-- Witness for C3: on a device whose 1.0 HIDL service breaks every call, the first
operation connects once and fails, and the operation after it connects once more. -/
theorem C3_witness :
    PowerHalController.initial.mConnectedHal = none ∧
      (PowerHalController.initial.perform Env.brokenHidl []
        (HalOp.setMode Mode.LAUNCH true)).1.isFailed = true ∧
      connects (PowerHalController.initial.perform Env.brokenHidl []
        (HalOp.setMode Mode.LAUNCH true)).2.2 = connects [] + 1 ∧
      connects ((PowerHalController.initial.perform Env.brokenHidl []
          (HalOp.setMode Mode.LAUNCH true)).2.1.perform Env.brokenHidl
          (PowerHalController.initial.perform Env.brokenHidl []
            (HalOp.setMode Mode.LAUNCH true)).2.2 (HalOp.setBoost Boost.INTERACTION 5)).2.2 =
        connects (PowerHalController.initial.perform Env.brokenHidl []
          (HalOp.setMode Mode.LAUNCH true)).2.2 + 1 :=
  ⟨rfl, by decide,
    (C3_connect_once_iff_disconnected Env.brokenHidl PowerHalController.initial []
      (HalOp.setMode Mode.LAUNCH true)).1 rfl,
    (C3_connect_once_iff_disconnected Env.brokenHidl PowerHalController.initial []
      (HalOp.setMode Mode.LAUNCH true)).2.2 (by decide) (HalOp.setBoost Boost.INTERACTION 5)⟩

theorem HalWrapper.empty_perform_result (env : Env) (tr : Trace) (op : HalOp) :
    (HalWrapper.empty.perform env tr op).1 = HalResult.unsupported := by
  cases op <;> rfl

theorem PowerHalController.perform_no_service (env : Env)
    (hnull : ∀ t : Trace, env.connect t = none) (tr : Trace) (op : HalOp) :
    (PowerHalController.initial.perform env tr op).1 = HalResult.unsupported ∧
      (PowerHalController.initial.perform env tr op).2.1 = PowerHalController.initial ∧
      resets (PowerHalController.initial.perform env tr op).2.2 = resets tr := by
  have hinit : PowerHalController.initial.initHal env tr =
      (HalWrapper.empty, PowerHalController.initial, tr ++ [Event.connect]) := by
    unfold PowerHalController.initHal
    simp only [PowerHalController.initial, hnull tr]
    rfl
  have hdel : (PowerHalController.initial.delegated env tr op).1 = HalResult.unsupported := by
    rw [PowerHalController.delegated_eq, hinit]
    exact HalWrapper.empty_perform_result env _ op
  refine ⟨by rw [PowerHalController.perform_result, hdel], ?_, ?_⟩
  · rw [PowerHalController.perform_eq_delegated]
    unfold PowerHalController.processHalResult
    rw [hdel, hinit]
    rfl
  · rw [PowerHalController.perform_eq_delegated]
    unfold PowerHalController.processHalResult
    rw [hdel]
    exact PowerHalController.delegated_resets env _ tr op

/-- C4: if `HalConnector::connect` returns no backend on every attempt, then for every
finite sequence of controller operations with any arguments, started from the initial
(Disconnected) controller, every operation returns Unsupported, the controller is
Disconnected after each one, and `HalConnector::reset` is never invoked. -/
theorem C4_no_backend_always_unsupported (env : Env)
    (hnull : ∀ t : Trace, env.connect t = none) (tr : Trace) (ops : List HalOp) :
    (PowerHalController.initial.run env tr ops).1.length = ops.length ∧
      (∀ p ∈ (PowerHalController.initial.run env tr ops).1,
        p.1 = HalResult.unsupported ∧ p.2.mConnectedHal = none) ∧
      (PowerHalController.initial.run env tr ops).2.1.mConnectedHal = none ∧
      resets (PowerHalController.initial.run env tr ops).2.2 = resets tr := by
  induction ops generalizing tr with
  | nil => exact ⟨rfl, by simp [PowerHalController.run], rfl, rfl⟩
  | cons op ops ih =>
    obtain ⟨h1, h2, h3⟩ := PowerHalController.perform_no_service env hnull tr op
    obtain ⟨i1, i2, i3, i4⟩ := ih (PowerHalController.initial.perform env tr op).2.2
    have hrun : PowerHalController.initial.run env tr (op :: ops) =
        (((PowerHalController.initial.perform env tr op).1, PowerHalController.initial) ::
            (PowerHalController.initial.run env
              (PowerHalController.initial.perform env tr op).2.2 ops).1,
          (PowerHalController.initial.run env
              (PowerHalController.initial.perform env tr op).2.2 ops).2) := by
      conv_lhs => rw [PowerHalController.run]
      simp only [h2]
    rw [hrun]
    refine ⟨by simp [i1], ?_, i3, by rw [i4, h3]⟩
    intro p hp
    rcases List.mem_cons.mp hp with hp | hp
    · subst hp
      exact ⟨h1, rfl⟩
    · exact i2 p hp

/-- Witness for C4: three operations on a device without any power service. -/
theorem C4_witness :
    (∀ t : Trace, Env.noService.connect t = none) ∧
      (PowerHalController.initial.run Env.noService []
        [HalOp.setBoost Boost.INTERACTION 100, HalOp.getHintSessionPreferredRate,
          HalOp.closeSessionChannel 10 20]).1.length = 3 ∧
      (∀ p ∈ (PowerHalController.initial.run Env.noService []
        [HalOp.setBoost Boost.INTERACTION 100, HalOp.getHintSessionPreferredRate,
          HalOp.closeSessionChannel 10 20]).1,
        p.1 = HalResult.unsupported ∧ p.2.mConnectedHal = none) ∧
      (PowerHalController.initial.run Env.noService []
        [HalOp.setBoost Boost.INTERACTION 100, HalOp.getHintSessionPreferredRate,
          HalOp.closeSessionChannel 10 20]).2.1.mConnectedHal = none ∧
      resets (PowerHalController.initial.run Env.noService []
        [HalOp.setBoost Boost.INTERACTION 100, HalOp.getHintSessionPreferredRate,
          HalOp.closeSessionChannel 10 20]).2.2 = resets [] :=
  ⟨fun _ => rfl,
    C4_no_backend_always_unsupported Env.noService (fun _ => rfl) []
      [HalOp.setBoost Boost.INTERACTION 100, HalOp.getHintSessionPreferredRate,
        HalOp.closeSessionChannel 10 20]⟩

/-- The typed form of the pass-through: each of the seven controller functions returns
the outcome of the same function of the handle `initHal` returned. -/
theorem PowerHalController.typed_results (env : Env) (self : PowerHalController) (tr : Trace) :
    (∀ boost durationMs,
      (self.setBoost env tr boost durationMs).1 =
        ((self.initHal env tr).1.setBoost env (self.initHal env tr).2.2 boost durationMs).1) ∧
    (∀ mode enabled,
      (self.setMode env tr mode enabled).1 =
        ((self.initHal env tr).1.setMode env (self.initHal env tr).2.2 mode enabled).1) ∧
    (∀ tgid uid threadIds durationNanos,
      (self.createHintSession env tr tgid uid threadIds durationNanos).1 =
        ((self.initHal env tr).1.createHintSession env (self.initHal env tr).2.2
          tgid uid threadIds durationNanos).1) ∧
    (∀ tgid uid threadIds durationNanos tag,
      (self.createHintSessionWithConfig env tr tgid uid threadIds durationNanos tag).1 =
        ((self.initHal env tr).1.createHintSessionWithConfig env (self.initHal env tr).2.2
          tgid uid threadIds durationNanos tag).1) ∧
    (self.getHintSessionPreferredRate env tr).1 =
      ((self.initHal env tr).1.getHintSessionPreferredRate env (self.initHal env tr).2.2).1 ∧
    (∀ tgid uid,
      (self.getSessionChannel env tr tgid uid).1 =
        ((self.initHal env tr).1.getSessionChannel env (self.initHal env tr).2.2 tgid uid).1) ∧
    (∀ tgid uid,
      (self.closeSessionChannel env tr tgid uid).1 =
        ((self.initHal env tr).1.closeSessionChannel env (self.initHal env tr).2.2
          tgid uid).1) := by
  refine ⟨?_, ?_, ?_, ?_, ?_, ?_, ?_⟩ <;> intros <;>
    simp only [PowerHalController.setBoost, PowerHalController.setMode,
      PowerHalController.createHintSession, PowerHalController.createHintSessionWithConfig,
      PowerHalController.getHintSessionPreferredRate, PowerHalController.getSessionChannel,
      PowerHalController.closeSessionChannel, PowerHalController.processHalResult] <;>
    split <;> rfl

/-- C5: every controller operation enters the corresponding operation of the selected
backend (the cached one, else the one `connect` just returned, else the fallback)
exactly once, with the caller's arguments, and returns to the caller the very outcome
that backend call produced: the same value for Ok, Unsupported for Unsupported, the
same message for Failed. -/
theorem C5_delegates_once_and_passes_outcome_through (env : Env)
    (self : PowerHalController) (tr : Trace) (op : HalOp) :
    (self.initHal env tr).1 =
        (match self.mConnectedHal with
          | some hal => hal
          | none => (env.connect tr).getD PowerHalController.mDefaultHal) ∧
      (self.perform env tr op).1 =
        ((self.initHal env tr).1.perform env (self.initHal env tr).2.2 op).1 ∧
      halCalls (self.perform env tr op).2.2 = halCalls tr ++ [op] := by
  refine ⟨?_, ?_, ?_⟩
  · unfold PowerHalController.initHal
    split
    · split <;> simp_all
    · rename_i hal hc
      rw [hc]
  · rw [PowerHalController.perform_result, PowerHalController.delegated_eq]
  · rw [PowerHalController.perform_eq_delegated]
    unfold PowerHalController.processHalResult
    split
    · show halCalls ((self.delegated env tr op).2.2 ++ [Event.reset]) = _
      rw [halCalls_append_reset, PowerHalController.delegated_halCalls]
    · exact PowerHalController.delegated_halCalls env self tr op

/-! ## Outcome translation -/

/-- C6: `HalResult<void>::fromStatus(binder::Status)` yields Unsupported exactly when the
exception code is the unsupported-operation code, Ok exactly when the status is ok and
does not carry that code, and Failed (with the status text) in every other case;
`toHalResult` classifies every status the same way; so a status carrying the
unsupported-operation code is never classified as Failed. -/
theorem C6_fromStatus_classification (status : Status) :
    (HalResult.fromStatus status = HalResult.unsupported ↔
        status.exceptionCode = EX_UNSUPPORTED_OPERATION) ∧
      (HalResult.fromStatus status = HalResult.ok () ↔
        status.isOk = true ∧ status.exceptionCode ≠ EX_UNSUPPORTED_OPERATION) ∧
      (HalResult.fromStatus status = HalResult.failed status.toString8 ↔
        ¬ (status.exceptionCode = EX_UNSUPPORTED_OPERATION) ∧
          ¬ (status.isOk = true ∧ status.exceptionCode ≠ EX_UNSUPPORTED_OPERATION)) ∧
      toHalResult status = HalResult.fromStatus status ∧
      (status.exceptionCode = EX_UNSUPPORTED_OPERATION →
        (HalResult.fromStatus status).isFailed = false ∧
          (toHalResult status).isFailed = false) := by
  have hto : toHalResult status = HalResult.fromStatus status := by
    unfold toHalResult HalResult.fromStatus
    by_cases hok : status.isOk = true
    · have hne : ¬ (status.exceptionCode = EX_UNSUPPORTED_OPERATION) := by
        intro hc
        have h0 : status.mException = EX_NONE := by
          simpa [Status.isOk] using hok
        rw [Status.exceptionCode, h0] at hc
        exact absurd hc (by decide)
      simp [hok, hne]
    · simp [hok]
  refine ⟨?_, ?_, ?_, hto, ?_⟩
  · unfold HalResult.fromStatus
    by_cases hc : status.exceptionCode = EX_UNSUPPORTED_OPERATION
    · simp [hc]
    · by_cases hok : status.isOk = true <;> simp [hc, hok]
  · unfold HalResult.fromStatus
    by_cases hc : status.exceptionCode = EX_UNSUPPORTED_OPERATION
    · simp [hc]
    · by_cases hok : status.isOk = true <;> simp [hc, hok]
  · unfold HalResult.fromStatus
    by_cases hc : status.exceptionCode = EX_UNSUPPORTED_OPERATION
    · simp [hc]
    · by_cases hok : status.isOk = true <;> simp [hc, hok]
  · intro hc
    rw [hto]
    refine ⟨?_, ?_⟩ <;>
      · unfold HalResult.fromStatus
        simp [hc, HalResult.isFailed]

/-! ## AIDL wrapper: the four cases of the support cache -/

theorem entry_eq_some {arr : List HalSupport} {id : Int} {v : HalSupport} :
    entry arr id = some v ↔
      toSizeT id < arr.length ∧ arr.getD (toSizeT id) HalSupport.UNKNOWN = v := by
  unfold entry
  rw [List.getD_eq_getElem?_getD]
  constructor
  · intro h
    refine ⟨?_, by rw [h]; rfl⟩
    by_contra hlt
    rw [List.getElem?_eq_none (Nat.le_of_not_lt hlt)] at h
    cases h
  · rintro ⟨hlt, hv⟩
    rw [List.getElem?_eq_getElem hlt] at hv ⊢
    simpa using hv

theorem entry_eq_none {arr : List HalSupport} {id : Int} :
    entry arr id = none ↔ arr.length ≤ toSizeT id := by
  unfold entry
  exact List.getElem?_eq_none_iff

theorem AidlHalWrapper.setBoost_unknown (env : Env) (w : AidlHalWrapper) (tr : Trace)
    (boost : Boost) (durationMs : Int)
    (h : entry w.mBoostSupportedArray boost = some HalSupport.UNKNOWN) :
    w.setBoost env tr boost durationMs =
      if (env.reply tr w.mHandle (Method.isBoostSupported boost)).status.isOk = true then
        if (env.reply tr w.mHandle (Method.isBoostSupported boost)).flag = true then
          (toHalResult (env.reply (record tr w.mHandle (Method.isBoostSupported boost))
              w.mHandle (Method.setBoost boost durationMs)).status,
            { w with mBoostSupportedArray :=
                w.mBoostSupportedArray.set (toSizeT boost) HalSupport.ON },
            record (record tr w.mHandle (Method.isBoostSupported boost)) w.mHandle
              (Method.setBoost boost durationMs))
        else
          (HalResult.unsupported,
            { w with mBoostSupportedArray :=
                w.mBoostSupportedArray.set (toSizeT boost) HalSupport.OFF },
            record tr w.mHandle (Method.isBoostSupported boost))
      else
        (HalResult.fromStatus (env.reply tr w.mHandle (Method.isBoostSupported boost)).status,
          w, record tr w.mHandle (Method.isBoostSupported boost)) := by
  obtain ⟨hlt, hv⟩ := entry_eq_some.mp h
  unfold AidlHalWrapper.setBoost
  simp only [hv, ge_iff_le, Nat.not_le.mpr hlt, false_or, reduceCtorEq, if_false, if_true]
  by_cases hok : (env.reply tr w.mHandle (Method.isBoostSupported boost)).status.isOk = true
  · by_cases hf : (env.reply tr w.mHandle (Method.isBoostSupported boost)).flag = true
    · simp [hok, hf]
    · simp [hok, hf]
  · simp [hok]

theorem AidlHalWrapper.setBoost_on (env : Env) (w : AidlHalWrapper) (tr : Trace)
    (boost : Boost) (durationMs : Int)
    (h : entry w.mBoostSupportedArray boost = some HalSupport.ON) :
    w.setBoost env tr boost durationMs =
      (toHalResult (env.reply tr w.mHandle (Method.setBoost boost durationMs)).status, w,
        record tr w.mHandle (Method.setBoost boost durationMs)) := by
  obtain ⟨hlt, hv⟩ := entry_eq_some.mp h
  unfold AidlHalWrapper.setBoost
  simp only [hv, ge_iff_le, Nat.not_le.mpr hlt, false_or, reduceCtorEq, if_false]

theorem AidlHalWrapper.setBoost_off (env : Env) (w : AidlHalWrapper) (tr : Trace)
    (boost : Boost) (durationMs : Int)
    (h : entry w.mBoostSupportedArray boost = some HalSupport.OFF) :
    w.setBoost env tr boost durationMs = (HalResult.unsupported, w, tr) := by
  obtain ⟨_, hv⟩ := entry_eq_some.mp h
  unfold AidlHalWrapper.setBoost
  simp only [hv, or_true, if_true]

theorem AidlHalWrapper.setBoost_out_of_range (env : Env) (w : AidlHalWrapper) (tr : Trace)
    (boost : Boost) (durationMs : Int)
    (h : entry w.mBoostSupportedArray boost = none) :
    w.setBoost env tr boost durationMs = (HalResult.unsupported, w, tr) := by
  have hle := entry_eq_none.mp h
  unfold AidlHalWrapper.setBoost
  simp [hle]

theorem AidlHalWrapper.setMode_unknown (env : Env) (w : AidlHalWrapper) (tr : Trace)
    (mode : Mode) (enabled : Bool)
    (h : entry w.mModeSupportedArray mode = some HalSupport.UNKNOWN) :
    w.setMode env tr mode enabled =
      if (env.reply (w.notifySeh tr mode enabled) w.mHandle
          (Method.isModeSupported mode)).status.isOk = true then
        if (env.reply (w.notifySeh tr mode enabled) w.mHandle
            (Method.isModeSupported mode)).flag = true then
          (toHalResult (env.reply
              (record (w.notifySeh tr mode enabled) w.mHandle (Method.isModeSupported mode))
              w.mHandle (Method.setMode mode enabled)).status,
            { w with mModeSupportedArray :=
                w.mModeSupportedArray.set (toSizeT mode) HalSupport.ON },
            record (record (w.notifySeh tr mode enabled) w.mHandle
              (Method.isModeSupported mode)) w.mHandle (Method.setMode mode enabled))
        else
          (HalResult.unsupported,
            { w with mModeSupportedArray :=
                w.mModeSupportedArray.set (toSizeT mode) HalSupport.OFF },
            record (w.notifySeh tr mode enabled) w.mHandle (Method.isModeSupported mode))
      else
        (HalResult.failed (env.reply (w.notifySeh tr mode enabled) w.mHandle
            (Method.isModeSupported mode)).status.toString8,
          w, record (w.notifySeh tr mode enabled) w.mHandle (Method.isModeSupported mode)) := by
  obtain ⟨hlt, hv⟩ := entry_eq_some.mp h
  unfold AidlHalWrapper.setMode
  simp only [hv, ge_iff_le, Nat.not_le.mpr hlt, false_or, reduceCtorEq, if_false, if_true]
  by_cases hok : (env.reply (w.notifySeh tr mode enabled) w.mHandle
      (Method.isModeSupported mode)).status.isOk = true
  · by_cases hf : (env.reply (w.notifySeh tr mode enabled) w.mHandle
        (Method.isModeSupported mode)).flag = true
    · simp [hok, hf]
    · simp [hok, hf]
  · simp [hok]

theorem AidlHalWrapper.setMode_on (env : Env) (w : AidlHalWrapper) (tr : Trace)
    (mode : Mode) (enabled : Bool)
    (h : entry w.mModeSupportedArray mode = some HalSupport.ON) :
    w.setMode env tr mode enabled =
      (toHalResult (env.reply (w.notifySeh tr mode enabled) w.mHandle
          (Method.setMode mode enabled)).status, w,
        record (w.notifySeh tr mode enabled) w.mHandle (Method.setMode mode enabled)) := by
  obtain ⟨hlt, hv⟩ := entry_eq_some.mp h
  unfold AidlHalWrapper.setMode
  simp only [hv, ge_iff_le, Nat.not_le.mpr hlt, false_or, reduceCtorEq, if_false]

theorem AidlHalWrapper.setMode_off (env : Env) (w : AidlHalWrapper) (tr : Trace)
    (mode : Mode) (enabled : Bool)
    (h : entry w.mModeSupportedArray mode = some HalSupport.OFF) :
    w.setMode env tr mode enabled =
      (HalResult.unsupported, w, w.notifySeh tr mode enabled) := by
  obtain ⟨_, hv⟩ := entry_eq_some.mp h
  unfold AidlHalWrapper.setMode
  simp only [hv, or_true, if_true]

theorem AidlHalWrapper.setMode_out_of_range (env : Env) (w : AidlHalWrapper) (tr : Trace)
    (mode : Mode) (enabled : Bool)
    (h : entry w.mModeSupportedArray mode = none) :
    w.setMode env tr mode enabled =
      (HalResult.unsupported, w, w.notifySeh tr mode enabled) := by
  have hle := entry_eq_none.mp h
  unfold AidlHalWrapper.setMode
  simp [hle]

/-! ## AIDL wrapper: counting calls -/

theorem probes_record (tr : Trace) (h : Option Handle) (m : Method) :
    probes (record tr h m) = probes tr + (if (Event.remote h m).isProbe = true then 1 else 0) := by
  simp [probes, record, List.countP_append, List.countP_cons]

theorem operations_record (tr : Trace) (h : Option Handle) (m : Method) :
    operations (record tr h m) =
      operations tr + (if (Event.remote h m).isOperation = true then 1 else 0) := by
  simp [operations, record, List.countP_append, List.countP_cons]

theorem boostProbes_record (boost : Boost) (tr : Trace) (h : Option Handle) (m : Method) :
    boostProbes boost (record tr h m) =
      boostProbes boost tr + (if (Event.remote h m).isBoostProbe boost = true then 1 else 0) := by
  simp [boostProbes, record, List.countP_append, List.countP_cons]

theorem modeProbes_record (mode : Mode) (tr : Trace) (h : Option Handle) (m : Method) :
    modeProbes mode (record tr h m) =
      modeProbes mode tr + (if (Event.remote h m).isModeProbe mode = true then 1 else 0) := by
  simp [modeProbes, record, List.countP_append, List.countP_cons]

theorem AidlHalWrapper.notifySeh_probes (w : AidlHalWrapper) (tr : Trace) (mode : Mode)
    (enabled : Bool) : probes (w.notifySeh tr mode enabled) = probes tr := by
  unfold AidlHalWrapper.notifySeh
  split
  · rw [probes_record]; rfl
  · rfl

theorem AidlHalWrapper.notifySeh_operations (w : AidlHalWrapper) (tr : Trace) (mode : Mode)
    (enabled : Bool) : operations (w.notifySeh tr mode enabled) = operations tr := by
  unfold AidlHalWrapper.notifySeh
  split
  · rw [operations_record]; rfl
  · rfl

theorem AidlHalWrapper.notifySeh_modeProbes (w : AidlHalWrapper) (tr : Trace) (mode m : Mode)
    (enabled : Bool) : modeProbes m (w.notifySeh tr mode enabled) = modeProbes m tr := by
  unfold AidlHalWrapper.notifySeh
  split
  · rw [modeProbes_record]; rfl
  · rfl

/-! ## AIDL wrapper: a decided cache entry stays decided -/

theorem entry_set (arr : List HalSupport) (id id' : Int) (v : HalSupport)
    (h : toSizeT id < arr.length) :
    entry (arr.set (toSizeT id) v) id' =
      if toSizeT id = toSizeT id' then some v else entry arr id' := by
  unfold entry
  rw [List.getElem?_set]
  simp [h]

theorem Known.set {arr : List HalSupport} {id' : Int} (id : Int) (v : HalSupport)
    (hv : v ≠ HalSupport.UNKNOWN) (hlt : toSizeT id < arr.length) (hk : Known arr id') :
    Known (arr.set (toSizeT id) v) id' := by
  unfold Known
  rw [entry_set arr id id' v hlt]
  split
  · exact ⟨v, rfl, hv⟩
  · exact hk

theorem AidlHalWrapper.setBoost_modeArray (env : Env) (w : AidlHalWrapper) (tr : Trace)
    (boost : Boost) (durationMs : Int) :
    (w.setBoost env tr boost durationMs).2.1.mModeSupportedArray = w.mModeSupportedArray := by
  unfold AidlHalWrapper.setBoost
  simp only
  split_ifs <;> rfl

theorem AidlHalWrapper.setMode_boostArray (env : Env) (w : AidlHalWrapper) (tr : Trace)
    (mode : Mode) (enabled : Bool) :
    (w.setMode env tr mode enabled).2.1.mBoostSupportedArray = w.mBoostSupportedArray := by
  unfold AidlHalWrapper.setMode
  simp only
  split_ifs <;> rfl

theorem AidlHalWrapper.setBoost_known (env : Env) (w : AidlHalWrapper) (tr : Trace)
    (boost : Boost) (durationMs : Int) (id : Int) (hk : Known w.mBoostSupportedArray id) :
    Known (w.setBoost env tr boost durationMs).2.1.mBoostSupportedArray id := by
  cases he : entry w.mBoostSupportedArray boost with
  | none => rw [AidlHalWrapper.setBoost_out_of_range env w tr boost durationMs he]; exact hk
  | some v =>
    cases v with
    | ON => rw [AidlHalWrapper.setBoost_on env w tr boost durationMs he]; exact hk
    | OFF => rw [AidlHalWrapper.setBoost_off env w tr boost durationMs he]; exact hk
    | UNKNOWN =>
      have hlt := (entry_eq_some.mp he).1
      rw [AidlHalWrapper.setBoost_unknown env w tr boost durationMs he]
      split_ifs
      · exact Known.set boost HalSupport.ON (by decide) hlt hk
      · exact Known.set boost HalSupport.OFF (by decide) hlt hk
      · exact hk

theorem AidlHalWrapper.setMode_known (env : Env) (w : AidlHalWrapper) (tr : Trace)
    (mode : Mode) (enabled : Bool) (id : Int) (hk : Known w.mModeSupportedArray id) :
    Known (w.setMode env tr mode enabled).2.1.mModeSupportedArray id := by
  cases he : entry w.mModeSupportedArray mode with
  | none => rw [AidlHalWrapper.setMode_out_of_range env w tr mode enabled he]; exact hk
  | some v =>
    cases v with
    | ON => rw [AidlHalWrapper.setMode_on env w tr mode enabled he]; exact hk
    | OFF => rw [AidlHalWrapper.setMode_off env w tr mode enabled he]; exact hk
    | UNKNOWN =>
      have hlt := (entry_eq_some.mp he).1
      rw [AidlHalWrapper.setMode_unknown env w tr mode enabled he]
      split_ifs
      · exact Known.set mode HalSupport.ON (by decide) hlt hk
      · exact Known.set mode HalSupport.OFF (by decide) hlt hk
      · exact hk

theorem AidlHalWrapper.step_known (env : Env) (w : AidlHalWrapper) (tr : Trace) (op : HalOp)
    (b m : Int) :
    (Known w.mBoostSupportedArray b → Known (w.step env tr op).1.mBoostSupportedArray b) ∧
      (Known w.mModeSupportedArray m → Known (w.step env tr op).1.mModeSupportedArray m) := by
  cases op with
  | setBoost boost durationMs =>
    refine ⟨fun hk => AidlHalWrapper.setBoost_known env w tr boost durationMs b hk, fun hk => ?_⟩
    show Known (w.setBoost env tr boost durationMs).2.1.mModeSupportedArray m
    rw [AidlHalWrapper.setBoost_modeArray]
    exact hk
  | setMode mode enabled =>
    refine ⟨fun hk => ?_, fun hk => AidlHalWrapper.setMode_known env w tr mode enabled m hk⟩
    show Known (w.setMode env tr mode enabled).2.1.mBoostSupportedArray b
    rw [AidlHalWrapper.setMode_boostArray]
    exact hk
  | _ => exact ⟨id, id⟩

theorem AidlHalWrapper.run_known (env : Env) (w : AidlHalWrapper) (tr : Trace)
    (ops : List HalOp) (b m : Int) :
    (Known w.mBoostSupportedArray b → Known (w.run env tr ops).1.mBoostSupportedArray b) ∧
      (Known w.mModeSupportedArray m → Known (w.run env tr ops).1.mModeSupportedArray m) := by
  induction ops generalizing w tr with
  | nil => exact ⟨id, id⟩
  | cons op ops ih =>
    have hs := AidlHalWrapper.step_known env w tr op b m
    have hr := ih (w.step env tr op).1 (w.step env tr op).2
    exact ⟨fun hk => hr.1 (hs.1 hk), fun hk => hr.2 (hs.2 hk)⟩

theorem AidlHalWrapper.setBoost_known_no_probe (env : Env) (w : AidlHalWrapper) (tr : Trace)
    (boost : Boost) (durationMs : Int) (hk : Known w.mBoostSupportedArray boost) :
    probes (w.setBoost env tr boost durationMs).2.2 = probes tr := by
  obtain ⟨v, he, hv⟩ := hk
  cases v with
  | UNKNOWN => exact absurd rfl hv
  | ON =>
    rw [AidlHalWrapper.setBoost_on env w tr boost durationMs he]
    show probes (record _ _ _) = _
    rw [probes_record]; rfl
  | OFF => rw [AidlHalWrapper.setBoost_off env w tr boost durationMs he]

theorem AidlHalWrapper.setMode_known_no_probe (env : Env) (w : AidlHalWrapper) (tr : Trace)
    (mode : Mode) (enabled : Bool) (hk : Known w.mModeSupportedArray mode) :
    probes (w.setMode env tr mode enabled).2.2 = probes tr := by
  obtain ⟨v, he, hv⟩ := hk
  cases v with
  | UNKNOWN => exact absurd rfl hv
  | ON =>
    rw [AidlHalWrapper.setMode_on env w tr mode enabled he]
    show probes (record _ _ _) = _
    rw [probes_record, AidlHalWrapper.notifySeh_probes]; rfl
  | OFF =>
    rw [AidlHalWrapper.setMode_off env w tr mode enabled he]
    exact AidlHalWrapper.notifySeh_probes w tr mode enabled

/-! ## AIDL wrapper: probing once -/

theorem AidlHalWrapper.setBoost_unknown_probes (env : Env) (w : AidlHalWrapper) (tr : Trace)
    (boost : Boost) (durationMs : Int)
    (h : entry w.mBoostSupportedArray boost = some HalSupport.UNKNOWN) :
    probes (w.setBoost env tr boost durationMs).2.2 = probes tr + 1 ∧
      boostProbes boost (w.setBoost env tr boost durationMs).2.2 = boostProbes boost tr + 1 := by
  rw [AidlHalWrapper.setBoost_unknown env w tr boost durationMs h]
  split_ifs <;>
    simp [probes_record, boostProbes_record, Event.isProbe, Event.isBoostProbe]

theorem AidlHalWrapper.setMode_unknown_probes (env : Env) (w : AidlHalWrapper) (tr : Trace)
    (mode : Mode) (enabled : Bool)
    (h : entry w.mModeSupportedArray mode = some HalSupport.UNKNOWN) :
    probes (w.setMode env tr mode enabled).2.2 = probes tr + 1 ∧
      modeProbes mode (w.setMode env tr mode enabled).2.2 = modeProbes mode tr + 1 := by
  rw [AidlHalWrapper.setMode_unknown env w tr mode enabled h]
  split_ifs <;>
    simp [probes_record, modeProbes_record, Event.isProbe, Event.isModeProbe,
      AidlHalWrapper.notifySeh_probes, AidlHalWrapper.notifySeh_modeProbes]

theorem AidlHalWrapper.setBoost_probed_known (env : Env) (w : AidlHalWrapper) (tr : Trace)
    (boost : Boost) (durationMs : Int)
    (h : entry w.mBoostSupportedArray boost = some HalSupport.UNKNOWN)
    (hok : (env.reply tr w.mHandle (Method.isBoostSupported boost)).status.isOk = true) :
    Known (w.setBoost env tr boost durationMs).2.1.mBoostSupportedArray boost := by
  have hlt := (entry_eq_some.mp h).1
  rw [AidlHalWrapper.setBoost_unknown env w tr boost durationMs h, if_pos hok]
  split_ifs
  · exact ⟨HalSupport.ON, by simp [entry_set _ _ _ _ hlt], by decide⟩
  · exact ⟨HalSupport.OFF, by simp [entry_set _ _ _ _ hlt], by decide⟩

theorem AidlHalWrapper.setMode_probed_known (env : Env) (w : AidlHalWrapper) (tr : Trace)
    (mode : Mode) (enabled : Bool)
    (h : entry w.mModeSupportedArray mode = some HalSupport.UNKNOWN)
    (hok : (env.reply (w.notifySeh tr mode enabled) w.mHandle
      (Method.isModeSupported mode)).status.isOk = true) :
    Known (w.setMode env tr mode enabled).2.1.mModeSupportedArray mode := by
  have hlt := (entry_eq_some.mp h).1
  rw [AidlHalWrapper.setMode_unknown env w tr mode enabled h, if_pos hok]
  split_ifs
  · exact ⟨HalSupport.ON, by simp [entry_set _ _ _ _ hlt], by decide⟩
  · exact ⟨HalSupport.OFF, by simp [entry_set _ _ _ _ hlt], by decide⟩

/-- C7: for the AIDL wrapper and every in-range boost value whose cache entry is
`UNKNOWN`, whatever the mode cache holds, a `setBoost` call issues exactly one support
query, and it is the query for that value; and once such a call's query has completed
(ok status), every later `setBoost` call with the same value, after any sequence of
operations on the same object, issues no support query.  The same holds for `setMode`
and every in-range mode value whose cache entry is `UNKNOWN`, whatever the boost cache
holds. -/
theorem C7_probe_once_then_cached (env : Env) (w : AidlHalWrapper) (tr : Trace) :
    (∀ (boost : Boost) (durationMs : Int),
      entry w.mBoostSupportedArray boost = some HalSupport.UNKNOWN →
        probes (w.setBoost env tr boost durationMs).2.2 = probes tr + 1 ∧
        boostProbes boost (w.setBoost env tr boost durationMs).2.2 =
          boostProbes boost tr + 1 ∧
        ((env.reply tr w.mHandle (Method.isBoostSupported boost)).status.isOk = true →
          ∀ (later : List HalOp) (d : Int),
            probes (((w.setBoost env tr boost durationMs).2.1.run env
                (w.setBoost env tr boost durationMs).2.2 later).1.setBoost env
                ((w.setBoost env tr boost durationMs).2.1.run env
                  (w.setBoost env tr boost durationMs).2.2 later).2 boost d).2.2 =
              probes ((w.setBoost env tr boost durationMs).2.1.run env
                (w.setBoost env tr boost durationMs).2.2 later).2)) ∧
      (∀ (mode : Mode) (enabled : Bool),
        entry w.mModeSupportedArray mode = some HalSupport.UNKNOWN →
          probes (w.setMode env tr mode enabled).2.2 = probes tr + 1 ∧
          modeProbes mode (w.setMode env tr mode enabled).2.2 = modeProbes mode tr + 1 ∧
          ((env.reply (w.notifySeh tr mode enabled) w.mHandle
              (Method.isModeSupported mode)).status.isOk = true →
            ∀ (later : List HalOp) (e : Bool),
              probes (((w.setMode env tr mode enabled).2.1.run env
                  (w.setMode env tr mode enabled).2.2 later).1.setMode env
                  ((w.setMode env tr mode enabled).2.1.run env
                    (w.setMode env tr mode enabled).2.2 later).2 mode e).2.2 =
                probes ((w.setMode env tr mode enabled).2.1.run env
                  (w.setMode env tr mode enabled).2.2 later).2)) := by
  refine ⟨fun boost durationMs hb =>
      ⟨(AidlHalWrapper.setBoost_unknown_probes env w tr boost durationMs hb).1,
        (AidlHalWrapper.setBoost_unknown_probes env w tr boost durationMs hb).2, ?_⟩,
    fun mode enabled hm =>
      ⟨(AidlHalWrapper.setMode_unknown_probes env w tr mode enabled hm).1,
        (AidlHalWrapper.setMode_unknown_probes env w tr mode enabled hm).2, ?_⟩⟩
  · intro hok later d
    exact AidlHalWrapper.setBoost_known_no_probe env _ _ boost d
      ((AidlHalWrapper.run_known env _ _ later boost 0).1
        (AidlHalWrapper.setBoost_probed_known env w tr boost durationMs hb hok))
  · intro hok later e
    exact AidlHalWrapper.setMode_known_no_probe env _ _ mode e
      ((AidlHalWrapper.run_known env _ _ later 0 mode).2
        (AidlHalWrapper.setMode_probed_known env w tr mode enabled hm hok))

/-- Witness for C7: boost `CAMERA_SHOT` on a wrapper that holds no `UNKNOWN` entry for
mode `LAUNCH`, boost `INTERACTION` and mode `LAUNCH` on a fresh wrapper. -/
theorem C7_witness :
    entry AidlHalWrapper.declined.mModeSupportedArray Mode.LAUNCH = some HalSupport.OFF ∧
      entry (AidlHalWrapper.declined.setBoost Env.workingAidl [] Boost.CAMERA_SHOT
        100).2.1.mBoostSupportedArray Boost.CAMERA_SHOT = some HalSupport.ON ∧
      probes (AidlHalWrapper.declined.setBoost Env.workingAidl [] Boost.CAMERA_SHOT
        100).2.2 = 1 ∧
      probes (AidlHalWrapper.fresh.setBoost Env.workingAidl [] Boost.INTERACTION 100).2.2 = 1 ∧
      probes ((AidlHalWrapper.fresh.setBoost Env.workingAidl [] Boost.INTERACTION 100).2.1.setBoost
        Env.workingAidl
        (AidlHalWrapper.fresh.setBoost Env.workingAidl [] Boost.INTERACTION 100).2.2
        Boost.INTERACTION 7).2.2 = 1 ∧
      probes (AidlHalWrapper.fresh.setMode Env.workingAidl [] Mode.LAUNCH true).2.2 = 1 :=
  ⟨by decide, by decide,
    ((C7_probe_once_then_cached Env.workingAidl AidlHalWrapper.declined []).1
      Boost.CAMERA_SHOT 100 (by decide)).1,
    ((C7_probe_once_then_cached Env.workingAidl AidlHalWrapper.fresh []).1
      Boost.INTERACTION 100 (by decide)).1,
    (((C7_probe_once_then_cached Env.workingAidl AidlHalWrapper.fresh []).1
      Boost.INTERACTION 100 (by decide)).2.2 (by decide) [] 7).trans
      ((C7_probe_once_then_cached Env.workingAidl AidlHalWrapper.fresh []).1
        Boost.INTERACTION 100 (by decide)).1,
    ((C7_probe_once_then_cached Env.workingAidl AidlHalWrapper.fresh []).2
      Mode.LAUNCH true (by decide)).1⟩

/-! ## AIDL wrapper: a support query that fails -/

/-- What `setBoost` and `setMode` do when the support query for an undecided value comes
back with a status that is not ok: no operation call, the entry stays `UNKNOWN`, the
next call with the same value queries again; `setMode` returns Failed, `setBoost`
returns the translation of the status by `fromStatus`. -/
theorem AidlHalWrapper.probe_not_ok (env : Env) (w : AidlHalWrapper) (tr : Trace) :
    (∀ (boost : Boost) (durationMs : Int),
      entry w.mBoostSupportedArray boost = some HalSupport.UNKNOWN →
      (env.reply tr w.mHandle (Method.isBoostSupported boost)).status.isOk = false →
        w.setBoost env tr boost durationMs =
          (HalResult.fromStatus (env.reply tr w.mHandle (Method.isBoostSupported boost)).status,
            w, record tr w.mHandle (Method.isBoostSupported boost)) ∧
        operations (w.setBoost env tr boost durationMs).2.2 = operations tr ∧
        ∀ d : Int, probes ((w.setBoost env tr boost durationMs).2.1.setBoost env
            (w.setBoost env tr boost durationMs).2.2 boost d).2.2 =
          probes (w.setBoost env tr boost durationMs).2.2 + 1) ∧
      (∀ (mode : Mode) (enabled : Bool),
        entry w.mModeSupportedArray mode = some HalSupport.UNKNOWN →
        (env.reply (w.notifySeh tr mode enabled) w.mHandle
          (Method.isModeSupported mode)).status.isOk = false →
          w.setMode env tr mode enabled =
            (HalResult.failed (env.reply (w.notifySeh tr mode enabled) w.mHandle
                (Method.isModeSupported mode)).status.toString8,
              w, record (w.notifySeh tr mode enabled) w.mHandle
                (Method.isModeSupported mode)) ∧
          operations (w.setMode env tr mode enabled).2.2 = operations tr ∧
          ∀ e : Bool, probes ((w.setMode env tr mode enabled).2.1.setMode env
              (w.setMode env tr mode enabled).2.2 mode e).2.2 =
            probes (w.setMode env tr mode enabled).2.2 + 1) := by
  refine ⟨fun boost durationMs hb hbad => ?_, fun mode enabled hm hbad' => ?_⟩
  · have h1 : w.setBoost env tr boost durationMs =
        (HalResult.fromStatus (env.reply tr w.mHandle (Method.isBoostSupported boost)).status,
          w, record tr w.mHandle (Method.isBoostSupported boost)) := by
      rw [AidlHalWrapper.setBoost_unknown env w tr boost durationMs hb, hbad]
      simp
    refine ⟨h1, ?_, ?_⟩
    · rw [h1]
      show operations (record _ _ _) = _
      rw [operations_record]; rfl
    · intro d
      rw [h1]
      exact (AidlHalWrapper.setBoost_unknown_probes env w _ boost d hb).1
  · have h2 : w.setMode env tr mode enabled =
        (HalResult.failed (env.reply (w.notifySeh tr mode enabled) w.mHandle
            (Method.isModeSupported mode)).status.toString8,
          w, record (w.notifySeh tr mode enabled) w.mHandle
            (Method.isModeSupported mode)) := by
      rw [AidlHalWrapper.setMode_unknown env w tr mode enabled hm, hbad']
      simp
    refine ⟨h2, ?_, ?_⟩
    · rw [h2]
      show operations (record _ _ _) = _
      rw [operations_record, AidlHalWrapper.notifySeh_operations]; rfl
    · intro e
      rw [h2]
      exact (AidlHalWrapper.setMode_unknown_probes env w _ mode e hm).1

/-- C8 (divergence): on a fresh AIDL wrapper whose support queries come back with the
non-ok status `EX_UNSUPPORTED_OPERATION`, `setBoost` returns Unsupported, not Failed,
while `setMode` in the same situation returns Failed; in both the entry stays
`UNKNOWN` and no operation call is made. -/
theorem C8_setBoost_failed_probe_returns_unsupported :
    (Env.probeRejected.reply [] AidlHalWrapper.fresh.mHandle
        (Method.isBoostSupported Boost.INTERACTION)).status.isOk = false ∧
      (AidlHalWrapper.fresh.setBoost Env.probeRejected [] Boost.INTERACTION 100).1 =
        HalResult.unsupported ∧
      (AidlHalWrapper.fresh.setBoost Env.probeRejected [] Boost.INTERACTION 100).1.isFailed =
        false ∧
      (AidlHalWrapper.fresh.setMode Env.probeRejected [] Mode.LAUNCH true).1.isFailed = true ∧
      entry (AidlHalWrapper.fresh.setBoost Env.probeRejected [] Boost.INTERACTION
        100).2.1.mBoostSupportedArray Boost.INTERACTION = some HalSupport.UNKNOWN ∧
      operations (AidlHalWrapper.fresh.setBoost Env.probeRejected [] Boost.INTERACTION
        100).2.2 = 0 := by
  decide

/-! ## AIDL wrapper: a support query that completes -/

/-- C9: for `AidlHalWrapper::setBoost` and every in-range boost value whose cache entry
is `UNKNOWN`, whatever the mode cache holds, when the support query completes (ok
status) with answer `b`: the entry becomes `ON` if `b` and `OFF` if not; the calls made
on the AIDL handle are the query followed by the operation call if `b`, and the query
alone if not, in which case the outcome is Unsupported; so the operation call is issued
exactly once if `b`, not at all otherwise, and always after the query.  The same holds
for `setMode` and every in-range mode value whose cache entry is `UNKNOWN`, whatever the
boost cache holds. -/
theorem C9_completed_probe_decides (env : Env) (w : AidlHalWrapper) (tr : Trace) :
    (∀ (boost : Boost) (durationMs : Int),
      entry w.mBoostSupportedArray boost = some HalSupport.UNKNOWN →
      (env.reply tr w.mHandle (Method.isBoostSupported boost)).status.isOk = true →
        entry (w.setBoost env tr boost durationMs).2.1.mBoostSupportedArray boost =
          some (if (env.reply tr w.mHandle (Method.isBoostSupported boost)).flag = true
            then HalSupport.ON else HalSupport.OFF) ∧
        (w.setBoost env tr boost durationMs).2.2 =
          tr ++ Event.remote w.mHandle (Method.isBoostSupported boost) ::
            (if (env.reply tr w.mHandle (Method.isBoostSupported boost)).flag = true
              then [Event.remote w.mHandle (Method.setBoost boost durationMs)] else []) ∧
        operations (w.setBoost env tr boost durationMs).2.2 =
          operations tr +
            (if (env.reply tr w.mHandle (Method.isBoostSupported boost)).flag = true
              then 1 else 0) ∧
        ((env.reply tr w.mHandle (Method.isBoostSupported boost)).flag = false →
          (w.setBoost env tr boost durationMs).1 = HalResult.unsupported)) ∧
      (∀ (mode : Mode) (enabled : Bool),
        entry w.mModeSupportedArray mode = some HalSupport.UNKNOWN →
        (env.reply (w.notifySeh tr mode enabled) w.mHandle
          (Method.isModeSupported mode)).status.isOk = true →
          entry (w.setMode env tr mode enabled).2.1.mModeSupportedArray mode =
            some (if (env.reply (w.notifySeh tr mode enabled) w.mHandle
                (Method.isModeSupported mode)).flag = true
              then HalSupport.ON else HalSupport.OFF) ∧
          (w.setMode env tr mode enabled).2.2 =
            w.notifySeh tr mode enabled ++
              Event.remote w.mHandle (Method.isModeSupported mode) ::
                (if (env.reply (w.notifySeh tr mode enabled) w.mHandle
                    (Method.isModeSupported mode)).flag = true
                  then [Event.remote w.mHandle (Method.setMode mode enabled)] else []) ∧
          operations (w.setMode env tr mode enabled).2.2 =
            operations tr +
              (if (env.reply (w.notifySeh tr mode enabled) w.mHandle
                  (Method.isModeSupported mode)).flag = true
                then 1 else 0) ∧
          ((env.reply (w.notifySeh tr mode enabled) w.mHandle
              (Method.isModeSupported mode)).flag = false →
            (w.setMode env tr mode enabled).1 = HalResult.unsupported)) := by
  refine ⟨fun boost durationMs hb hok => ?_, fun mode enabled hm hok' => ?_⟩
  · have hltb := (entry_eq_some.mp hb).1
    rw [AidlHalWrapper.setBoost_unknown env w tr boost durationMs hb, if_pos hok]
    by_cases hf : (env.reply tr w.mHandle (Method.isBoostSupported boost)).flag = true
    · simp [hf, entry_set _ _ _ _ hltb, record, operations, List.countP_append,
        List.countP_cons, Event.isOperation]
    · simp [hf, entry_set _ _ _ _ hltb, record, operations, List.countP_append,
        List.countP_cons, Event.isOperation]
  · have hltm := (entry_eq_some.mp hm).1
    rw [AidlHalWrapper.setMode_unknown env w tr mode enabled hm, if_pos hok']
    have hn := AidlHalWrapper.notifySeh_operations w tr mode enabled
    unfold operations at hn
    by_cases hf : (env.reply (w.notifySeh tr mode enabled) w.mHandle
        (Method.isModeSupported mode)).flag = true
    · simp [hf, entry_set _ _ _ _ hltm, record, operations, List.countP_append,
        List.countP_cons, Event.isOperation, hn]
    · simp [hf, entry_set _ _ _ _ hltm, record, operations, List.countP_append,
        List.countP_cons, Event.isOperation, hn]

/-- Witness for C9: boost `CAMERA_SHOT` on a wrapper whose mode `LAUNCH` is already
decided, on a device that supports everything; mode `LAUNCH` on a fresh wrapper, on a
device that supports nothing. -/
theorem C9_witness :
    entry AidlHalWrapper.declined.mModeSupportedArray Mode.LAUNCH = some HalSupport.OFF ∧
      entry (AidlHalWrapper.declined.setBoost Env.workingAidl [] Boost.CAMERA_SHOT
        100).2.1.mBoostSupportedArray Boost.CAMERA_SHOT = some HalSupport.ON ∧
      (AidlHalWrapper.declined.setBoost Env.workingAidl [] Boost.CAMERA_SHOT 100).2.2 =
        [Event.remote (some 1) (Method.isBoostSupported Boost.CAMERA_SHOT),
          Event.remote (some 1) (Method.setBoost Boost.CAMERA_SHOT 100)] ∧
      entry (AidlHalWrapper.fresh.setMode Env.nothingSupported [] Mode.LAUNCH
        true).2.1.mModeSupportedArray Mode.LAUNCH = some HalSupport.OFF ∧
      (AidlHalWrapper.fresh.setMode Env.nothingSupported [] Mode.LAUNCH true).1 =
        HalResult.unsupported :=
  ⟨by decide,
    ((C9_completed_probe_decides Env.workingAidl AidlHalWrapper.declined []).1
      Boost.CAMERA_SHOT 100 (by decide) (by decide)).1,
    ((C9_completed_probe_decides Env.workingAidl AidlHalWrapper.declined []).1
      Boost.CAMERA_SHOT 100 (by decide) (by decide)).2.1,
    ((C9_completed_probe_decides Env.nothingSupported AidlHalWrapper.fresh []).2
      Mode.LAUNCH true (by decide) (by decide)).1,
    ((C9_completed_probe_decides Env.nothingSupported AidlHalWrapper.fresh []).2
      Mode.LAUNCH true (by decide) (by decide)).2.2.2 (by decide)⟩

/-! ## AIDL wrapper: a value known to be unsupported -/

/-- C10: for `AidlHalWrapper::setBoost` and every boost value whose cache entry is
`OFF`, whatever the mode cache holds, the call returns Unsupported, leaves the object
(both caches) unchanged and makes no call at all.  For `AidlHalWrapper::setMode` and
every mode value whose cache entry is `OFF`, whatever the boost cache holds, the call
returns Unsupported, leaves the object unchanged and issues neither a support query nor
an operation call: the only call it can make is the notification of the vendor side
channel. -/
theorem C10_unsupported_entry_short_circuits (env : Env) (w : AidlHalWrapper)
    (tr : Trace) :
    (∀ (boost : Boost) (durationMs : Int),
      entry w.mBoostSupportedArray boost = some HalSupport.OFF →
        w.setBoost env tr boost durationMs = (HalResult.unsupported, w, tr)) ∧
      (∀ (mode : Mode) (enabled : Bool),
        entry w.mModeSupportedArray mode = some HalSupport.OFF →
          (w.setMode env tr mode enabled).1 = HalResult.unsupported ∧
          (w.setMode env tr mode enabled).2.1 = w ∧
          (w.setMode env tr mode enabled).2.2 = w.notifySeh tr mode enabled ∧
          probes (w.setMode env tr mode enabled).2.2 = probes tr ∧
          operations (w.setMode env tr mode enabled).2.2 = operations tr ∧
          (w.mHandleSeh = none ∨ mode ≠ Mode.INTERACTIVE →
            (w.setMode env tr mode enabled).2.2 = tr)) := by
  refine ⟨fun boost durationMs hb => AidlHalWrapper.setBoost_off env w tr boost durationMs hb,
    fun mode enabled hm => ?_⟩
  rw [AidlHalWrapper.setMode_off env w tr mode enabled hm]
  refine ⟨rfl, rfl, rfl, AidlHalWrapper.notifySeh_probes w tr mode enabled,
    AidlHalWrapper.notifySeh_operations w tr mode enabled, ?_⟩
  intro h
  show w.notifySeh tr mode enabled = tr
  unfold AidlHalWrapper.notifySeh
  rw [if_neg]
  rintro ⟨h1, h2⟩
  rcases h with h | h
  · exact h1 h
  · exact h h2

/-- Witness for C10: boost `INTERACTION` on a wrapper with no decided mode, and mode
`LAUNCH` on a wrapper with no decided boost. -/
theorem C10_witness :
    AidlHalWrapper.boostDeclined.mModeSupportedArray = List.replicate 19 HalSupport.UNKNOWN ∧
      AidlHalWrapper.boostDeclined.setBoost Env.workingAidl [] Boost.INTERACTION 100 =
        (HalResult.unsupported, AidlHalWrapper.boostDeclined, []) ∧
      AidlHalWrapper.modeDeclined.mBoostSupportedArray = List.replicate 6 HalSupport.UNKNOWN ∧
      (AidlHalWrapper.modeDeclined.setMode Env.workingAidl [] Mode.LAUNCH true).1 =
        HalResult.unsupported ∧
      (AidlHalWrapper.modeDeclined.setMode Env.workingAidl [] Mode.LAUNCH true).2.2 = [] :=
  ⟨by decide,
    (C10_unsupported_entry_short_circuits Env.workingAidl AidlHalWrapper.boostDeclined []).1
      Boost.INTERACTION 100 (by decide),
    by decide,
    ((C10_unsupported_entry_short_circuits Env.workingAidl AidlHalWrapper.modeDeclined []).2
      Mode.LAUNCH true (by decide)).1,
    ((C10_unsupported_entry_short_circuits Env.workingAidl AidlHalWrapper.modeDeclined []).2
      Mode.LAUNCH true (by decide)).2.2.2.2.2 (Or.inl rfl)⟩

/-! ## Connector: backend selection -/

/-- C12: for every loader state in which the AIDL raw handle is absent and the vendor
side-channel handle is present, `HalConnector::connect` returns the vendor-blended
wrapper holding the side-channel handle and exactly the generation-1.1 and
generation-1.0 handles the loader supplied, whatever the newer legacy generations; so
it is not a plain legacy wrapper. -/
theorem C12_seh_present_selects_vendor_blend (nBoost nMode : Nat) (loader : PowerHalLoader)
    (halHidlSeh : Handle) (haidl : loader.loadAidl = none)
    (hseh : loader.loadHidlSeh = some halHidlSeh) :
    HalConnector.connect nBoost nMode loader =
        some (HalWrapper.seh
          { mHandleSeh := some halHidlSeh, mHandle11 := loader.loadHidlV1_1,
            mHandle10 := loader.loadHidlV1_0 }) ∧
      (∀ w : HidlHalWrapper,
        HalConnector.connect nBoost nMode loader ≠ some (HalWrapper.hidl w)) := by
  have h : HalConnector.connect nBoost nMode loader =
      some (HalWrapper.seh
        { mHandleSeh := some halHidlSeh, mHandle11 := loader.loadHidlV1_1,
          mHandle10 := loader.loadHidlV1_0 }) := by
    unfold HalConnector.connect
    rw [haidl, hseh]
    simp
  rw [h]
  refine ⟨rfl, ?_⟩
  intro w hw
  cases hw

/-- Witness for C12: only the side channel and generation 1.0 are present. -/
theorem C12_witness :
    HalConnector.connect 6 19 PowerHalLoader.sehAndOldest =
        some (HalWrapper.seh { mHandleSeh := some 9, mHandle11 := none, mHandle10 := some 2 }) ∧
      (∀ w : HidlHalWrapper,
        HalConnector.connect 6 19 PowerHalLoader.sehAndOldest ≠ some (HalWrapper.hidl w)) :=
  C12_seh_present_selects_vendor_blend 6 19 PowerHalLoader.sehAndOldest 9 rfl rfl

/-- C13 (counterexample): with only the generation-1.3 raw handle non-null (no AIDL
handle, no side channel, no 1.0 handle), `HalConnector::connect` returns no backend,
although the newest generation with a non-null handle is 1.3 and not all four legacy
handles are null. -/
theorem C13_counterexample :
    PowerHalLoader.only1_3.loadAidl = none ∧
      PowerHalLoader.only1_3.loadHidlSeh = none ∧
      PowerHalLoader.only1_3.newestLegacy =
        some (HalWrapper.hidl { gen := HidlGen.v1_3, mHandleV1_0 := some 5 }) ∧
      HalConnector.connect 6 19 PowerHalLoader.only1_3 = none ∧
      ¬ (HalConnector.connect 6 19 PowerHalLoader.only1_3 = none ↔
        (PowerHalLoader.only1_3.loadHidlV1_0 = none ∧
          PowerHalLoader.only1_3.loadHidlV1_1 = none ∧
          PowerHalLoader.only1_3.loadHidlV1_2 = none ∧
          PowerHalLoader.only1_3.loadHidlV1_3 = none)) := by
  decide

/-- C13 (amended): for every loader state in which both the AIDL handle and the vendor
side-channel handle are absent, `HalConnector::connect` returns no backend exactly when
the generation-1.0 raw handle is null, and otherwise the legacy wrapper of the newest
generation (1.3, then 1.2, then 1.1, then 1.0) whose raw handle is non-null. -/
theorem C13_legacy_selection_gated_on_v1_0 (nBoost nMode : Nat) (loader : PowerHalLoader)
    (haidl : loader.loadAidl = none) (hseh : loader.loadHidlSeh = none) :
    (loader.loadHidlV1_0 ≠ none →
        HalConnector.connect nBoost nMode loader = loader.newestLegacy ∧
          HalConnector.connect nBoost nMode loader ≠ none) ∧
      (HalConnector.connect nBoost nMode loader = none ↔ loader.loadHidlV1_0 = none) := by
  unfold HalConnector.connect PowerHalLoader.newestLegacy
  rw [haidl, hseh]
  cases h0 : loader.loadHidlV1_0 <;> cases h1 : loader.loadHidlV1_1 <;>
    cases h2 : loader.loadHidlV1_2 <;> cases h3 : loader.loadHidlV1_3 <;> simp

/-- Witness for C13 (amended): generations 1.0 to 1.2 present, 1.3 absent. -/
theorem C13_witness :
    (PowerHalLoader.upTo1_2.loadHidlV1_0 ≠ none →
        HalConnector.connect 6 19 PowerHalLoader.upTo1_2 = PowerHalLoader.upTo1_2.newestLegacy ∧
          HalConnector.connect 6 19 PowerHalLoader.upTo1_2 ≠ none) ∧
      (HalConnector.connect 6 19 PowerHalLoader.upTo1_2 = none ↔
        PowerHalLoader.upTo1_2.loadHidlV1_0 = none) :=
  C13_legacy_selection_gated_on_v1_0 6 19 PowerHalLoader.upTo1_2 rfl rfl

/-! ## HIDL wrappers: mapping of boosts and modes -/

theorem toInt32_toUInt32 (d : Int) (hlo : -2 ^ 31 ≤ d) (hhi : d < 2 ^ 31) :
    toInt32 (toUInt32 d) = d := by
  unfold toInt32 toUInt32
  have hpos : (0 : Int) ≤ d % 2 ^ 32 := Int.emod_nonneg d (by norm_num)
  have hlt : d % 2 ^ 32 < 2 ^ 32 := Int.emod_lt_of_pos d (by norm_num)
  have hcast : (((d % 2 ^ 32).toNat : Nat) : Int) = d % 2 ^ 32 := Int.toNat_of_nonneg hpos
  have hmod : (d % 2 ^ 32).toNat % 2 ^ 32 = (d % 2 ^ 32).toNat := by
    apply Nat.mod_eq_of_lt
    omega
  rw [hmod]
  by_cases hd : 0 ≤ d
  · have he : d % 2 ^ 32 = d := Int.emod_eq_of_lt hd (by omega)
    rw [if_pos (by omega), hcast, he]
  · have he : d % 2 ^ 32 = d + 2 ^ 32 := by
      rw [← Int.add_emod_self, Int.emod_eq_of_lt (by omega) (by omega)]
    rw [if_neg (by omega), hcast, he]
    omega

theorem toUInt32_of_nonneg (d : Int) (h0 : 0 ≤ d) (h1 : d < 2 ^ 31) :
    toUInt32 d = d.toNat := by
  unfold toUInt32
  rw [Int.emod_eq_of_lt h0 (by omega)]

/-- C14: for every duration `d` with `0 ≤ d < 2^31`, `HidlHalWrapperV1_2::setBoost` of
`CAMERA_SHOT` issues exactly one generation-1.2 hint call (`powerHintAsync_1_2`) with
hint code `CAMERA_SHOT` and payload `d`, and returns Ok when that call reports success;
`HidlHalWrapperV1_0::setBoost` of `CAMERA_SHOT` returns Unsupported and issues no
call. -/
theorem C14_camera_shot_base2_vs_base0 (env : Env) (handle : Option Handle) (tr : Trace)
    (d : Int) (h0 : 0 ≤ d) (h1 : d < 2 ^ 31) :
    HidlHalWrapper.setBoost env { gen := HidlGen.v1_2, mHandleV1_0 := handle } tr
        Boost.CAMERA_SHOT d =
        (HalResult.fromReturn
          (env.reply tr handle (Method.powerHintAsync_1_2 PowerHint.CAMERA_SHOT d.toNat)).ret,
          tr ++ [Event.remote handle
            (Method.powerHintAsync_1_2 PowerHint.CAMERA_SHOT d.toNat)]) ∧
      ((env.reply tr handle
          (Method.powerHintAsync_1_2 PowerHint.CAMERA_SHOT d.toNat)).ret.isOk = true →
        (HidlHalWrapper.setBoost env { gen := HidlGen.v1_2, mHandleV1_0 := handle } tr
          Boost.CAMERA_SHOT d).1 = HalResult.ok ()) ∧
      HidlHalWrapper.setBoost env { gen := HidlGen.v1_0, mHandleV1_0 := handle } tr
        Boost.CAMERA_SHOT d = (HalResult.unsupported, tr) := by
  have h2 : HidlHalWrapper.setBoost env { gen := HidlGen.v1_2, mHandleV1_0 := handle } tr
      Boost.CAMERA_SHOT d =
      (HalResult.fromReturn
        (env.reply tr handle (Method.powerHintAsync_1_2 PowerHint.CAMERA_SHOT d.toNat)).ret,
        tr ++ [Event.remote handle
          (Method.powerHintAsync_1_2 PowerHint.CAMERA_SHOT d.toNat)]) := by
    simp only [HidlHalWrapper.setBoost, HidlHalWrapperV1_2.setBoost, if_true,
      HidlHalWrapper.sendPowerHint, HidlHalWrapperV1_2.sendPowerHint, record,
      toUInt32_of_nonneg d h0 h1]
  refine ⟨h2, ?_, ?_⟩
  · intro hok
    rw [h2]
    show HalResult.fromReturn _ = _
    unfold HalResult.fromReturn
    rw [if_pos hok]
  · simp only [HidlHalWrapper.setBoost, HidlHalWrapperV1_0.setBoost]
    rw [if_neg (by decide)]

/-- Witness for C14: the duration 50 of the specification's scenario. -/
theorem C14_witness :
    HidlHalWrapper.setBoost Env.workingHidl { gen := HidlGen.v1_2, mHandleV1_0 := some 1 } []
        Boost.CAMERA_SHOT 50 =
        (HalResult.ok (),
          [Event.remote (some 1) (Method.powerHintAsync_1_2 PowerHint.CAMERA_SHOT 50)]) ∧
      HidlHalWrapper.setBoost Env.workingHidl { gen := HidlGen.v1_0, mHandleV1_0 := some 1 } []
        Boost.CAMERA_SHOT 50 = (HalResult.unsupported, []) :=
  ⟨(C14_camera_shot_base2_vs_base0 Env.workingHidl (some 1) [] 50 (by decide)
      (by decide)).1,
    (C14_camera_shot_base2_vs_base0 Env.workingHidl (some 1) [] 50 (by decide)
      (by decide)).2.2⟩

theorem OneCall.not_unsupported {env : Env} {handle : Option Handle} {tr : Trace}
    {r : HalResult Unit × Trace} (h : OneCall env handle tr r) :
    r.1 ≠ HalResult.unsupported ∧ r.2 ≠ tr := by
  obtain ⟨m, rfl⟩ := h
  refine ⟨?_, by simp⟩
  show (if _ then _ else _) ≠ _
  split <;> intro hc <;> cases hc

theorem HidlHalWrapper.sendPowerHint_oneCall (env : Env) (w : HidlHalWrapper) (tr : Trace)
    (hintId : PowerHint) (data : Nat) :
    OneCall env w.mHandleV1_0 tr (w.sendPowerHint env tr hintId data) := by
  unfold HidlHalWrapper.sendPowerHint
  cases w.gen
  · exact ⟨Method.powerHint hintId data, rfl⟩
  · exact ⟨Method.powerHintAsync hintId data, rfl⟩
  · exact ⟨Method.powerHintAsync_1_2 hintId data, rfl⟩
  · exact ⟨Method.powerHintAsync_1_3 hintId data, rfl⟩

theorem HidlHalWrapperV1_0.v1_0_setBoost_cases (env : Env) (w : HidlHalWrapper) (tr : Trace)
    (boost : Boost) (durationMs : Int) :
    HidlHalWrapperV1_0.setBoost env w tr boost durationMs = (HalResult.unsupported, tr) ∨
      OneCall env w.mHandleV1_0 tr (HidlHalWrapperV1_0.setBoost env w tr boost durationMs) := by
  unfold HidlHalWrapperV1_0.setBoost
  split
  · exact Or.inr (HidlHalWrapper.sendPowerHint_oneCall _ _ _ _ _)
  · exact Or.inl rfl

theorem HidlHalWrapperV1_0.v1_0_setMode_cases (env : Env) (w : HidlHalWrapper) (tr : Trace)
    (mode : Mode) (enabled : Bool) :
    HidlHalWrapperV1_0.setMode env w tr mode enabled = (HalResult.unsupported, tr) ∨
      OneCall env w.mHandleV1_0 tr (HidlHalWrapperV1_0.setMode env w tr mode enabled) := by
  unfold HidlHalWrapperV1_0.setMode
  simp only
  split_ifs
  all_goals first
    | exact Or.inr (HidlHalWrapper.sendPowerHint_oneCall _ _ _ _ _)
    | exact Or.inl rfl
    | exact Or.inr ⟨Method.setInteractive enabled, rfl⟩
    | exact Or.inr ⟨Method.setFeature Feature.POWER_FEATURE_DOUBLE_TAP_TO_WAKE enabled, rfl⟩

theorem HidlHalWrapper.hidl_setBoost_cases (env : Env) (w : HidlHalWrapper) (tr : Trace)
    (boost : Boost) (durationMs : Int) :
    w.setBoost env tr boost durationMs = (HalResult.unsupported, tr) ∨
      OneCall env w.mHandleV1_0 tr (w.setBoost env tr boost durationMs) := by
  unfold HidlHalWrapper.setBoost
  cases w.gen <;> simp only [HidlHalWrapperV1_2.setBoost] <;> (try split_ifs) <;>
    first
      | exact Or.inr (HidlHalWrapper.sendPowerHint_oneCall _ _ _ _ _)
      | exact HidlHalWrapperV1_0.v1_0_setBoost_cases _ _ _ _ _

theorem HidlHalWrapper.hidl_setMode_cases (env : Env) (w : HidlHalWrapper) (tr : Trace)
    (mode : Mode) (enabled : Bool) :
    w.setMode env tr mode enabled = (HalResult.unsupported, tr) ∨
      OneCall env w.mHandleV1_0 tr (w.setMode env tr mode enabled) := by
  unfold HidlHalWrapper.setMode
  cases w.gen <;> simp only [HidlHalWrapperV1_2.setMode, HidlHalWrapperV1_3.setMode] <;>
    (try split_ifs) <;>
    first
      | exact Or.inr (HidlHalWrapper.sendPowerHint_oneCall _ _ _ _ _)
      | exact HidlHalWrapperV1_0.v1_0_setMode_cases _ _ _ _ _

/-- C15: for every legacy wrapper (`HidlHalWrapperV1_0` .. `HidlHalWrapperV1_3`), every
boost or mode value and every argument, `setBoost`/`setMode` either issues no call and
returns Unsupported, or issues exactly one call and returns Ok if its transport
succeeded and Failed otherwise; hence a Failed outcome always comes with a call, and an
Unsupported outcome never does. -/
theorem C15_base_unsupported_or_one_call (env : Env) (w : HidlHalWrapper) (tr : Trace)
    (boost : Boost) (durationMs : Int) (mode : Mode) (enabled : Bool) :
    (w.setBoost env tr boost durationMs = (HalResult.unsupported, tr) ∨
        ∃ m : Method,
          w.setBoost env tr boost durationMs =
            ((if (env.reply tr w.mHandleV1_0 m).ret.isOk = true then HalResult.ok ()
                else HalResult.failed (env.reply tr w.mHandleV1_0 m).ret.description),
              tr ++ [Event.remote w.mHandleV1_0 m])) ∧
      (w.setMode env tr mode enabled = (HalResult.unsupported, tr) ∨
        ∃ m : Method,
          w.setMode env tr mode enabled =
            ((if (env.reply tr w.mHandleV1_0 m).ret.isOk = true then HalResult.ok ()
                else HalResult.failed (env.reply tr w.mHandleV1_0 m).ret.description),
              tr ++ [Event.remote w.mHandleV1_0 m])) ∧
      ((w.setBoost env tr boost durationMs).1.isFailed = true →
        (w.setBoost env tr boost durationMs).2 ≠ tr) ∧
      ((w.setMode env tr mode enabled).1.isFailed = true →
        (w.setMode env tr mode enabled).2 ≠ tr) ∧
      ((w.setBoost env tr boost durationMs).1 = HalResult.unsupported ↔
        (w.setBoost env tr boost durationMs).2 = tr) ∧
      ((w.setMode env tr mode enabled).1 = HalResult.unsupported ↔
        (w.setMode env tr mode enabled).2 = tr) := by
  have hb := HidlHalWrapper.hidl_setBoost_cases env w tr boost durationMs
  have hm := HidlHalWrapper.hidl_setMode_cases env w tr mode enabled
  refine ⟨hb, hm, ?_, ?_, ?_, ?_⟩
  · intro hf
    rcases hb with h | h
    · rw [h] at hf; cases hf
    · exact h.not_unsupported.2
  · intro hf
    rcases hm with h | h
    · rw [h] at hf; cases hf
    · exact h.not_unsupported.2
  · rcases hb with h | h
    · rw [h]; exact ⟨fun _ => rfl, fun _ => rfl⟩
    · exact ⟨fun hu => absurd hu h.not_unsupported.1, fun ht => absurd ht h.not_unsupported.2⟩
  · rcases hm with h | h
    · rw [h]; exact ⟨fun _ => rfl, fun _ => rfl⟩
    · exact ⟨fun hu => absurd hu h.not_unsupported.1, fun ht => absurd ht h.not_unsupported.2⟩

/-- C16 (counterexample): on `HidlHalWrapperV1_0`, the modes `INTERACTIVE` and
`DOUBLE_TAP_TO_WAKE` are not answered with Unsupported, yet neither is delivered as a
power-hint call: the one call made is `setInteractive`, respectively `setFeature`. -/
theorem C16_counterexample :
    HidlHalWrapper.setMode Env.workingHidl { gen := HidlGen.v1_0, mHandleV1_0 := some 1 } []
        Mode.INTERACTIVE true =
        (HalResult.ok (), [Event.remote (some 1) (Method.setInteractive true)]) ∧
      HidlHalWrapper.setMode Env.workingHidl { gen := HidlGen.v1_0, mHandleV1_0 := some 1 } []
        Mode.DOUBLE_TAP_TO_WAKE true =
        (HalResult.ok (),
          [Event.remote (some 1)
            (Method.setFeature Feature.POWER_FEATURE_DOUBLE_TAP_TO_WAKE true)]) ∧
      (HidlHalWrapper.setMode Env.workingHidl { gen := HidlGen.v1_0, mHandleV1_0 := some 1 } []
        Mode.INTERACTIVE true).2.countP Event.isPowerHint = 0 ∧
      (HidlHalWrapper.setMode Env.workingHidl { gen := HidlGen.v1_0, mHandleV1_0 := some 1 } []
        Mode.DOUBLE_TAP_TO_WAKE true).2.countP Event.isPowerHint = 0 := by
  decide

/-- C16 (amended): for `HidlHalWrapperV1_0`, every boost or mode value that
`setBoost`/`setMode` does not answer with Unsupported is delivered as exactly one legacy
call: a `powerHint` call, whose integer payload is the duration for a boost (for every
`int32_t` duration: the `uint32_t` passed on is read back by the handle as the duration
itself) and 1 when enabled, 0 when disabled for a mode, except that mode `INTERACTIVE`
is delivered as one `setInteractive(enabled)` call and mode `DOUBLE_TAP_TO_WAKE` as one
`setFeature` call with `enabled`. -/
theorem C16_base0_delivery (env : Env) (handle : Handle) (tr : Trace) :
    (∀ (boost : Boost) (durationMs : Int),
      -2 ^ 31 ≤ durationMs → durationMs < 2 ^ 31 →
      (HidlHalWrapper.setBoost env { gen := HidlGen.v1_0, mHandleV1_0 := some handle } tr
          boost durationMs).1 ≠ HalResult.unsupported →
        (HidlHalWrapper.setBoost env { gen := HidlGen.v1_0, mHandleV1_0 := some handle } tr
          boost durationMs).2 =
          tr ++ [Event.remote (some handle)
            (Method.powerHint PowerHint.INTERACTION (toUInt32 durationMs))] ∧
        toInt32 (toUInt32 durationMs) = durationMs) ∧
      (∀ (mode : Mode) (enabled : Bool),
        (HidlHalWrapper.setMode env { gen := HidlGen.v1_0, mHandleV1_0 := some handle } tr
            mode enabled).1 ≠ HalResult.unsupported →
          (mode = Mode.INTERACTIVE ∧
            (HidlHalWrapper.setMode env { gen := HidlGen.v1_0, mHandleV1_0 := some handle } tr
              mode enabled).2 =
              tr ++ [Event.remote (some handle) (Method.setInteractive enabled)]) ∨
          (mode = Mode.DOUBLE_TAP_TO_WAKE ∧
            (HidlHalWrapper.setMode env { gen := HidlGen.v1_0, mHandleV1_0 := some handle } tr
              mode enabled).2 =
              tr ++ [Event.remote (some handle)
                (Method.setFeature Feature.POWER_FEATURE_DOUBLE_TAP_TO_WAKE enabled)]) ∨
          (mode ≠ Mode.INTERACTIVE ∧ mode ≠ Mode.DOUBLE_TAP_TO_WAKE ∧
            ∃ hintId : PowerHint,
              (HidlHalWrapper.setMode env { gen := HidlGen.v1_0, mHandleV1_0 := some handle }
                tr mode enabled).2 =
                tr ++ [Event.remote (some handle)
                  (Method.powerHint hintId (if enabled = true then 1 else 0))] ∧
              toInt32 (if enabled = true then 1 else 0) =
                (if enabled = true then 1 else 0))) := by
  refine ⟨fun boost durationMs hlo hhi => ?_, fun mode enabled => ?_⟩
  · simp only [HidlHalWrapper.setBoost, HidlHalWrapperV1_0.setBoost]
    split
    · intro _
      exact ⟨rfl, toInt32_toUInt32 durationMs hlo hhi⟩
    · intro h
      exact absurd rfl h
  · have key : ∀ hintId : PowerHint,
        (HidlHalWrapper.sendPowerHint env { gen := HidlGen.v1_0, mHandleV1_0 := some handle }
          tr hintId (boolData enabled)).2 =
          tr ++ [Event.remote (some handle)
            (Method.powerHint hintId (if enabled = true then 1 else 0))] ∧
        toInt32 (if enabled = true then 1 else 0) =
          (if enabled = true then 1 else 0) :=
      fun _ => ⟨rfl, by cases enabled <;> decide⟩
    simp only [HidlHalWrapper.setMode, HidlHalWrapperV1_0.setMode]
    by_cases h1 : mode = Mode.LAUNCH
    · rw [if_pos h1]
      subst h1
      exact fun _ => Or.inr (Or.inr ⟨by decide, by decide, PowerHint.LAUNCH, key _⟩)
    rw [if_neg h1]
    by_cases h2 : mode = Mode.LOW_POWER
    · rw [if_pos h2]
      subst h2
      exact fun _ => Or.inr (Or.inr ⟨by decide, by decide, PowerHint.LOW_POWER, key _⟩)
    rw [if_neg h2]
    by_cases h3 : mode = Mode.SUSTAINED_PERFORMANCE
    · rw [if_pos h3]
      subst h3
      exact fun _ =>
        Or.inr (Or.inr ⟨by decide, by decide, PowerHint.SUSTAINED_PERFORMANCE, key _⟩)
    rw [if_neg h3]
    by_cases h4 : mode = Mode.VR
    · rw [if_pos h4]
      subst h4
      exact fun _ => Or.inr (Or.inr ⟨by decide, by decide, PowerHint.VR_MODE, key _⟩)
    rw [if_neg h4]
    by_cases h5 : mode = Mode.INTERACTIVE
    · rw [if_pos h5]
      exact fun _ => Or.inl ⟨h5, rfl⟩
    rw [if_neg h5]
    by_cases h6 : mode = Mode.DOUBLE_TAP_TO_WAKE
    · rw [if_pos h6]
      exact fun _ => Or.inr (Or.inl ⟨h6, rfl⟩)
    rw [if_neg h6]
    intro h
    exact absurd rfl h

/-- Witness for C16 (amended): boost `INTERACTION` for 100 ms and for the duration -1,
whose `uint32_t` payload 4294967295 the handle reads back as -1. -/
theorem C16_witness :
    (HidlHalWrapper.setBoost Env.workingHidl { gen := HidlGen.v1_0, mHandleV1_0 := some 1 } []
        Boost.INTERACTION 100).2 =
        [Event.remote (some 1) (Method.powerHint PowerHint.INTERACTION 100)] ∧
      toInt32 100 = 100 ∧
      (HidlHalWrapper.setBoost Env.workingHidl { gen := HidlGen.v1_0, mHandleV1_0 := some 1 } []
        Boost.INTERACTION (-1)).2 =
        [Event.remote (some 1) (Method.powerHint PowerHint.INTERACTION 4294967295)] ∧
      toInt32 (toUInt32 (-1)) = -1 :=
  ⟨((C16_base0_delivery Env.workingHidl 1 []).1 Boost.INTERACTION 100 (by decide)
      (by decide) (by decide)).1,
    ((C16_base0_delivery Env.workingHidl 1 []).1 Boost.INTERACTION 100 (by decide)
      (by decide) (by decide)).2,
    ((C16_base0_delivery Env.workingHidl 1 []).1 Boost.INTERACTION (-1) (by decide)
      (by decide) (by decide)).1,
    ((C16_base0_delivery Env.workingHidl 1 []).1 Boost.INTERACTION (-1) (by decide)
      (by decide) (by decide)).2⟩

/-! ## The vendor side channel -/

/-- C17 (counterexample): a vendor-blended wrapper with the side-channel handle present
delivers `setMode(INTERACTIVE, true)` through the side channel and also through the
legacy `setInteractive` call. -/
theorem C17_counterexample :
    HidlHalWrapperSeh.example.mHandleSeh ≠ none ∧
      (HidlHalWrapperSeh.example.setMode Env.workingHidl [] Mode.INTERACTIVE true).2 =
        [Event.remote (some 9) (Method.setInteractiveAsync true false),
          Event.remote (some 2) (Method.setInteractive true)] ∧
      (HidlHalWrapperSeh.example.setMode Env.workingHidl [] Mode.INTERACTIVE
        true).2.countP Event.isSetInteractive = 1 := by
  decide

/-- C17 (amended): for `HidlHalWrapperSeh::setMode(INTERACTIVE, e)` on a wrapper whose
generation-1.0 handle is not null, and every `e`: when the vendor side-channel handle is
present, one side-channel notification carrying `e` is issued, followed by exactly one
legacy `setInteractive(e)` call; when it is absent, exactly one legacy
`setInteractive(e)` call is issued and no side-channel call. In both cases the outcome
is that of the legacy call. -/
theorem C17_vendor_blend_interactive (env : Env) (w : HidlHalWrapperSeh) (tr : Trace)
    (e : Bool) (handle10 : Handle) (h10 : w.mHandle10 = some handle10) :
    (w.mHandleSeh ≠ none →
        w.setMode env tr Mode.INTERACTIVE e =
          (HalResult.fromReturn
            (env.reply (tr ++ [Event.remote w.mHandleSeh (Method.setInteractiveAsync e false)])
              (some handle10) (Method.setInteractive e)).ret,
            tr ++ [Event.remote w.mHandleSeh (Method.setInteractiveAsync e false),
              Event.remote (some handle10) (Method.setInteractive e)])) ∧
      (w.mHandleSeh = none →
        w.setMode env tr Mode.INTERACTIVE e =
          (HalResult.fromReturn (env.reply tr (some handle10) (Method.setInteractive e)).ret,
            tr ++ [Event.remote (some handle10) (Method.setInteractive e)])) := by
  have hmode : HidlHalWrapperSeh.setMode env w tr Mode.INTERACTIVE e =
      HidlHalWrapperSeh.setInteractive env w tr e := by
    unfold HidlHalWrapperSeh.setMode
    simp only
    rw [if_neg (by decide), if_neg (by decide), if_neg (by decide), if_neg (by decide),
      if_pos trivial]
  rw [hmode]
  unfold HidlHalWrapperSeh.setInteractive
  rw [h10]
  refine ⟨fun h => ?_, fun h => ?_⟩
  · simp only [if_pos h, record, List.append_assoc, List.singleton_append]
  · simp only [h, ne_eq, not_true_eq_false, if_false, record]

/-- Witness for C17 (amended): side channel present, 1.0 handle present. -/
theorem C17_witness :
    HidlHalWrapperSeh.example.mHandle10 = some 2 ∧
      HidlHalWrapperSeh.example.setMode Env.workingHidl [] Mode.INTERACTIVE true =
        (HalResult.fromReturn
          (Env.workingHidl.reply
            ([] ++ [Event.remote HidlHalWrapperSeh.example.mHandleSeh
              (Method.setInteractiveAsync true false)])
            (some 2) (Method.setInteractive true)).ret,
          [] ++ [Event.remote HidlHalWrapperSeh.example.mHandleSeh
              (Method.setInteractiveAsync true false),
            Event.remote (some 2) (Method.setInteractive true)]) :=
  ⟨rfl, (C17_vendor_blend_interactive Env.workingHidl HidlHalWrapperSeh.example [] true 2
    rfl).1 (by decide)⟩

theorem Env.skipping_reply (env : Env) (tr suffix : Trace) (ev : Event)
    (handle : Option Handle) (m : Method) :
    (env.skipping tr.length ev).reply (tr ++ suffix) handle m =
      env.reply (tr ++ ev :: suffix) handle m := by
  simp [Env.reply, Env.skipping]

theorem Env.skipping_reply_nil (env : Env) (tr : Trace) (ev : Event)
    (handle : Option Handle) (m : Method) :
    (env.skipping tr.length ev).reply tr handle m = env.reply (tr ++ [ev]) handle m := by
  have h := Env.skipping_reply env tr [] ev handle m
  rwa [List.append_nil] at h

theorem AidlHalWrapper.notifySeh_unchanged (w : AidlHalWrapper) (tr : Trace) (mode : Mode)
    (enabled : Bool) (h : mode ≠ Mode.INTERACTIVE ∨ w.mHandleSeh = none) :
    w.notifySeh tr mode enabled = tr := by
  unfold AidlHalWrapper.notifySeh
  rw [if_neg]
  rintro ⟨h1, h2⟩
  rcases h with h | h
  · exact h h2
  · exact h1 h

theorem sehCalls_record (tr : Trace) (h : Option Handle) (m : Method) :
    sehCalls (record tr h m) =
      sehCalls tr + (if (Event.remote h m).isSehCall = true then 1 else 0) := by
  simp [sehCalls, record, List.countP_append, List.countP_cons]

theorem AidlHalWrapper.setMode_sehCalls (env : Env) (w : AidlHalWrapper) (tr : Trace)
    (mode : Mode) (enabled : Bool) :
    sehCalls (w.setMode env tr mode enabled).2.2 = sehCalls (w.notifySeh tr mode enabled) := by
  unfold AidlHalWrapper.setMode
  simp only
  split_ifs <;> simp [sehCalls_record, Event.isSehCall]

/-- The shape of `setMode(INTERACTIVE, e)` on an AIDL wrapper with a side channel,
relative to the same call without the side channel and with the same answers. -/
theorem AidlHalWrapper.setMode_interactive_seh (env : Env) (w : AidlHalWrapper) (tr : Trace)
    (e : Bool) (s : Handle) (hs : w.mHandleSeh = some s) :
    ∃ rest : List Event,
      ({ w with mHandleSeh := none }.setMode
          (env.skipping tr.length (Event.remote (some s) (Method.setInteractiveAsync e false)))
          tr Mode.INTERACTIVE e).2.2 = tr ++ rest ∧
        (w.setMode env tr Mode.INTERACTIVE e).2.2 =
          tr ++ Event.remote (some s) (Method.setInteractiveAsync e false) :: rest ∧
        rest.countP Event.isSehCall = 0 ∧
        (w.setMode env tr Mode.INTERACTIVE e).1 =
          ({ w with mHandleSeh := none }.setMode
            (env.skipping tr.length
              (Event.remote (some s) (Method.setInteractiveAsync e false)))
            tr Mode.INTERACTIVE e).1 ∧
        (w.setMode env tr Mode.INTERACTIVE e).2.1.mModeSupportedArray =
          ({ w with mHandleSeh := none }.setMode
            (env.skipping tr.length
              (Event.remote (some s) (Method.setInteractiveAsync e false)))
            tr Mode.INTERACTIVE e).2.1.mModeSupportedArray ∧
        (w.setMode env tr Mode.INTERACTIVE e).2.1.mBoostSupportedArray =
          ({ w with mHandleSeh := none }.setMode
            (env.skipping tr.length
              (Event.remote (some s) (Method.setInteractiveAsync e false)))
            tr Mode.INTERACTIVE e).2.1.mBoostSupportedArray := by
  have hn : w.notifySeh tr Mode.INTERACTIVE e =
      tr ++ [Event.remote (some s) (Method.setInteractiveAsync e false)] := by
    unfold AidlHalWrapper.notifySeh
    rw [if_pos ⟨by rw [hs]; simp, rfl⟩, hs]
    rfl
  have hn0 : ({ w with mHandleSeh := none } : AidlHalWrapper).notifySeh tr Mode.INTERACTIVE e =
      tr := AidlHalWrapper.notifySeh_unchanged _ tr _ e (Or.inr rfl)
  cases he : entry w.mModeSupportedArray Mode.INTERACTIVE with
  | none =>
    have he0 : entry ({ w with mHandleSeh := none } : AidlHalWrapper).mModeSupportedArray
        Mode.INTERACTIVE = none := he
    rw [AidlHalWrapper.setMode_out_of_range env w tr _ e he,
      AidlHalWrapper.setMode_out_of_range _ _ tr _ e he0, hn, hn0]
    exact ⟨[], by simp, rfl, rfl, rfl, rfl, rfl⟩
  | some v =>
    have he0 : entry ({ w with mHandleSeh := none } : AidlHalWrapper).mModeSupportedArray
        Mode.INTERACTIVE = some v := he
    cases v with
    | OFF =>
      rw [AidlHalWrapper.setMode_off env w tr _ e he,
        AidlHalWrapper.setMode_off _ _ tr _ e he0, hn, hn0]
      exact ⟨[], by simp, rfl, rfl, rfl, rfl, rfl⟩
    | ON =>
      rw [AidlHalWrapper.setMode_on env w tr _ e he,
        AidlHalWrapper.setMode_on _ _ tr _ e he0, hn, hn0]
      refine ⟨[Event.remote w.mHandle (Method.setMode Mode.INTERACTIVE e)], rfl, ?_, rfl, ?_,
        rfl, rfl⟩
      · simp [record]
      · simp only [Env.skipping_reply_nil]
    | UNKNOWN =>
      rw [AidlHalWrapper.setMode_unknown env w tr _ e he,
        AidlHalWrapper.setMode_unknown _ _ tr _ e he0, hn, hn0]
      simp only [Env.skipping_reply_nil, record, Env.skipping_reply, List.append_assoc,
        List.singleton_append]
      split_ifs
      · exact ⟨[Event.remote w.mHandle (Method.isModeSupported Mode.INTERACTIVE),
          Event.remote w.mHandle (Method.setMode Mode.INTERACTIVE e)], by simp, by simp, rfl,
          rfl, rfl, rfl⟩
      · exact ⟨[Event.remote w.mHandle (Method.isModeSupported Mode.INTERACTIVE)], by simp,
          by simp, rfl, rfl, rfl, rfl⟩
      · exact ⟨[Event.remote w.mHandle (Method.isModeSupported Mode.INTERACTIVE)], by simp,
          by simp, rfl, rfl, rfl, rfl⟩
/-- C18: for the AIDL wrapper with a vendor side-channel handle present, whatever the
cache state of mode `INTERACTIVE` and whatever the service answers,
`setMode(INTERACTIVE, e)` issues exactly one side-channel notification carrying `e`,
before any support query or operation call, and otherwise makes the same calls, returns
the same outcome and leaves the same caches as the same call made without the side
channel and given the same answers; for any other mode, or without a side-channel
handle, `setMode` issues no side-channel call. -/
theorem C18_rich_side_channel_notification (env : Env) (w : AidlHalWrapper) (tr : Trace)
    (e : Bool) (s : Handle) (hs : w.mHandleSeh = some s) :
    (∃ rest : List Event,
      ({ w with mHandleSeh := none }.setMode
          (env.skipping tr.length (Event.remote (some s) (Method.setInteractiveAsync e false)))
          tr Mode.INTERACTIVE e).2.2 = tr ++ rest ∧
        (w.setMode env tr Mode.INTERACTIVE e).2.2 =
          tr ++ Event.remote (some s) (Method.setInteractiveAsync e false) :: rest ∧
        rest.countP Event.isSehCall = 0 ∧
        (w.setMode env tr Mode.INTERACTIVE e).1 =
          ({ w with mHandleSeh := none }.setMode
            (env.skipping tr.length
              (Event.remote (some s) (Method.setInteractiveAsync e false)))
            tr Mode.INTERACTIVE e).1 ∧
        (w.setMode env tr Mode.INTERACTIVE e).2.1.mModeSupportedArray =
          ({ w with mHandleSeh := none }.setMode
            (env.skipping tr.length
              (Event.remote (some s) (Method.setInteractiveAsync e false)))
            tr Mode.INTERACTIVE e).2.1.mModeSupportedArray ∧
        (w.setMode env tr Mode.INTERACTIVE e).2.1.mBoostSupportedArray =
          ({ w with mHandleSeh := none }.setMode
            (env.skipping tr.length
              (Event.remote (some s) (Method.setInteractiveAsync e false)))
            tr Mode.INTERACTIVE e).2.1.mBoostSupportedArray) ∧
      sehCalls (w.setMode env tr Mode.INTERACTIVE e).2.2 = sehCalls tr + 1 ∧
      (∀ (other : AidlHalWrapper) (mode : Mode) (enabled : Bool),
        mode ≠ Mode.INTERACTIVE ∨ other.mHandleSeh = none →
          sehCalls (other.setMode env tr mode enabled).2.2 = sehCalls tr) := by
  refine ⟨AidlHalWrapper.setMode_interactive_seh env w tr e s hs, ?_, ?_⟩
  · rw [AidlHalWrapper.setMode_sehCalls]
    unfold AidlHalWrapper.notifySeh
    rw [if_pos ⟨by rw [hs]; simp, rfl⟩, sehCalls_record]
    rfl
  · intro other mode enabled h
    rw [AidlHalWrapper.setMode_sehCalls, AidlHalWrapper.notifySeh_unchanged other tr mode
      enabled h]

/-- Witness for C18: a fresh AIDL wrapper with a side channel on a working device. -/
theorem C18_witness :
    AidlHalWrapper.withSeh.mHandleSeh = some 9 ∧
      sehCalls (AidlHalWrapper.withSeh.setMode Env.workingAidl [] Mode.INTERACTIVE true).2.2 =
        sehCalls [] + 1 ∧
      (AidlHalWrapper.withSeh.setMode Env.workingAidl [] Mode.INTERACTIVE true).2.2 =
        [Event.remote (some 9) (Method.setInteractiveAsync true false),
          Event.remote (some 1) (Method.isModeSupported Mode.INTERACTIVE),
          Event.remote (some 1) (Method.setMode Mode.INTERACTIVE true)] :=
  ⟨rfl,
    (C18_rich_side_channel_notification Env.workingAidl AidlHalWrapper.withSeh [] true 9
      rfl).2.1,
    by decide⟩

/-! ## AIDL wrapper: session operations -/

theorem HalResult.fromStatusWith_classification {α : Type} (status : Status) (data : α) :
    (status.isOk = true → HalResult.fromStatusWith status data = HalResult.ok data) ∧
      (status.exceptionCode = EX_UNSUPPORTED_OPERATION →
        HalResult.fromStatusWith status data = HalResult.unsupported) ∧
      (status.isOk = false → status.exceptionCode ≠ EX_UNSUPPORTED_OPERATION →
        HalResult.fromStatusWith status data = HalResult.failed status.toString8) := by
  unfold HalResult.fromStatusWith
  refine ⟨fun hok => ?_, fun hc => ?_, fun hok hc => ?_⟩
  · have hne : ¬ (status.exceptionCode = EX_UNSUPPORTED_OPERATION) := by
      intro hc
      have h0 : status.mException = EX_NONE := by
        simpa [Status.isOk] using hok
      rw [Status.exceptionCode, h0] at hc
      exact absurd hc (by decide)
    simp [hok, hne]
  · simp [hc]
  · simp [hok, hc]

/-- What `createHintSession` does under either evaluation order of the two arguments of
its `fromStatus` call: one call on the AIDL handle with the caller's arguments, and the
translation of that call's status; an Ok outcome carries the session the call produced
when the call is evaluated first, and a null session when `appSession` is read first. -/
theorem AidlHalWrapper.createHintSession_either_order (env : Env) (w : AidlHalWrapper)
    (tr : Trace) (tgid uid : Int) (threadIds : List Int) (durationNanos : Int) :
    (w.createHintSession env tr tgid uid threadIds durationNanos).2 =
        tr ++ [Event.remote w.mHandle
          (Method.createHintSession tgid uid threadIds durationNanos)] ∧
      ((env.reply tr w.mHandle
          (Method.createHintSession tgid uid threadIds durationNanos)).status.isOk = true →
        (env.sessionArgFirst = false →
          (w.createHintSession env tr tgid uid threadIds durationNanos).1 =
            HalResult.ok (env.reply tr w.mHandle
              (Method.createHintSession tgid uid threadIds durationNanos)).session) ∧
        (env.sessionArgFirst = true →
          (w.createHintSession env tr tgid uid threadIds durationNanos).1 =
            HalResult.ok none)) ∧
      ((env.reply tr w.mHandle (Method.createHintSession tgid uid threadIds
          durationNanos)).status.exceptionCode = EX_UNSUPPORTED_OPERATION →
        (w.createHintSession env tr tgid uid threadIds durationNanos).1 =
          HalResult.unsupported) ∧
      ((env.reply tr w.mHandle
          (Method.createHintSession tgid uid threadIds durationNanos)).status.isOk = false →
        (env.reply tr w.mHandle (Method.createHintSession tgid uid threadIds
          durationNanos)).status.exceptionCode ≠ EX_UNSUPPORTED_OPERATION →
        (w.createHintSession env tr tgid uid threadIds durationNanos).1 =
          HalResult.failed (env.reply tr w.mHandle
            (Method.createHintSession tgid uid threadIds durationNanos)).status.toString8) := by
  unfold AidlHalWrapper.createHintSession
  refine ⟨rfl, fun hok => ⟨fun h => ?_, fun h => ?_⟩, fun hc => ?_, fun hok hc => ?_⟩
  · simp only [h, Bool.false_eq_true, if_false]
    exact (HalResult.fromStatusWith_classification _ _).1 hok
  · simp only [h, if_true]
    exact (HalResult.fromStatusWith_classification _ _).1 hok
  · exact (HalResult.fromStatusWith_classification _ _).2.1 hc
  · exact (HalResult.fromStatusWith_classification _ _).2.2 hok hc

/-- The session operations that hand `fromStatus` a value read after the call has
returned: each issues exactly one call on the AIDL handle with the caller's arguments
and returns the translation of that call's status and value. -/
theorem AidlHalWrapper.sequenced_session_operations (env : Env) (w : AidlHalWrapper)
    (tr : Trace) (tgid uid : Int) (threadIds : List Int) (durationNanos : Int) (tag : Int) :
    w.createHintSessionWithConfig env tr tgid uid threadIds durationNanos tag =
        (HalResult.fromStatusWith
          (env.reply tr w.mHandle
            (Method.createHintSessionWithConfig tgid uid threadIds durationNanos tag)).status
          (env.reply tr w.mHandle
            (Method.createHintSessionWithConfig tgid uid threadIds durationNanos tag)).session,
          tr ++ [Event.remote w.mHandle
            (Method.createHintSessionWithConfig tgid uid threadIds durationNanos tag)]) ∧
      w.getHintSessionPreferredRate env tr =
        (HalResult.fromStatusWith
          (env.reply tr w.mHandle Method.getHintSessionPreferredRate).status
          (env.reply tr w.mHandle Method.getHintSessionPreferredRate).rate,
          tr ++ [Event.remote w.mHandle Method.getHintSessionPreferredRate]) ∧
      w.getSessionChannel env tr tgid uid =
        (HalResult.fromStatusWith
          (env.reply tr w.mHandle (Method.getSessionChannel tgid uid)).status
          (env.reply tr w.mHandle (Method.getSessionChannel tgid uid)).channel,
          tr ++ [Event.remote w.mHandle (Method.getSessionChannel tgid uid)]) ∧
      w.closeSessionChannel env tr tgid uid =
        (HalResult.fromStatusWith
          (env.reply tr w.mHandle (Method.closeSessionChannel tgid uid)).status (),
          tr ++ [Event.remote w.mHandle (Method.closeSessionChannel tgid uid)]) :=
  ⟨rfl, rfl, rfl, rfl⟩

/-- C19 (divergence): the AIDL service answers `createHintSession` with an ok status and
a session.  Built so that `appSession` is read before the remote call has run,
`AidlHalWrapper::createHintSession` makes its one call and returns Ok carrying a null
session, not the session the call produced; built so that the call runs first, it
returns Ok carrying that session.  `getHintSessionPreferredRate`, which stores the
status before it reads the rate, returns Ok carrying the rate on either build. -/
theorem C19_createHintSession_returns_null_session :
    (Env.sessionReadFirst.reply [] AidlHalWrapper.fresh.mHandle
        (Method.createHintSession 10 20 [30] 5000000)).status.isOk = true ∧
      (Env.sessionReadFirst.reply [] AidlHalWrapper.fresh.mHandle
        (Method.createHintSession 10 20 [30] 5000000)).session = some 1 ∧
      AidlHalWrapper.fresh.createHintSession Env.sessionReadFirst [] 10 20 [30] 5000000 =
        (HalResult.ok none,
          [Event.remote (some 1) (Method.createHintSession 10 20 [30] 5000000)]) ∧
      AidlHalWrapper.fresh.createHintSession Env.workingAidl [] 10 20 [30] 5000000 =
        (HalResult.ok (some 1),
          [Event.remote (some 1) (Method.createHintSession 10 20 [30] 5000000)]) ∧
      AidlHalWrapper.fresh.getHintSessionPreferredRate Env.sessionReadFirst [] =
        (HalResult.ok 16666666,
          [Event.remote (some 1) Method.getHintSessionPreferredRate]) ∧
      AidlHalWrapper.fresh.getHintSessionPreferredRate Env.workingAidl [] =
        (HalResult.ok 16666666,
          [Event.remote (some 1) Method.getHintSessionPreferredRate]) := by
  decide

/-! ## What generation 1.2 adds -/

theorem HidlHalWrapperV1_0.setBoost_unsupported_iff (env : Env) (w : HidlHalWrapper)
    (tr : Trace) (boost : Boost) (durationMs : Int) :
    (HidlHalWrapperV1_0.setBoost env w tr boost durationMs).1 = HalResult.unsupported ↔
      boost ≠ Boost.INTERACTION := by
  unfold HidlHalWrapperV1_0.setBoost
  split
  · rename_i h
    exact ⟨fun hu => absurd hu (HidlHalWrapper.sendPowerHint_oneCall _ _ _ _ _).not_unsupported.1,
      fun hn => absurd h hn⟩
  · rename_i h
    exact ⟨fun _ => h, fun _ => rfl⟩

theorem HidlHalWrapperV1_0.setMode_unsupported_iff (env : Env) (w : HidlHalWrapper)
    (tr : Trace) (mode : Mode) (enabled : Bool) :
    (HidlHalWrapperV1_0.setMode env w tr mode enabled).1 = HalResult.unsupported ↔
      (mode ≠ Mode.LAUNCH ∧ mode ≠ Mode.LOW_POWER ∧ mode ≠ Mode.SUSTAINED_PERFORMANCE ∧
        mode ≠ Mode.VR ∧ mode ≠ Mode.INTERACTIVE ∧ mode ≠ Mode.DOUBLE_TAP_TO_WAKE) := by
  have hint : ∀ hintId data,
      (HidlHalWrapper.sendPowerHint env w tr hintId data).1 ≠ HalResult.unsupported :=
    fun _ _ => (HidlHalWrapper.sendPowerHint_oneCall _ _ _ _ _).not_unsupported.1
  have hinter : (HidlHalWrapperV1_0.setInteractive env w tr enabled).1 ≠
      HalResult.unsupported :=
    (OneCall.not_unsupported ⟨Method.setInteractive enabled, rfl⟩).1
  have hfeat : (HidlHalWrapperV1_0.setFeature env w tr
      Feature.POWER_FEATURE_DOUBLE_TAP_TO_WAKE enabled).1 ≠ HalResult.unsupported :=
    (OneCall.not_unsupported
      ⟨Method.setFeature Feature.POWER_FEATURE_DOUBLE_TAP_TO_WAKE enabled, rfl⟩).1
  unfold HidlHalWrapperV1_0.setMode
  simp only
  by_cases h1 : mode = Mode.LAUNCH
  · rw [if_pos h1]
    exact ⟨fun hu => absurd hu (hint _ _), fun h => absurd h1 h.1⟩
  rw [if_neg h1]
  by_cases h2 : mode = Mode.LOW_POWER
  · rw [if_pos h2]
    exact ⟨fun hu => absurd hu (hint _ _), fun h => absurd h2 h.2.1⟩
  rw [if_neg h2]
  by_cases h3 : mode = Mode.SUSTAINED_PERFORMANCE
  · rw [if_pos h3]
    exact ⟨fun hu => absurd hu (hint _ _), fun h => absurd h3 h.2.2.1⟩
  rw [if_neg h3]
  by_cases h4 : mode = Mode.VR
  · rw [if_pos h4]
    exact ⟨fun hu => absurd hu (hint _ _), fun h => absurd h4 h.2.2.2.1⟩
  rw [if_neg h4]
  by_cases h5 : mode = Mode.INTERACTIVE
  · rw [if_pos h5]
    exact ⟨fun hu => absurd hu hinter, fun h => absurd h5 h.2.2.2.2.1⟩
  rw [if_neg h5]
  by_cases h6 : mode = Mode.DOUBLE_TAP_TO_WAKE
  · rw [if_pos h6]
    exact ⟨fun hu => absurd hu hfeat, fun h => absurd h6 h.2.2.2.2.2⟩
  rw [if_neg h6]
  exact ⟨fun _ => ⟨h1, h2, h3, h4, h5, h6⟩, fun _ => rfl⟩

theorem base2AddsBoost_iff (env : Env) (handle : Option Handle) (tr : Trace)
    (durationMs : Int) (boost : Boost) :
    base2AddsBoost env handle tr durationMs boost ↔ boost ∈ base2Boosts := by
  unfold base2AddsBoost base2Boosts
  simp only [HidlHalWrapper.setBoost, HidlHalWrapperV1_2.setBoost, Finset.mem_insert,
    Finset.mem_singleton, HidlHalWrapperV1_0.setBoost_unsupported_iff]
  by_cases h1 : boost = Boost.CAMERA_SHOT
  · rw [if_pos h1]
    subst h1
    exact ⟨fun _ => Or.inl rfl,
      fun _ => ⟨(HidlHalWrapper.sendPowerHint_oneCall _ _ _ _ _).not_unsupported.1,
        by decide⟩⟩
  rw [if_neg h1]
  by_cases h2 : boost = Boost.CAMERA_LAUNCH
  · rw [if_pos h2]
    subst h2
    exact ⟨fun _ => Or.inr rfl,
      fun _ => ⟨(HidlHalWrapper.sendPowerHint_oneCall _ _ _ _ _).not_unsupported.1,
        by decide⟩⟩
  rw [if_neg h2, ne_eq, HidlHalWrapperV1_0.setBoost_unsupported_iff]
  exact ⟨fun h => absurd h.2 h.1, fun h => by rcases h with h | h <;> contradiction⟩

theorem base2AddsMode_iff (env : Env) (handle : Option Handle) (tr : Trace)
    (enabled : Bool) (mode : Mode) :
    base2AddsMode env handle tr enabled mode ↔ mode ∈ base2Modes := by
  unfold base2AddsMode base2Modes
  simp only [HidlHalWrapper.setMode, HidlHalWrapperV1_2.setMode, Finset.mem_insert,
    Finset.mem_singleton, HidlHalWrapperV1_0.setMode_unsupported_iff]
  by_cases h1 : mode = Mode.CAMERA_STREAMING_SECURE ∨ mode = Mode.CAMERA_STREAMING_LOW ∨
      mode = Mode.CAMERA_STREAMING_MID ∨ mode = Mode.CAMERA_STREAMING_HIGH
  · rw [if_pos h1]
    refine ⟨fun _ => ?_,
      fun _ => ⟨(HidlHalWrapper.sendPowerHint_oneCall _ _ _ _ _).not_unsupported.1, ?_⟩⟩
    · rcases h1 with h | h | h | h <;> simp [h]
    · rcases h1 with h | h | h | h <;> subst h <;> decide
  rw [if_neg h1]
  by_cases h2 : mode = Mode.AUDIO_STREAMING_LOW_LATENCY
  · rw [if_pos h2]
    subst h2
    exact ⟨fun _ => by simp,
      fun _ => ⟨(HidlHalWrapper.sendPowerHint_oneCall _ _ _ _ _).not_unsupported.1,
        by decide⟩⟩
  rw [if_neg h2, ne_eq, HidlHalWrapperV1_0.setMode_unsupported_iff]
  refine ⟨fun h => absurd h.2 h.1, fun h => ?_⟩
  rcases h with h | h | h | h | h
  · exact absurd (Or.inl h) h1
  · exact absurd (Or.inr (Or.inl h)) h1
  · exact absurd (Or.inr (Or.inr (Or.inl h))) h1
  · exact absurd (Or.inr (Or.inr (Or.inr h))) h1
  · exact absurd h h2

/-- C20 (counterexample): the set of mode values that `HidlHalWrapperV1_2::setMode` does
not answer with Unsupported while `HidlHalWrapperV1_1::setMode` does has not four
elements: it consists of the five values `CAMERA_STREAMING_SECURE`,
`CAMERA_STREAMING_LOW`, `CAMERA_STREAMING_MID`, `CAMERA_STREAMING_HIGH` and
`AUDIO_STREAMING_LOW_LATENCY`. -/
theorem C20_counterexample :
    ¬ ∃ added : Finset Mode, added.card = 4 ∧
        ∀ mode : Mode, mode ∈ added ↔ base2AddsMode Env.workingHidl (some 1) [] true mode := by
  rintro ⟨added, hcard, hmem⟩
  have h : added = base2Modes :=
    Finset.ext fun mode =>
      (hmem mode).trans (base2AddsMode_iff Env.workingHidl (some 1) [] true mode)
  rw [h] at hcard
  revert hcard
  decide

/-- C20 (amended): relative to generation 1.1, `HidlHalWrapperV1_2` adds exactly two
boost kinds and exactly five mode kinds: the boost values for which its `setBoost` is not
Unsupported while that of `HidlHalWrapperV1_1` is are `CAMERA_SHOT` and
`CAMERA_LAUNCH`, and the mode values for which its `setMode` is not Unsupported while
that of `HidlHalWrapperV1_1` is are the four camera-streaming modes and
`AUDIO_STREAMING_LOW_LATENCY`. -/
theorem C20_base2_adds_two_boosts_five_modes (env : Env) (handle : Option Handle)
    (tr : Trace) (durationMs : Int) (enabled : Bool) :
    (∀ boost : Boost, base2AddsBoost env handle tr durationMs boost ↔ boost ∈ base2Boosts) ∧
      base2Boosts.card = 2 ∧
      (∀ mode : Mode, base2AddsMode env handle tr enabled mode ↔ mode ∈ base2Modes) ∧
      base2Modes.card = 5 :=
  ⟨base2AddsBoost_iff env handle tr durationMs, by decide,
    base2AddsMode_iff env handle tr enabled, by decide⟩

/-! ## Legacy wrappers: the delegation chain -/

theorem requests_append_remote (tr : Trace) (h : Option Handle) (m : Method) :
    requests (tr ++ [Event.remote h m]) = requests tr ++ m.request.toList := by
  unfold requests
  rw [List.filterMap_append]
  cases hm : m.request <;> simp [hm]

theorem HidlHalWrapper.sendPowerHint_requests (env : Env) (w : HidlHalWrapper) (tr : Trace)
    (hintId : PowerHint) (data : Nat) :
    requests (w.sendPowerHint env tr hintId data).2 =
      requests tr ++ [LegacyRequest.hint hintId data] ∧
      (w.sendPowerHint env tr hintId data).1 ≠ HalResult.unsupported := by
  refine ⟨?_, (HidlHalWrapper.sendPowerHint_oneCall env w tr hintId data).not_unsupported.1⟩
  unfold HidlHalWrapper.sendPowerHint
  cases w.gen <;>
    simp only [HidlHalWrapperV1_0.sendPowerHint, HidlHalWrapperV1_1.sendPowerHint,
      HidlHalWrapperV1_2.sendPowerHint, HidlHalWrapperV1_3.sendPowerHint, record,
      requests_append_remote] <;> rfl

theorem Realises.unsupported (tr : Trace) : Realises tr (HalResult.unsupported, tr) none :=
  ⟨by simp, by simp⟩

theorem HidlHalWrapper.sendPowerHint_realises (env : Env) (w : HidlHalWrapper) (tr : Trace)
    (hintId : PowerHint) (data : Nat) :
    Realises tr (w.sendPowerHint env tr hintId data) (some (LegacyRequest.hint hintId data)) :=
  ⟨(HidlHalWrapper.sendPowerHint_requests env w tr hintId data).1,
    ⟨fun h => absurd h (HidlHalWrapper.sendPowerHint_requests env w tr hintId data).2,
      fun h => by cases h⟩⟩

theorem OneCall.realises {env : Env} {handle : Option Handle} {tr : Trace}
    {r : HalResult Unit × Trace} (m : Method) (req : LegacyRequest)
    (hm : m.request = some req)
    (hr : r = ((if (env.reply tr handle m).ret.isOk = true then HalResult.ok ()
            else HalResult.failed (env.reply tr handle m).ret.description),
          tr ++ [Event.remote handle m])) :
    Realises tr r (some req) := by
  have h1 : OneCall env handle tr r := ⟨m, hr⟩
  refine ⟨?_, ⟨fun h => absurd h h1.not_unsupported.1, fun h => by cases h⟩⟩
  rw [hr]
  show requests (tr ++ [Event.remote handle m]) = _
  rw [requests_append_remote, hm]

theorem HidlHalWrapperV1_0.v1_0_setBoost_realises (env : Env) (w : HidlHalWrapper) (tr : Trace)
    (boost : Boost) (durationMs : Int) :
    Realises tr (HidlHalWrapperV1_0.setBoost env w tr boost durationMs)
      (HidlGen.v1_0.boostRequest boost durationMs) := by
  unfold HidlHalWrapperV1_0.setBoost HidlGen.boostRequest
  simp only
  split
  · exact HidlHalWrapper.sendPowerHint_realises _ _ _ _ _
  · exact Realises.unsupported tr

theorem HidlHalWrapperV1_0.v1_0_setMode_realises (env : Env) (w : HidlHalWrapper) (tr : Trace)
    (mode : Mode) (enabled : Bool) :
    Realises tr (HidlHalWrapperV1_0.setMode env w tr mode enabled)
      (modeRequestV1_0 mode enabled) := by
  unfold HidlHalWrapperV1_0.setMode modeRequestV1_0
  simp only
  split_ifs
  · exact HidlHalWrapper.sendPowerHint_realises _ _ _ _ _
  · exact HidlHalWrapper.sendPowerHint_realises _ _ _ _ _
  · exact HidlHalWrapper.sendPowerHint_realises _ _ _ _ _
  · exact HidlHalWrapper.sendPowerHint_realises _ _ _ _ _
  · exact OneCall.realises (Method.setInteractive enabled) _ rfl rfl
  · exact OneCall.realises
      (Method.setFeature Feature.POWER_FEATURE_DOUBLE_TAP_TO_WAKE enabled) _ rfl rfl
  · exact Realises.unsupported tr

theorem HidlHalWrapperV1_2.v1_2_setMode_realises (env : Env) (w : HidlHalWrapper) (tr : Trace)
    (mode : Mode) (enabled : Bool) :
    Realises tr (HidlHalWrapperV1_2.setMode env w tr mode enabled)
      (modeRequestV1_2 mode enabled) := by
  unfold HidlHalWrapperV1_2.setMode modeRequestV1_2
  simp only
  split_ifs
  · exact HidlHalWrapper.sendPowerHint_realises _ _ _ _ _
  · exact HidlHalWrapper.sendPowerHint_realises _ _ _ _ _
  · exact HidlHalWrapperV1_0.v1_0_setMode_realises _ _ _ _ _

/-- The table `HidlGen.boostRequest` is what `setBoost` of each legacy class does. -/
theorem HidlHalWrapper.hidl_setBoost_realises (env : Env) (w : HidlHalWrapper) (tr : Trace)
    (boost : Boost) (durationMs : Int) :
    Realises tr (w.setBoost env tr boost durationMs) (w.gen.boostRequest boost durationMs) := by
  have h0 := HidlHalWrapperV1_0.v1_0_setBoost_realises env w tr boost durationMs
  have h2 : Realises tr (HidlHalWrapperV1_2.setBoost env w tr boost durationMs)
      (HidlGen.v1_2.boostRequest boost durationMs) := by
    unfold HidlHalWrapperV1_2.setBoost
    unfold HidlGen.boostRequest at h0 ⊢
    simp only at h0 ⊢
    split_ifs with h1 h2 h3
    · exact HidlHalWrapper.sendPowerHint_realises _ _ _ _ _
    · exact HidlHalWrapper.sendPowerHint_realises _ _ _ _ _
    · rwa [if_pos h3] at h0
    · rwa [if_neg h3] at h0
  unfold HidlHalWrapper.setBoost
  cases w.gen
  · exact h0
  · exact h0
  · exact h2
  · exact h2

/-- The table `HidlGen.modeRequest` is what `setMode` of each legacy class does. -/
theorem HidlHalWrapper.hidl_setMode_realises (env : Env) (w : HidlHalWrapper) (tr : Trace)
    (mode : Mode) (enabled : Bool) :
    Realises tr (w.setMode env tr mode enabled) (w.gen.modeRequest mode enabled) := by
  unfold HidlHalWrapper.setMode
  cases w.gen
  · exact HidlHalWrapperV1_0.v1_0_setMode_realises _ _ _ _ _
  · exact HidlHalWrapperV1_0.v1_0_setMode_realises _ _ _ _ _
  · exact HidlHalWrapperV1_2.v1_2_setMode_realises _ _ _ _ _
  · show Realises tr (HidlHalWrapperV1_3.setMode env w tr mode enabled) _
    unfold HidlHalWrapperV1_3.setMode HidlGen.modeRequest
    simp only
    split
    · exact HidlHalWrapper.sendPowerHint_realises _ _ _ _ _
    · exact HidlHalWrapperV1_2.v1_2_setMode_realises _ _ _ _ _
theorem HidlGen.boostRequest_next (g g' : HidlGen) (hnext : g.next = some g')
    (boost : Boost) (durationMs : Int) (req : LegacyRequest)
    (hreq : g.boostRequest boost durationMs = some req) :
    g'.boostRequest boost durationMs = some req := by
  cases g <;> cases g' <;> simp only [HidlGen.next, Option.some.injEq, reduceCtorEq] at hnext
  · exact hreq
  · unfold HidlGen.boostRequest at hreq ⊢
    simp only at hreq ⊢
    by_cases h : boost = Boost.INTERACTION
    · subst h
      rw [if_neg (by decide), if_neg (by decide)]
      exact hreq
    · rw [if_neg h] at hreq
      cases hreq
  · exact hreq

theorem modeRequestV1_0_le_V1_2 (mode : Mode) (enabled : Bool) (req : LegacyRequest)
    (hreq : modeRequestV1_0 mode enabled = some req) :
    modeRequestV1_2 mode enabled = some req := by
  unfold modeRequestV1_2
  by_cases h1 : mode = Mode.CAMERA_STREAMING_SECURE ∨ mode = Mode.CAMERA_STREAMING_LOW ∨
      mode = Mode.CAMERA_STREAMING_MID ∨ mode = Mode.CAMERA_STREAMING_HIGH
  · exfalso
    rcases h1 with h | h | h | h <;> subst h <;> revert hreq <;>
      simp [modeRequestV1_0, Mode.CAMERA_STREAMING_SECURE, Mode.CAMERA_STREAMING_LOW,
        Mode.CAMERA_STREAMING_MID, Mode.CAMERA_STREAMING_HIGH, Mode.LAUNCH, Mode.LOW_POWER,
        Mode.SUSTAINED_PERFORMANCE, Mode.VR, Mode.INTERACTIVE, Mode.DOUBLE_TAP_TO_WAKE]
  rw [if_neg h1]
  by_cases h2 : mode = Mode.AUDIO_STREAMING_LOW_LATENCY
  · exfalso
    subst h2
    revert hreq
    simp [modeRequestV1_0, Mode.AUDIO_STREAMING_LOW_LATENCY, Mode.LAUNCH, Mode.LOW_POWER,
      Mode.SUSTAINED_PERFORMANCE, Mode.VR, Mode.INTERACTIVE, Mode.DOUBLE_TAP_TO_WAKE]
  rw [if_neg h2]
  exact hreq

theorem modeRequestV1_2_expensive (enabled : Bool) :
    modeRequestV1_2 Mode.EXPENSIVE_RENDERING enabled = none := by
  simp [modeRequestV1_2, modeRequestV1_0, Mode.EXPENSIVE_RENDERING,
    Mode.CAMERA_STREAMING_SECURE, Mode.CAMERA_STREAMING_LOW,
    Mode.CAMERA_STREAMING_MID, Mode.CAMERA_STREAMING_HIGH, Mode.AUDIO_STREAMING_LOW_LATENCY,
    Mode.LAUNCH, Mode.LOW_POWER, Mode.SUSTAINED_PERFORMANCE, Mode.VR, Mode.INTERACTIVE,
    Mode.DOUBLE_TAP_TO_WAKE]

theorem HidlGen.modeRequest_next (g g' : HidlGen) (hnext : g.next = some g')
    (mode : Mode) (enabled : Bool) (req : LegacyRequest)
    (hreq : g.modeRequest mode enabled = some req) :
    g'.modeRequest mode enabled = some req := by
  cases g <;> cases g' <;> simp only [HidlGen.next, Option.some.injEq, reduceCtorEq] at hnext
  · exact hreq
  · exact modeRequestV1_0_le_V1_2 mode enabled req hreq
  · unfold HidlGen.modeRequest at hreq ⊢
    simp only at hreq ⊢
    by_cases h : mode = Mode.EXPENSIVE_RENDERING
    · subst h
      rw [modeRequestV1_2_expensive] at hreq
      cases hreq
    · rw [if_neg h]
      exact hreq

theorem Realises.same {tr : Trace} {r r' : HalResult Unit × Trace} {req : Option LegacyRequest}
    (h : Realises tr r req) (h' : Realises tr r' req) :
    (r'.1 = HalResult.unsupported ↔ r.1 = HalResult.unsupported) ∧
      requests r'.2 = requests r.2 :=
  ⟨h'.2.trans h.2.symm, h'.1.trans h.1.symm⟩

theorem Realises.grows {tr : Trace} {r r' : HalResult Unit × Trace}
    {req req' : Option LegacyRequest} (h : Realises tr r req) (h' : Realises tr r' req')
    (hle : ∀ q, req = some q → req' = some q) (hsup : r.1 ≠ HalResult.unsupported) :
    r'.1 ≠ HalResult.unsupported ∧ requests r'.2 = requests r.2 := by
  cases hq : req with
  | none => exact absurd (h.2.mpr hq) hsup
  | some q =>
    have hq' := hle q hq
    rw [hq] at h
    rw [hq'] at h'
    exact ⟨fun hu => Option.noConfusion (h'.2.mp hu), h'.1.trans h.1.symm⟩
/-- C21: relative to `HidlHalWrapperV1_2`, `HidlHalWrapperV1_3` adds exactly one mode
kind, `EXPENSIVE_RENDERING`, sent as hint `EXPENSIVE_RENDERING` with payload 1 when
enabled and 0 when disabled, and no boost kind: for every boost, and for every other
mode, 1.3 returns Unsupported exactly when 1.2 does and otherwise makes the same request
(same hint code and payload, or same `setInteractive`/`setFeature` arguments) as
1.2. -/
theorem C21_base3_adds_expensive_rendering (env : Env) (h2 h3 : Option Handle) (tr : Trace)
    (boost : Boost) (durationMs : Int) (mode : Mode) (enabled : Bool) :
    (((HidlHalWrapper.setBoost env { gen := HidlGen.v1_3, mHandleV1_0 := h3 } tr boost
          durationMs).1 = HalResult.unsupported ↔
        (HidlHalWrapper.setBoost env { gen := HidlGen.v1_2, mHandleV1_0 := h2 } tr boost
          durationMs).1 = HalResult.unsupported) ∧
      requests (HidlHalWrapper.setBoost env { gen := HidlGen.v1_3, mHandleV1_0 := h3 } tr
          boost durationMs).2 =
        requests (HidlHalWrapper.setBoost env { gen := HidlGen.v1_2, mHandleV1_0 := h2 } tr
          boost durationMs).2) ∧
      (mode ≠ Mode.EXPENSIVE_RENDERING →
        ((HidlHalWrapper.setMode env { gen := HidlGen.v1_3, mHandleV1_0 := h3 } tr mode
            enabled).1 = HalResult.unsupported ↔
          (HidlHalWrapper.setMode env { gen := HidlGen.v1_2, mHandleV1_0 := h2 } tr mode
            enabled).1 = HalResult.unsupported) ∧
        requests (HidlHalWrapper.setMode env { gen := HidlGen.v1_3, mHandleV1_0 := h3 } tr
            mode enabled).2 =
          requests (HidlHalWrapper.setMode env { gen := HidlGen.v1_2, mHandleV1_0 := h2 } tr
            mode enabled).2) ∧
      (HidlHalWrapper.setMode env { gen := HidlGen.v1_2, mHandleV1_0 := h2 } tr
          Mode.EXPENSIVE_RENDERING enabled = (HalResult.unsupported, tr) ∧
        (HidlHalWrapper.setMode env { gen := HidlGen.v1_3, mHandleV1_0 := h3 } tr
          Mode.EXPENSIVE_RENDERING enabled).1 ≠ HalResult.unsupported ∧
        (HidlHalWrapper.setMode env { gen := HidlGen.v1_3, mHandleV1_0 := h3 } tr
          Mode.EXPENSIVE_RENDERING enabled).2 =
          tr ++ [Event.remote h3
            (Method.powerHintAsync_1_3 PowerHint.EXPENSIVE_RENDERING
              (if enabled = true then 1 else 0))]) := by
  refine ⟨?_, ?_, ?_, ?_, ?_⟩
  · exact (HidlHalWrapper.hidl_setBoost_realises env
      { gen := HidlGen.v1_2, mHandleV1_0 := h2 } tr boost durationMs).same
      (HidlHalWrapper.hidl_setBoost_realises env
        { gen := HidlGen.v1_3, mHandleV1_0 := h3 } tr boost durationMs)
  · intro hne
    have h3' := HidlHalWrapper.hidl_setMode_realises env
      { gen := HidlGen.v1_3, mHandleV1_0 := h3 } tr mode enabled
    have hreq : HidlGen.v1_3.modeRequest mode enabled =
        HidlGen.v1_2.modeRequest mode enabled := by
      unfold HidlGen.modeRequest
      simp only
      rw [if_neg hne]
    rw [show ({ gen := HidlGen.v1_3, mHandleV1_0 := h3 } : HidlHalWrapper).gen = HidlGen.v1_3
      from rfl, hreq] at h3'
    exact (HidlHalWrapper.hidl_setMode_realises env
      { gen := HidlGen.v1_2, mHandleV1_0 := h2 } tr mode enabled).same h3'
  · simp only [HidlHalWrapper.setMode, HidlHalWrapperV1_2.setMode, HidlHalWrapperV1_0.setMode]
    rw [if_neg (by decide), if_neg (by decide), if_neg (by decide), if_neg (by decide),
      if_neg (by decide), if_neg (by decide), if_neg (by decide), if_neg (by decide)]
  · simp only [HidlHalWrapper.setMode, HidlHalWrapperV1_3.setMode, if_true]
    exact (HidlHalWrapper.sendPowerHint_requests env _ tr _ _).2
  · simp only [HidlHalWrapper.setMode, HidlHalWrapperV1_3.setMode, if_true,
      HidlHalWrapper.sendPowerHint, HidlHalWrapperV1_3.sendPowerHint, record, boolData]

/-- C22: for each consecutive pair of legacy classes (1.0 to 1.1, 1.1 to 1.2, 1.2 to
1.3) and every boost or mode value the older class does not answer with Unsupported,
the newer class does not answer with Unsupported either and makes the same request (the
same kind of call with the same hint code or feature and the same payload), whichever
hint-dispatch primitive carries it; and the mapping of 1.1 is identical to that of 1.0:
Unsupported for the same values, the same request otherwise. -/
theorem C22_newer_generation_extends_older (env : Env) (g g' : HidlGen)
    (hnext : g.next = some g') (h h' : Option Handle) (tr : Trace)
    (boost : Boost) (durationMs : Int) (mode : Mode) (enabled : Bool) :
    ((HidlHalWrapper.setBoost env { gen := g, mHandleV1_0 := h } tr boost durationMs).1 ≠
          HalResult.unsupported →
        (HidlHalWrapper.setBoost env { gen := g', mHandleV1_0 := h' } tr boost
            durationMs).1 ≠ HalResult.unsupported ∧
          requests (HidlHalWrapper.setBoost env { gen := g', mHandleV1_0 := h' } tr boost
              durationMs).2 =
            requests (HidlHalWrapper.setBoost env { gen := g, mHandleV1_0 := h } tr boost
              durationMs).2) ∧
      ((HidlHalWrapper.setMode env { gen := g, mHandleV1_0 := h } tr mode enabled).1 ≠
          HalResult.unsupported →
        (HidlHalWrapper.setMode env { gen := g', mHandleV1_0 := h' } tr mode enabled).1 ≠
            HalResult.unsupported ∧
          requests (HidlHalWrapper.setMode env { gen := g', mHandleV1_0 := h' } tr mode
              enabled).2 =
            requests (HidlHalWrapper.setMode env { gen := g, mHandleV1_0 := h } tr mode
              enabled).2) ∧
      (((HidlHalWrapper.setBoost env { gen := HidlGen.v1_1, mHandleV1_0 := h' } tr boost
            durationMs).1 = HalResult.unsupported ↔
          (HidlHalWrapper.setBoost env { gen := HidlGen.v1_0, mHandleV1_0 := h } tr boost
            durationMs).1 = HalResult.unsupported) ∧
        requests (HidlHalWrapper.setBoost env { gen := HidlGen.v1_1, mHandleV1_0 := h' } tr
            boost durationMs).2 =
          requests (HidlHalWrapper.setBoost env { gen := HidlGen.v1_0, mHandleV1_0 := h } tr
            boost durationMs).2) ∧
      (((HidlHalWrapper.setMode env { gen := HidlGen.v1_1, mHandleV1_0 := h' } tr mode
            enabled).1 = HalResult.unsupported ↔
          (HidlHalWrapper.setMode env { gen := HidlGen.v1_0, mHandleV1_0 := h } tr mode
            enabled).1 = HalResult.unsupported) ∧
        requests (HidlHalWrapper.setMode env { gen := HidlGen.v1_1, mHandleV1_0 := h' } tr
            mode enabled).2 =
          requests (HidlHalWrapper.setMode env { gen := HidlGen.v1_0, mHandleV1_0 := h } tr
            mode enabled).2) := by
  refine ⟨?_, ?_, ?_, ?_⟩
  · exact (HidlHalWrapper.hidl_setBoost_realises env { gen := g, mHandleV1_0 := h } tr boost
      durationMs).grows
      (HidlHalWrapper.hidl_setBoost_realises env { gen := g', mHandleV1_0 := h' } tr boost
        durationMs)
      (fun q hq => HidlGen.boostRequest_next g g' hnext boost durationMs q hq)
  · exact (HidlHalWrapper.hidl_setMode_realises env { gen := g, mHandleV1_0 := h } tr mode
      enabled).grows
      (HidlHalWrapper.hidl_setMode_realises env { gen := g', mHandleV1_0 := h' } tr mode
        enabled)
      (fun q hq => HidlGen.modeRequest_next g g' hnext mode enabled q hq)
  · exact (HidlHalWrapper.hidl_setBoost_realises env
      { gen := HidlGen.v1_0, mHandleV1_0 := h } tr boost durationMs).same
      (HidlHalWrapper.hidl_setBoost_realises env
        { gen := HidlGen.v1_1, mHandleV1_0 := h' } tr boost durationMs)
  · exact (HidlHalWrapper.hidl_setMode_realises env
      { gen := HidlGen.v1_0, mHandleV1_0 := h } tr mode enabled).same
      (HidlHalWrapper.hidl_setMode_realises env
        { gen := HidlGen.v1_1, mHandleV1_0 := h' } tr mode enabled)

/-- Witness for C22: the step from 1.1 to 1.2 at mode `LAUNCH` and boost `INTERACTION`. -/
theorem C22_witness :
    requests (HidlHalWrapper.setBoost Env.workingHidl
        { gen := HidlGen.v1_2, mHandleV1_0 := some 2 } [] Boost.INTERACTION 100).2 =
      requests (HidlHalWrapper.setBoost Env.workingHidl
        { gen := HidlGen.v1_1, mHandleV1_0 := some 1 } [] Boost.INTERACTION 100).2 ∧
    requests (HidlHalWrapper.setMode Env.workingHidl
        { gen := HidlGen.v1_2, mHandleV1_0 := some 2 } [] Mode.LAUNCH true).2 =
      [LegacyRequest.hint PowerHint.LAUNCH 1] :=
  ⟨((C22_newer_generation_extends_older Env.workingHidl HidlGen.v1_1 HidlGen.v1_2 rfl
      (some 1) (some 2) [] Boost.INTERACTION 100 Mode.LAUNCH true).1 (by decide)).2,
    ((C22_newer_generation_extends_older Env.workingHidl HidlGen.v1_1 HidlGen.v1_2 rfl
      (some 1) (some 2) [] Boost.INTERACTION 100 Mode.LAUNCH true).2.1 (by decide)).2.trans
      (by decide)⟩

/-! ## Vendor-blended wrapper against the 1.0 wrapper -/

theorem HidlHalWrapperSeh.sendPowerHint_eq (env : Env) (w : HidlHalWrapperSeh) (tr : Trace)
    (hintId : PowerHint) (data : Nat) :
    (w.sendPowerHint env tr hintId data).1 ≠ HalResult.unsupported ∧
      (w.mHandle11 ≠ none →
        (w.sendPowerHint env tr hintId data).2 =
          tr ++ [Event.remote w.mHandle11 (Method.powerHintAsync hintId data)]) ∧
      (w.mHandle11 = none →
        (w.sendPowerHint env tr hintId data).2 =
          tr ++ [Event.remote w.mHandle10 (Method.powerHint hintId data)]) := by
  unfold HidlHalWrapperSeh.sendPowerHint
  split
  · rename_i h
    exact ⟨(OneCall.not_unsupported ⟨Method.powerHintAsync hintId data, rfl⟩).1,
      fun _ => rfl, fun h' => absurd h' h⟩
  · rename_i h
    exact ⟨(OneCall.not_unsupported ⟨Method.powerHint hintId data, rfl⟩).1,
      fun h' => absurd h' h, fun _ => rfl⟩

theorem HidlHalWrapperV1_0.base0_sendPowerHint (env : Env) (h : Option Handle) (tr : Trace)
    (hintId : PowerHint) (data : Nat) :
    (HidlHalWrapper.sendPowerHint env { gen := HidlGen.v1_0, mHandleV1_0 := h } tr hintId
        data).2 = tr ++ [Event.remote h (Method.powerHint hintId data)] ∧
      (HidlHalWrapper.sendPowerHint env { gen := HidlGen.v1_0, mHandleV1_0 := h } tr hintId
        data).1 ≠ HalResult.unsupported :=
  ⟨rfl, (HidlHalWrapper.sendPowerHint_oneCall env _ tr hintId data).not_unsupported.1⟩

/-- The vendor-blended wrapper `w` answers like the 1.0 wrapper with handle `h`: pair
`r` of `w` against pair `r0` of the 1.0 wrapper, both started at `tr`.  Unsupported for
the one exactly when for the other; and when the 1.0 wrapper made a hint call, `w` made
the call with the same hint code and payload, `powerHintAsync` through `mHandle11`
when that is present and `powerHint` through `mHandle10` otherwise. -/
theorem HidlHalWrapperSeh.mirror_hint (env env0 : Env) (w : HidlHalWrapperSeh)
    (h : Option Handle) (tr : Trace) (hintId : PowerHint) (data : Nat) :
    ((w.sendPowerHint env tr hintId data).1 = HalResult.unsupported ↔
        (HidlHalWrapper.sendPowerHint env0 { gen := HidlGen.v1_0, mHandleV1_0 := h } tr hintId
          data).1 = HalResult.unsupported) ∧
      (∀ (hint0 : PowerHint) (data0 : Nat),
        (HidlHalWrapper.sendPowerHint env0 { gen := HidlGen.v1_0, mHandleV1_0 := h } tr hintId
            data).2 = tr ++ [Event.remote h (Method.powerHint hint0 data0)] →
          (w.sendPowerHint env tr hintId data).2 =
            tr ++ [if w.mHandle11 ≠ none
              then Event.remote w.mHandle11 (Method.powerHintAsync hint0 data0)
              else Event.remote w.mHandle10 (Method.powerHint hint0 data0)]) := by
  obtain ⟨s1, s2, s3⟩ := HidlHalWrapperSeh.sendPowerHint_eq env w tr hintId data
  obtain ⟨b1, b2⟩ := HidlHalWrapperV1_0.base0_sendPowerHint env0 h tr hintId data
  refine ⟨⟨fun hu => absurd hu s1, fun hu => absurd hu b2⟩, ?_⟩
  intro hint0 data0 heq
  rw [b1] at heq
  have he := List.append_cancel_left heq
  simp only [List.cons.injEq, Event.remote.injEq, Method.powerHint.injEq, true_and,
    and_true] at he
  obtain ⟨rfl, rfl⟩ := he
  by_cases h11 : w.mHandle11 = none
  · rw [s3 h11, if_neg (by simpa using h11)]
  · rw [s2 h11, if_pos h11]
theorem not_append_singleton_self (tr : Trace) (e : Event) : tr ≠ tr ++ [e] := by
  intro h
  have := congrArg List.length h
  simp at this

theorem HalResult.fromReturn_ne_unsupported (ret : HidlReturn) :
    HalResult.fromReturn ret ≠ HalResult.unsupported := by
  unfold HalResult.fromReturn
  split <;> intro h <;> cases h

theorem HidlHalWrapperSeh.setInteractive_supported (env : Env) (w : HidlHalWrapperSeh)
    (tr : Trace) (enabled : Bool) :
    (w.setInteractive env tr enabled).1 ≠ HalResult.unsupported := by
  unfold HidlHalWrapperSeh.setInteractive
  exact HalResult.fromReturn_ne_unsupported _

/-- C23: the vendor-blended wrapper mirrors the mapping of `HidlHalWrapperV1_0`: for
every boost and every mode, `HidlHalWrapperSeh::setBoost`/`setMode` returns Unsupported
exactly when `HidlHalWrapperV1_0` does, and for every value the 1.0 wrapper delivers as
a hint call it sends the same hint code and payload, carried by `powerHintAsync` on the
generation-1.1 handle when that handle is present and by `powerHint` on the
generation-1.0 handle otherwise. -/
theorem C23_vendor_blend_mirrors_base0 (env env0 : Env) (w : HidlHalWrapperSeh)
    (h : Option Handle) (tr : Trace) (boost : Boost) (durationMs : Int) (mode : Mode)
    (enabled : Bool) :
    (((w.setBoost env tr boost durationMs).1 = HalResult.unsupported ↔
        (HidlHalWrapper.setBoost env0 { gen := HidlGen.v1_0, mHandleV1_0 := h } tr boost
          durationMs).1 = HalResult.unsupported) ∧
      (∀ (hint0 : PowerHint) (data0 : Nat),
        (HidlHalWrapper.setBoost env0 { gen := HidlGen.v1_0, mHandleV1_0 := h } tr boost
            durationMs).2 = tr ++ [Event.remote h (Method.powerHint hint0 data0)] →
          (w.setBoost env tr boost durationMs).2 =
            tr ++ [if w.mHandle11 ≠ none
              then Event.remote w.mHandle11 (Method.powerHintAsync hint0 data0)
              else Event.remote w.mHandle10 (Method.powerHint hint0 data0)])) ∧
      (((w.setMode env tr mode enabled).1 = HalResult.unsupported ↔
        (HidlHalWrapper.setMode env0 { gen := HidlGen.v1_0, mHandleV1_0 := h } tr mode
          enabled).1 = HalResult.unsupported) ∧
      (∀ (hint0 : PowerHint) (data0 : Nat),
        (HidlHalWrapper.setMode env0 { gen := HidlGen.v1_0, mHandleV1_0 := h } tr mode
            enabled).2 = tr ++ [Event.remote h (Method.powerHint hint0 data0)] →
          (w.setMode env tr mode enabled).2 =
            tr ++ [if w.mHandle11 ≠ none
              then Event.remote w.mHandle11 (Method.powerHintAsync hint0 data0)
              else Event.remote w.mHandle10 (Method.powerHint hint0 data0)])) := by
  have hdef : ∀ r0 : HalResult Unit × Trace, r0 = (HalResult.unsupported, tr) →
      (((HalResult.unsupported : HalResult Unit), tr).1 = HalResult.unsupported ↔
        r0.1 = HalResult.unsupported) ∧
      (∀ (hint0 : PowerHint) (data0 : Nat),
        r0.2 = tr ++ [Event.remote h (Method.powerHint hint0 data0)] →
          ((HalResult.unsupported : HalResult Unit), tr).2 =
            tr ++ [if w.mHandle11 ≠ none
              then Event.remote w.mHandle11 (Method.powerHintAsync hint0 data0)
              else Event.remote w.mHandle10 (Method.powerHint hint0 data0)]) := by
    rintro r0 rfl
    exact ⟨Iff.rfl, fun _ _ hc => absurd hc (not_append_singleton_self tr _)⟩
  refine ⟨?_, ?_⟩
  · simp only [HidlHalWrapper.setBoost, HidlHalWrapperV1_0.setBoost, HidlHalWrapperSeh.setBoost]
    by_cases hb : boost = Boost.INTERACTION
    · rw [if_pos hb, if_pos hb]
      exact HidlHalWrapperSeh.mirror_hint env env0 w h tr _ _
    · rw [if_neg hb, if_neg hb]
      exact hdef _ rfl
  · simp only [HidlHalWrapper.setMode, HidlHalWrapperV1_0.setMode, HidlHalWrapperSeh.setMode]
    by_cases h1 : mode = Mode.LAUNCH
    · rw [if_pos h1, if_pos h1]
      exact HidlHalWrapperSeh.mirror_hint env env0 w h tr _ _
    rw [if_neg h1, if_neg h1]
    by_cases h2 : mode = Mode.LOW_POWER
    · rw [if_pos h2, if_pos h2]
      exact HidlHalWrapperSeh.mirror_hint env env0 w h tr _ _
    rw [if_neg h2, if_neg h2]
    by_cases h3 : mode = Mode.SUSTAINED_PERFORMANCE
    · rw [if_pos h3, if_pos h3]
      exact HidlHalWrapperSeh.mirror_hint env env0 w h tr _ _
    rw [if_neg h3, if_neg h3]
    by_cases h4 : mode = Mode.VR
    · rw [if_pos h4, if_pos h4]
      exact HidlHalWrapperSeh.mirror_hint env env0 w h tr _ _
    rw [if_neg h4, if_neg h4]
    by_cases h5 : mode = Mode.INTERACTIVE
    · rw [if_pos h5, if_pos h5]
      refine ⟨⟨fun hu => ?_, fun hu => ?_⟩, ?_⟩
      · exact absurd hu (HidlHalWrapperSeh.setInteractive_supported env w tr enabled)
      · exact absurd hu (OneCall.not_unsupported ⟨Method.setInteractive enabled, rfl⟩).1
      · intro hint0 data0 hc
        have he := List.append_cancel_left hc
        simp [HidlHalWrapperV1_0.setInteractive, record] at he
    rw [if_neg h5, if_neg h5]
    by_cases h6 : mode = Mode.DOUBLE_TAP_TO_WAKE
    · rw [if_pos h6, if_pos h6]
      refine ⟨⟨fun hu => ?_, fun hu => ?_⟩, ?_⟩
      · exact absurd hu (OneCall.not_unsupported
          ⟨Method.setFeature Feature.POWER_FEATURE_DOUBLE_TAP_TO_WAKE enabled, rfl⟩).1
      · exact absurd hu (OneCall.not_unsupported
          ⟨Method.setFeature Feature.POWER_FEATURE_DOUBLE_TAP_TO_WAKE enabled, rfl⟩).1
      · intro hint0 data0 hc
        have he := List.append_cancel_left hc
        simp [HidlHalWrapperV1_0.setFeature, record] at he
    rw [if_neg h6, if_neg h6]
    exact hdef _ rfl

/-- Witness for C23: boost `INTERACTION` on a vendor-blended wrapper without a 1.1
handle. -/
theorem C23_witness :
    (HidlHalWrapperSeh.example.setBoost Env.workingHidl [] Boost.INTERACTION 100).2 =
      [] ++ [if HidlHalWrapperSeh.example.mHandle11 ≠ none
        then Event.remote HidlHalWrapperSeh.example.mHandle11
          (Method.powerHintAsync PowerHint.INTERACTION 100)
        else Event.remote HidlHalWrapperSeh.example.mHandle10
          (Method.powerHint PowerHint.INTERACTION 100)] :=
  (C23_vendor_blend_mirrors_base0 Env.workingHidl Env.workingHidl HidlHalWrapperSeh.example
    (some 1) [] Boost.INTERACTION 100 Mode.LAUNCH true).1.2 PowerHint.INTERACTION 100
    (by decide)

/-! ## AIDL wrapper: the cache invariant -/

theorem AidlHalWrapper.setBoost_object (env : Env) (w : AidlHalWrapper) (tr : Trace)
    (boost : Boost) (durationMs : Int) :
    (w.setBoost env tr boost durationMs).2.1 = w ∨
      (entry w.mBoostSupportedArray boost = some HalSupport.UNKNOWN ∧
        ∃ v : HalSupport, (v = HalSupport.ON ∨ v = HalSupport.OFF) ∧
          (w.setBoost env tr boost durationMs).2.1 =
            { w with mBoostSupportedArray := w.mBoostSupportedArray.set (toSizeT boost) v }) := by
  cases he : entry w.mBoostSupportedArray boost with
  | none => rw [AidlHalWrapper.setBoost_out_of_range env w tr boost durationMs he]; exact Or.inl rfl
  | some v =>
    cases v with
    | ON => rw [AidlHalWrapper.setBoost_on env w tr boost durationMs he]; exact Or.inl rfl
    | OFF => rw [AidlHalWrapper.setBoost_off env w tr boost durationMs he]; exact Or.inl rfl
    | UNKNOWN =>
      rw [AidlHalWrapper.setBoost_unknown env w tr boost durationMs he]
      split_ifs
      · exact Or.inr ⟨rfl, HalSupport.ON, Or.inl rfl, rfl⟩
      · exact Or.inr ⟨rfl, HalSupport.OFF, Or.inr rfl, rfl⟩
      · exact Or.inl rfl

theorem AidlHalWrapper.setMode_object (env : Env) (w : AidlHalWrapper) (tr : Trace)
    (mode : Mode) (enabled : Bool) :
    (w.setMode env tr mode enabled).2.1 = w ∨
      (entry w.mModeSupportedArray mode = some HalSupport.UNKNOWN ∧
        ∃ v : HalSupport, (v = HalSupport.ON ∨ v = HalSupport.OFF) ∧
          (w.setMode env tr mode enabled).2.1 =
            { w with mModeSupportedArray := w.mModeSupportedArray.set (toSizeT mode) v }) := by
  cases he : entry w.mModeSupportedArray mode with
  | none => rw [AidlHalWrapper.setMode_out_of_range env w tr mode enabled he]; exact Or.inl rfl
  | some v =>
    cases v with
    | ON => rw [AidlHalWrapper.setMode_on env w tr mode enabled he]; exact Or.inl rfl
    | OFF => rw [AidlHalWrapper.setMode_off env w tr mode enabled he]; exact Or.inl rfl
    | UNKNOWN =>
      rw [AidlHalWrapper.setMode_unknown env w tr mode enabled he]
      split_ifs
      · exact Or.inr ⟨rfl, HalSupport.ON, Or.inl rfl, rfl⟩
      · exact Or.inr ⟨rfl, HalSupport.OFF, Or.inr rfl, rfl⟩
      · exact Or.inl rfl

/-- What a write of a decided value `v` at the entry of `k`, which was `UNKNOWN`, does to
the entries of a support array. -/
theorem entry_after_write (arr : List HalSupport) (k : Int) (v : HalSupport)
    (hk : entry arr k = some HalSupport.UNKNOWN) (hv : v = HalSupport.ON ∨ v = HalSupport.OFF) :
    (arr.set (toSizeT k) v).length = arr.length ∧
      (∀ id : Int, toSizeT id ≠ toSizeT k →
        entry (arr.set (toSizeT k) v) id = entry arr id) ∧
      (∀ id : Int, entry (arr.set (toSizeT k) v) id ≠ entry arr id →
        entry arr id = some HalSupport.UNKNOWN ∧
          (entry (arr.set (toSizeT k) v) id = some HalSupport.ON ∨
            entry (arr.set (toSizeT k) v) id = some HalSupport.OFF)) := by
  have hlt := (entry_eq_some.mp hk).1
  refine ⟨List.length_set _ _ _, ?_, ?_⟩
  · intro id hne
    rw [entry_set arr k id v hlt, if_neg (Ne.symm hne)]
  · intro id
    rw [entry_set arr k id v hlt]
    split
    · rename_i heq
      intro _
      have hid : entry arr id = some HalSupport.UNKNOWN := by
        unfold entry at hk ⊢
        rw [← heq]
        exact hk
      refine ⟨hid, ?_⟩
      rcases hv with rfl | rfl
      · exact Or.inl rfl
      · exact Or.inr rfl
    · intro hne
      exact absurd rfl hne

/-- The frame of one `setBoost`/`setMode` call on the two support arrays. -/
theorem AidlHalWrapper.cache_frame (env : Env) (w : AidlHalWrapper) (tr : Trace)
    (boost : Boost) (durationMs : Int) (mode : Mode) (enabled : Bool) :
    ((w.setBoost env tr boost durationMs).2.1.mModeSupportedArray = w.mModeSupportedArray ∧
      (w.setBoost env tr boost durationMs).2.1.mBoostSupportedArray.length =
        w.mBoostSupportedArray.length ∧
      (∀ id : Int, toSizeT id ≠ toSizeT boost →
        entry (w.setBoost env tr boost durationMs).2.1.mBoostSupportedArray id =
          entry w.mBoostSupportedArray id) ∧
      (∀ id : Int,
        entry (w.setBoost env tr boost durationMs).2.1.mBoostSupportedArray id ≠
            entry w.mBoostSupportedArray id →
          entry w.mBoostSupportedArray id = some HalSupport.UNKNOWN ∧
            (entry (w.setBoost env tr boost durationMs).2.1.mBoostSupportedArray id =
                some HalSupport.ON ∨
              entry (w.setBoost env tr boost durationMs).2.1.mBoostSupportedArray id =
                some HalSupport.OFF))) ∧
    ((w.setMode env tr mode enabled).2.1.mBoostSupportedArray = w.mBoostSupportedArray ∧
      (w.setMode env tr mode enabled).2.1.mModeSupportedArray.length =
        w.mModeSupportedArray.length ∧
      (∀ id : Int, toSizeT id ≠ toSizeT mode →
        entry (w.setMode env tr mode enabled).2.1.mModeSupportedArray id =
          entry w.mModeSupportedArray id) ∧
      (∀ id : Int,
        entry (w.setMode env tr mode enabled).2.1.mModeSupportedArray id ≠
            entry w.mModeSupportedArray id →
          entry w.mModeSupportedArray id = some HalSupport.UNKNOWN ∧
            (entry (w.setMode env tr mode enabled).2.1.mModeSupportedArray id =
                some HalSupport.ON ∨
              entry (w.setMode env tr mode enabled).2.1.mModeSupportedArray id =
                some HalSupport.OFF))) := by
  refine ⟨⟨AidlHalWrapper.setBoost_modeArray env w tr boost durationMs, ?_⟩,
    ⟨AidlHalWrapper.setMode_boostArray env w tr mode enabled, ?_⟩⟩
  · rcases AidlHalWrapper.setBoost_object env w tr boost durationMs with h | ⟨hk, v, hv, h⟩
    · rw [h]
      exact ⟨rfl, fun _ _ => rfl, fun _ hne => absurd rfl hne⟩
    · rw [h]
      exact entry_after_write w.mBoostSupportedArray boost v hk hv
  · rcases AidlHalWrapper.setMode_object env w tr mode enabled with h | ⟨hk, v, hv, h⟩
    · rw [h]
      exact ⟨rfl, fun _ _ => rfl, fun _ hne => absurd rfl hne⟩
    · rw [h]
      exact entry_after_write w.mModeSupportedArray mode v hk hv

theorem AidlHalWrapper.step_decided (env : Env) (w : AidlHalWrapper) (tr : Trace) (op : HalOp)
    (id : Int) (v : HalSupport) (hv : v ≠ HalSupport.UNKNOWN) :
    (entry w.mBoostSupportedArray id = some v →
        entry (w.step env tr op).1.mBoostSupportedArray id = some v) ∧
      (entry w.mModeSupportedArray id = some v →
        entry (w.step env tr op).1.mModeSupportedArray id = some v) := by
  have keep : ∀ a b : Option HalSupport, a = some v →
      (b ≠ a → a = some HalSupport.UNKNOWN ∧ (b = some HalSupport.ON ∨ b = some HalSupport.OFF)) →
      b = some v := by
    intro a b ha hch
    by_contra hb
    have hne : b ≠ a := by rw [ha]; exact hb
    have hu := (hch hne).1
    rw [ha] at hu
    exact hv (Option.some.inj hu)
  cases op with
  | setBoost boost durationMs =>
    obtain ⟨⟨hm, _, _, hch⟩, _⟩ := AidlHalWrapper.cache_frame env w tr boost durationMs 0 false
    refine ⟨fun h => keep _ _ h (hch id), fun h => ?_⟩
    show entry (w.setBoost env tr boost durationMs).2.1.mModeSupportedArray id = some v
    rw [hm]
    exact h
  | setMode mode enabled =>
    obtain ⟨_, ⟨hb, _, _, hch⟩⟩ := AidlHalWrapper.cache_frame env w tr 0 0 mode enabled
    refine ⟨fun h => ?_, fun h => keep _ _ h (hch id)⟩
    show entry (w.setMode env tr mode enabled).2.1.mBoostSupportedArray id = some v
    rw [hb]
    exact h
  | _ => exact ⟨fun h => h, fun h => h⟩

theorem AidlHalWrapper.run_decided (env : Env) (w : AidlHalWrapper) (tr : Trace)
    (ops : List HalOp) (id : Int) (v : HalSupport) (hv : v ≠ HalSupport.UNKNOWN) :
    (entry w.mBoostSupportedArray id = some v →
        entry (w.run env tr ops).1.mBoostSupportedArray id = some v) ∧
      (entry w.mModeSupportedArray id = some v →
        entry (w.run env tr ops).1.mModeSupportedArray id = some v) := by
  induction ops generalizing w tr with
  | nil => exact ⟨fun h => h, fun h => h⟩
  | cons op ops ih =>
    have hs := AidlHalWrapper.step_decided env w tr op id v hv
    have hr := ih (w.step env tr op).1 (w.step env tr op).2
    exact ⟨fun h => hr.1 (hs.1 h), fun h => hr.2 (hs.2 h)⟩

/-- C24: cache invariant of the AIDL wrapper.  Both support arrays start with every entry
`UNKNOWN`; a `setBoost(k, _)` call never changes the mode array and changes at most the
entry of `k` in the boost array (symmetrically for `setMode`); the only change ever
made to an entry is from `UNKNOWN` to `ON` or from `UNKNOWN` to `OFF`; so an entry that
is `ON` or `OFF` keeps that value under every later sequence of operations, whatever
their outcomes. -/
theorem C24_cache_invariant (env : Env) (nBoost nMode : Nat) (handle sehHandle : Option Handle)
    (w : AidlHalWrapper) (tr : Trace) (boost : Boost) (durationMs : Int) (mode : Mode)
    (enabled : Bool) :
    ((∀ x ∈ (AidlHalWrapper.create nBoost nMode handle sehHandle).mBoostSupportedArray,
          x = HalSupport.UNKNOWN) ∧
        (∀ x ∈ (AidlHalWrapper.create nBoost nMode handle sehHandle).mModeSupportedArray,
          x = HalSupport.UNKNOWN) ∧
        (AidlHalWrapper.create nBoost nMode handle sehHandle).mBoostSupportedArray.length =
          nBoost ∧
        (AidlHalWrapper.create nBoost nMode handle sehHandle).mModeSupportedArray.length =
          nMode) ∧
      ((w.setBoost env tr boost durationMs).2.1.mModeSupportedArray = w.mModeSupportedArray ∧
        (w.setBoost env tr boost durationMs).2.1.mBoostSupportedArray.length =
          w.mBoostSupportedArray.length ∧
        (∀ id : Int, toSizeT id ≠ toSizeT boost →
          entry (w.setBoost env tr boost durationMs).2.1.mBoostSupportedArray id =
            entry w.mBoostSupportedArray id) ∧
        (∀ id : Int,
          entry (w.setBoost env tr boost durationMs).2.1.mBoostSupportedArray id ≠
              entry w.mBoostSupportedArray id →
            entry w.mBoostSupportedArray id = some HalSupport.UNKNOWN ∧
              (entry (w.setBoost env tr boost durationMs).2.1.mBoostSupportedArray id =
                  some HalSupport.ON ∨
                entry (w.setBoost env tr boost durationMs).2.1.mBoostSupportedArray id =
                  some HalSupport.OFF))) ∧
      ((w.setMode env tr mode enabled).2.1.mBoostSupportedArray = w.mBoostSupportedArray ∧
        (w.setMode env tr mode enabled).2.1.mModeSupportedArray.length =
          w.mModeSupportedArray.length ∧
        (∀ id : Int, toSizeT id ≠ toSizeT mode →
          entry (w.setMode env tr mode enabled).2.1.mModeSupportedArray id =
            entry w.mModeSupportedArray id) ∧
        (∀ id : Int,
          entry (w.setMode env tr mode enabled).2.1.mModeSupportedArray id ≠
              entry w.mModeSupportedArray id →
            entry w.mModeSupportedArray id = some HalSupport.UNKNOWN ∧
              (entry (w.setMode env tr mode enabled).2.1.mModeSupportedArray id =
                  some HalSupport.ON ∨
                entry (w.setMode env tr mode enabled).2.1.mModeSupportedArray id =
                  some HalSupport.OFF))) ∧
      (∀ (later : List HalOp) (id : Int) (v : HalSupport), v ≠ HalSupport.UNKNOWN →
        (entry w.mBoostSupportedArray id = some v →
            entry (w.run env tr later).1.mBoostSupportedArray id = some v) ∧
          (entry w.mModeSupportedArray id = some v →
            entry (w.run env tr later).1.mModeSupportedArray id = some v)) := by
  refine ⟨⟨?_, ?_, ?_, ?_⟩, (AidlHalWrapper.cache_frame env w tr boost durationMs mode enabled).1,
    (AidlHalWrapper.cache_frame env w tr boost durationMs mode enabled).2,
    fun later id v hv => AidlHalWrapper.run_decided env w tr later id v hv⟩
  · intro x hx
    exact List.eq_of_mem_replicate hx
  · intro x hx
    exact List.eq_of_mem_replicate hx
  · exact List.length_replicate _ _
  · exact List.length_replicate _ _

/-! ## AIDL wrapper: values outside the support arrays -/

theorem toSizeT_out_of_range (n : Nat) (id : Int) (h32 : -2 ^ 31 ≤ id ∧ id < 2 ^ 31)
    (hn : n ≤ 2 ^ 31) (hout : id < 0 ∨ (n : Int) ≤ id) : n ≤ toSizeT id := by
  unfold toSizeT
  omega

/-- C25: for every boost or mode value (a 32-bit integer) that is negative or greater
than or equal to the size of the corresponding support array, the index computed from
it lies outside the array, and `AidlHalWrapper::setBoost`/`setMode` returns
Unsupported, leaves the object and so both caches unchanged, and issues no support
query and no operation call (`setBoost` no call at all, `setMode` at most the
notification of the vendor side channel). -/
theorem C25_out_of_range_is_unsupported (env : Env) (w : AidlHalWrapper) (tr : Trace)
    (boost : Boost) (durationMs : Int) (mode : Mode) (enabled : Bool)
    (hboost32 : -2 ^ 31 ≤ boost ∧ boost < 2 ^ 31) (hmode32 : -2 ^ 31 ≤ mode ∧ mode < 2 ^ 31)
    (hboostLen : w.mBoostSupportedArray.length ≤ 2 ^ 31)
    (hmodeLen : w.mModeSupportedArray.length ≤ 2 ^ 31)
    (hboost : boost < 0 ∨ (w.mBoostSupportedArray.length : Int) ≤ boost)
    (hmode : mode < 0 ∨ (w.mModeSupportedArray.length : Int) ≤ mode) :
    (entry w.mBoostSupportedArray boost = none ∧
        w.setBoost env tr boost durationMs = (HalResult.unsupported, w, tr)) ∧
      (entry w.mModeSupportedArray mode = none ∧
        (w.setMode env tr mode enabled).1 = HalResult.unsupported ∧
        (w.setMode env tr mode enabled).2.1 = w ∧
        (w.setMode env tr mode enabled).2.2 = w.notifySeh tr mode enabled ∧
        probes (w.setMode env tr mode enabled).2.2 = probes tr ∧
        operations (w.setMode env tr mode enabled).2.2 = operations tr) := by
  have hb : entry w.mBoostSupportedArray boost = none :=
    entry_eq_none.mpr (toSizeT_out_of_range _ boost hboost32 hboostLen hboost)
  have hm : entry w.mModeSupportedArray mode = none :=
    entry_eq_none.mpr (toSizeT_out_of_range _ mode hmode32 hmodeLen hmode)
  rw [AidlHalWrapper.setMode_out_of_range env w tr mode enabled hm]
  exact ⟨⟨hb, AidlHalWrapper.setBoost_out_of_range env w tr boost durationMs hb⟩,
    hm, rfl, rfl, rfl, AidlHalWrapper.notifySeh_probes w tr mode enabled,
    AidlHalWrapper.notifySeh_operations w tr mode enabled⟩

/-- Witness for C25: boost value -1 and mode value 19 on a fresh wrapper with arrays of
sizes 6 and 19. -/
theorem C25_witness :
    (entry AidlHalWrapper.fresh.mBoostSupportedArray (-1) = none ∧
        AidlHalWrapper.fresh.setBoost Env.workingAidl [] (-1) 100 =
          (HalResult.unsupported, AidlHalWrapper.fresh, [])) ∧
      (entry AidlHalWrapper.fresh.mModeSupportedArray 19 = none ∧
        (AidlHalWrapper.fresh.setMode Env.workingAidl [] 19 true).1 = HalResult.unsupported ∧
        (AidlHalWrapper.fresh.setMode Env.workingAidl [] 19 true).2.1 = AidlHalWrapper.fresh ∧
        (AidlHalWrapper.fresh.setMode Env.workingAidl [] 19 true).2.2 =
          AidlHalWrapper.fresh.notifySeh [] 19 true ∧
        probes (AidlHalWrapper.fresh.setMode Env.workingAidl [] 19 true).2.2 = probes [] ∧
        operations (AidlHalWrapper.fresh.setMode Env.workingAidl [] 19 true).2.2 =
          operations []) :=
  C25_out_of_range_is_unsupported Env.workingAidl AidlHalWrapper.fresh [] (-1) 100 19 true
    (by decide) (by decide) (by decide) (by decide) (by decide) (by decide)

/-! ## Null handles -/

theorem nullCalls_append_some (tr : Trace) (h : Handle) (m : Method) :
    nullCalls (tr ++ [Event.remote (some h) m]) = nullCalls tr := by
  simp [nullCalls, List.countP_append, List.countP_cons, Event.isNullCall]

theorem nullCalls_append_hal (tr : Trace) (op : HalOp) :
    nullCalls (tr ++ [Event.hal op]) = nullCalls tr := by
  simp [nullCalls, List.countP_append, List.countP_cons, Event.isNullCall]

theorem nullCalls_record_some (tr : Trace) (h : Handle) (m : Method) :
    nullCalls (record tr (some h) m) = nullCalls tr :=
  nullCalls_append_some tr h m

theorem HidlHalWrapper.hidl_no_null_call (env : Env) (w : HidlHalWrapper) (tr : Trace)
    (handle : Handle) (hh : w.mHandleV1_0 = some handle) (boost : Boost) (durationMs : Int)
    (mode : Mode) (enabled : Bool) :
    nullCalls (w.setBoost env tr boost durationMs).2 = nullCalls tr ∧
      nullCalls (w.setMode env tr mode enabled).2 = nullCalls tr := by
  refine ⟨?_, ?_⟩
  · rcases HidlHalWrapper.hidl_setBoost_cases env w tr boost durationMs with h | ⟨m, h⟩
    · rw [h]
    · rw [h, hh]
      exact nullCalls_append_some tr handle m
  · rcases HidlHalWrapper.hidl_setMode_cases env w tr mode enabled with h | ⟨m, h⟩
    · rw [h]
    · rw [h, hh]
      exact nullCalls_append_some tr handle m

theorem AidlHalWrapper.aidl_no_null_call (env : Env) (w : AidlHalWrapper) (tr : Trace)
    (handle : Handle) (hh : w.mHandle = some handle) (boost : Boost) (durationMs : Int)
    (mode : Mode) (enabled : Bool) :
    nullCalls (w.setBoost env tr boost durationMs).2.2 = nullCalls tr ∧
      nullCalls (w.setMode env tr mode enabled).2.2 = nullCalls tr := by
  have hn : nullCalls (w.notifySeh tr mode enabled) = nullCalls tr := by
    unfold AidlHalWrapper.notifySeh
    split
    · rename_i hs
      cases hseh : w.mHandleSeh with
      | none => exact absurd hseh hs.1
      | some s => exact nullCalls_record_some tr s _
    · rfl
  refine ⟨?_, ?_⟩
  · unfold AidlHalWrapper.setBoost
    simp only [hh]
    split_ifs <;> simp only [nullCalls_record_some]
  · unfold AidlHalWrapper.setMode
    simp only [hh]
    split_ifs <;> simp only [nullCalls_record_some, hn]

theorem HidlHalWrapperSeh.seh_no_null_call (env : Env) (w : HidlHalWrapperSeh) (tr : Trace)
    (handle : Handle) (hh : w.mHandle10 = some handle) (boost : Boost) (durationMs : Int)
    (mode : Mode) (enabled : Bool) :
    nullCalls (w.setBoost env tr boost durationMs).2 = nullCalls tr ∧
      nullCalls (w.setMode env tr mode enabled).2 = nullCalls tr := by
  have hhint : ∀ hintId data, nullCalls (w.sendPowerHint env tr hintId data).2 = nullCalls tr := by
    intro hintId data
    unfold HidlHalWrapperSeh.sendPowerHint
    split
    · rename_i h11
      cases h : w.mHandle11 with
      | none => exact absurd h h11
      | some x => exact nullCalls_record_some tr x _
    · simp only [hh]
      exact nullCalls_record_some tr handle _
  have hinter : nullCalls (w.setInteractive env tr enabled).2 = nullCalls tr := by
    unfold HidlHalWrapperSeh.setInteractive
    simp only [hh, nullCalls_record_some]
    split
    · rename_i hs
      cases h : w.mHandleSeh with
      | none => exact absurd h hs
      | some x => exact nullCalls_record_some tr x _
    · rfl
  have hfeat : ∀ f, nullCalls (w.setFeature env tr f enabled).2 = nullCalls tr := by
    intro f
    unfold HidlHalWrapperSeh.setFeature
    simp only [hh]
    exact nullCalls_record_some tr handle _
  refine ⟨?_, ?_⟩
  · unfold HidlHalWrapperSeh.setBoost
    split
    · exact hhint _ _
    · rfl
  · unfold HidlHalWrapperSeh.setMode
    simp only
    split_ifs
    all_goals first
      | exact hhint _ _
      | exact hinter
      | exact hfeat _
      | rfl

/-- Where the safety property holds: unless the loader supplies the vendor side channel
without the AIDL handle and without the generation-1.0 handle, the backend `connect`
returns makes no `setBoost`/`setMode` call through a null handle. -/
theorem HalConnector.connect_no_null_call (env : Env) (nBoost nMode : Nat)
    (loader : PowerHalLoader) (hal : HalWrapper) (tr : Trace)
    (hgood : ¬ (loader.loadAidl = none ∧ loader.loadHidlSeh ≠ none ∧
      loader.loadHidlV1_0 = none))
    (hconn : HalConnector.connect nBoost nMode loader = some hal)
    (boost : Boost) (durationMs : Int) (mode : Mode) (enabled : Bool) :
    nullCalls (hal.setBoost env tr boost durationMs).2.2 = nullCalls tr ∧
      nullCalls (hal.setMode env tr mode enabled).2.2 = nullCalls tr := by
  have hcases : (∃ w handle, hal = HalWrapper.hidl w ∧ w.mHandleV1_0 = some handle) ∨
      (∃ w handle, hal = HalWrapper.aidl w ∧ w.mHandle = some handle) ∨
      (∃ w handle, hal = HalWrapper.seh w ∧ w.mHandle10 = some handle) := by
    revert hconn
    unfold HalConnector.connect
    cases ha : loader.loadAidl with
    | some a =>
      intro hconn
      simp only [Option.some.injEq] at hconn
      exact Or.inr (Or.inl ⟨_, a, hconn.symm, rfl⟩)
    | none =>
      simp only
      cases hs : loader.loadHidlSeh with
      | some s =>
        cases h0 : loader.loadHidlV1_0 with
        | none => exact absurd ⟨ha, by rw [hs]; simp, h0⟩ hgood
        | some x =>
          intro hconn
          simp only [ne_eq, reduceCtorEq, not_false_eq_true, if_true, Option.some.injEq]
            at hconn
          exact Or.inr (Or.inr ⟨_, x, hconn.symm, rfl⟩)
      | none =>
        cases h0 : loader.loadHidlV1_0 with
        | none => simp
        | some x =>
          cases h3 : loader.loadHidlV1_3 with
          | some y =>
            intro hconn
            simp only [ne_eq, not_true_eq_false, if_false, reduceCtorEq, not_false_eq_true,
              if_true, Option.some.injEq] at hconn
            exact Or.inl ⟨_, y, hconn.symm, rfl⟩
          | none =>
            cases h2 : loader.loadHidlV1_2 with
            | some y =>
              intro hconn
              simp only [ne_eq, not_true_eq_false, if_false, reduceCtorEq, not_false_eq_true,
                if_true, Option.some.injEq] at hconn
              exact Or.inl ⟨_, y, hconn.symm, rfl⟩
            | none =>
              cases h1 : loader.loadHidlV1_1 with
              | some y =>
                intro hconn
                simp only [ne_eq, not_true_eq_false, if_false, reduceCtorEq,
                  not_false_eq_true, if_true, Option.some.injEq] at hconn
                exact Or.inl ⟨_, y, hconn.symm, rfl⟩
              | none =>
                intro hconn
                simp only [ne_eq, not_true_eq_false, if_false, reduceCtorEq,
                  not_false_eq_true, if_true, Option.some.injEq] at hconn
                exact Or.inl ⟨_, x, hconn.symm, rfl⟩
  rcases hcases with ⟨w, handle, rfl, hh⟩ | ⟨w, handle, rfl, hh⟩ | ⟨w, handle, rfl, hh⟩
  · obtain ⟨h1, h2⟩ := HidlHalWrapper.hidl_no_null_call env w
      (tr ++ [Event.hal (HalOp.setBoost boost durationMs)]) handle hh boost durationMs mode
      enabled
    obtain ⟨_, h4⟩ := HidlHalWrapper.hidl_no_null_call env w
      (tr ++ [Event.hal (HalOp.setMode mode enabled)]) handle hh boost durationMs mode enabled
    exact ⟨by simpa [HalWrapper.setBoost, nullCalls_append_hal] using h1,
      by simpa [HalWrapper.setMode, nullCalls_append_hal] using h4⟩
  · obtain ⟨h1, h2⟩ := AidlHalWrapper.aidl_no_null_call env w
      (tr ++ [Event.hal (HalOp.setBoost boost durationMs)]) handle hh boost durationMs mode
      enabled
    obtain ⟨_, h4⟩ := AidlHalWrapper.aidl_no_null_call env w
      (tr ++ [Event.hal (HalOp.setMode mode enabled)]) handle hh boost durationMs mode enabled
    exact ⟨by simpa [HalWrapper.setBoost, nullCalls_append_hal] using h1,
      by simpa [HalWrapper.setMode, nullCalls_append_hal] using h4⟩
  · obtain ⟨h1, h2⟩ := HidlHalWrapperSeh.seh_no_null_call env w
      (tr ++ [Event.hal (HalOp.setBoost boost durationMs)]) handle hh boost durationMs mode
      enabled
    obtain ⟨_, h4⟩ := HidlHalWrapperSeh.seh_no_null_call env w
      (tr ++ [Event.hal (HalOp.setMode mode enabled)]) handle hh boost durationMs mode enabled
    exact ⟨by simpa [HalWrapper.setBoost, nullCalls_append_hal] using h1,
      by simpa [HalWrapper.setMode, nullCalls_append_hal] using h4⟩

/-- C26 (divergence): when the loader supplies only the vendor side channel,
`HalConnector::connect` returns a `HidlHalWrapperSeh` whose generation-1.1 and
generation-1.0 handles are null, and its `setBoost(INTERACTION, 100)` and
`setMode(INTERACTIVE, true)` each make a call through the null generation-1.0
handle. -/
theorem C26_vendor_blend_calls_through_null_handle :
    HalConnector.connect 6 19 PowerHalLoader.sehOnly =
        some (HalWrapper.seh { mHandleSeh := some 9, mHandle11 := none, mHandle10 := none }) ∧
      ((HalWrapper.seh { mHandleSeh := some 9, mHandle11 := none, mHandle10 := none }).setBoost
        Env.workingHidl [] Boost.INTERACTION 100).2.2 =
        [Event.hal (HalOp.setBoost Boost.INTERACTION 100),
          Event.remote none (Method.powerHint PowerHint.INTERACTION 100)] ∧
      ((HalWrapper.seh { mHandleSeh := some 9, mHandle11 := none, mHandle10 := none }).setMode
        Env.workingHidl [] Mode.INTERACTIVE true).2.2 =
        [Event.hal (HalOp.setMode Mode.INTERACTIVE true),
          Event.remote (some 9) (Method.setInteractiveAsync true false),
          Event.remote none (Method.setInteractive true)] ∧
      nullCalls ((HalWrapper.seh
        { mHandleSeh := some 9, mHandle11 := none, mHandle10 := none }).setBoost
        Env.workingHidl [] Boost.INTERACTION 100).2.2 = 1 := by
  decide

end PowerHal
